import Mathlib

/-!
# YUView: the VVC decoder adapter (`decoderVVCDec`)

A shallow embedding of `YUViewLib/src/decoder/decoderVVCDec.cpp` and of the parts of
`decoderBase.h` it relies on.  The adapter drives an external, dynamically loaded
decoder library through a push/pull protocol and reassembles the planes of a decoded
picture into one contiguous byte buffer.

Modelling conventions.

* The external library is the function table `LibraryFunctions D`; `D` is the state of
  the external decoder object behind the `decoder` pointer, and `Option D` is the pointer
  itself (`none` is `nullptr`).  Nothing is assumed about what the library computes.
* Every call through the function table is recorded in the ghost field `calls`.
* `uint32_t` arithmetic is arithmetic on `Nat` reduced modulo `2^32`; the conversion
  `int(x)` of a `uint32_t` is `toInt32`.
* A `QByteArray` is its content together with its capacity.  A `memcpy` into the array
  writes the bytes that lie inside the content; a write past the end of the content
  (undefined behaviour in C++) leaves the content as it is.
-/

/-! ## Data model -/

/-- States of a decoder (`decoderBase::DecoderState`). -/
inductive DecoderState
  | NeedsMoreData
  | RetrieveFrames
  | EndOfBitstream
  | Error
  deriving DecidableEq, Repr

/-- Return codes of the external library.  The declaration (`libvvcdec.h`) is not part of
the sources; the adapter only ever compares a code with `LIBVVCDEC_OK`. -/
inductive libvvcdec_error
  | LIBVVCDEC_OK
  | LIBVVCDEC_ERROR
  deriving DecidableEq, Repr

/-- Colour components of a picture, as used by `colorComponentMap`. -/
inductive libvvcdec_ColorComponent
  | LIBVVCDEC_LUMA
  | LIBVVCDEC_CHROMA_U
  | LIBVVCDEC_CHROMA_V
  deriving DecidableEq, Repr

/-- Chroma formats reported by the external library, as distinguished by
`convertFromInternalSubsampling` and `copyImgToByteArray`. -/
inductive libvvcdec_ChromaFormat
  | LIBVVCDEC_CHROMA_UNKNOWN
  | LIBVVCDEC_CHROMA_400
  | LIBVVCDEC_CHROMA_420
  | LIBVVCDEC_CHROMA_422
  | LIBVVCDEC_CHROMA_444
  deriving DecidableEq, Repr

/-- Chroma subsampling of the pixel format (`YUV_Internals::Subsampling`), restricted to the
values `convertFromInternalSubsampling` can produce. -/
inductive Subsampling
  | YUV_400
  | YUV_420
  | YUV_422
  | YUV_444
  | UNKNOWN
  deriving DecidableEq, Repr

/-- Frame size in luma samples. -/
structure Size where
  width : Nat := 0
  height : Nat := 0
  deriving DecidableEq, Repr

/-- The two attributes of `YUV_Internals::YUVPixelFormat` the adapter reads and writes. -/
structure YUVPixelFormat where
  subsampling : Subsampling := Subsampling.UNKNOWN
  bitsPerSample : Nat := 0
  deriving DecidableEq, Repr

/-- The `isValid()` members of `Size` and `YUVPixelFormat`.  Their definitions are not part
of the sources, so the adapter is modelled for arbitrary ones. -/
structure Validity where
  sizeIsValid : Size → Bool
  formatIsValid : YUVPixelFormat → Bool

/-- Modelled from the spec: `Size::isValid` and `YUVPixelFormat::isValid` are missing from
the sources; the spec calls a width or height of zero, an unrecognised subsampling and a
bit depth outside 8..16 invalid.  Used for concrete runs only. -/
def specValidity : Validity where
  sizeIsValid := fun sz => decide (sz.width ≠ 0 ∧ sz.height ≠ 0)
  formatIsValid := fun fmt =>
    decide (fmt.subsampling ≠ Subsampling.UNKNOWN ∧ 8 ≤ fmt.bitsPerSample ∧ fmt.bitsPerSample ≤ 16)

/-- Content and capacity of a `QByteArray`. -/
structure QByteArray where
  bytes : List UInt8 := []
  capacity : Nat := 0
  deriving DecidableEq, Repr

namespace QByteArray

/-- The null byte array, as produced by `QByteArray()`. -/
def null : QByteArray := { bytes := [], capacity := 0 }

/-- Number of bytes of content (`length()` / `size()`). -/
def length (a : QByteArray) : Nat := a.bytes.length

/-- True when there is no content (`isEmpty()`). -/
def isEmpty (a : QByteArray) : Bool := a.bytes.isEmpty

/-- Drops content and storage (`clear()` makes the array null). -/
def clear (_a : QByteArray) : QByteArray := null

/-- Sets the size to `n` (`resize(n)`): content is truncated or extended; the new bytes
are uninitialised in Qt and are taken to be `0` here. -/
def resize (a : QByteArray) (n : Nat) : QByteArray :=
  { bytes := a.bytes.take n ++ List.replicate (n - a.bytes.length) 0
    capacity := max a.capacity n }

end QByteArray

/-- Calls through the function table of the external library. -/
inductive LibCall
  | libvvcdec_new_decoder
  | libvvcdec_free_decoder
  | libvvcdec_push_nal_unit (length : Nat) (eof : Bool)
  | libvvcdec_get_picture_width (c : libvvcdec_ColorComponent)
  | libvvcdec_get_picture_height (c : libvvcdec_ColorComponent)
  | libvvcdec_get_picture_stride (c : libvvcdec_ColorComponent)
  | libvvcdec_get_picture_plane (c : libvvcdec_ColorComponent)
  | libvvcdec_get_picture_chroma_format
  | libvvcdec_get_picture_bit_depth (c : libvvcdec_ColorComponent)
  deriving DecidableEq, Repr

/-- What `libvvcdec_push_nal_unit` hands back: the state of the external decoder after the
call, the return code and the two output flags. -/
structure PushResult (D : Type) where
  decoder : Option D
  err : libvvcdec_error
  bNewPicture : Bool
  checkOutputPictures : Bool

/-- The resolved function table (`this->functions`).  A plane pointer is `none` for
`nullptr` and otherwise the memory readable from it, by byte offset. -/
structure LibraryFunctions (D : Type) where
  libvvcdec_new_decoder : Option D
  libvvcdec_free_decoder : Option D → libvvcdec_error
  libvvcdec_push_nal_unit : Option D → List UInt8 → Nat → Bool → PushResult D
  libvvcdec_get_picture_width : Option D → libvvcdec_ColorComponent → Nat
  libvvcdec_get_picture_height : Option D → libvvcdec_ColorComponent → Nat
  libvvcdec_get_picture_stride : Option D → libvvcdec_ColorComponent → Nat
  libvvcdec_get_picture_plane : Option D → libvvcdec_ColorComponent → Option (Nat → UInt8)
  libvvcdec_get_picture_chroma_format : Option D → libvvcdec_ChromaFormat
  libvvcdec_get_picture_bit_depth : Option D → libvvcdec_ColorComponent → Nat

/-- The members of the function table `this->functions` that
`resolveLibraryFunctionPointers` fills. -/
inductive LibraryFunction
  | libvvcdec_get_version
  | libvvcdec_new_decoder
  | libvvcdec_free_decoder
  | libvvcdec_push_nal_unit
  | libvvcdec_get_picture_POC
  | libvvcdec_get_picture_width
  | libvvcdec_get_picture_height
  | libvvcdec_get_picture_stride
  | libvvcdec_get_picture_plane
  | libvvcdec_get_picture_chroma_format
  | libvvcdec_get_picture_bit_depth
  deriving DecidableEq, Repr

/-- The address of a symbol of a loaded library: the file of the library and the name of
the symbol. -/
structure FunctionPointer where
  library : String
  symbol : String
  deriving DecidableEq, Repr

/-- The files that can be loaded as libraries, each with the symbols it exports (`none` for
a file that does not load). -/
abbrev FileSystem := String → Option (List String)

/-- A `QLibrary`: its file name and, once loaded, the symbols the loaded library exports. -/
structure QLibrary where
  fileName : String := ""
  handle : Option (List String) := none
  deriving DecidableEq, Repr

namespace QLibrary

/-- Sets the file name (`setFileName`); a library loaded before is let go. -/
def setFileName (_lib : QLibrary) (fileName : String) : QLibrary :=
  { fileName := fileName, handle := none }

/-- Loads the library (`load()`) and says whether it is loaded. -/
def load (fs : FileSystem) (lib : QLibrary) : QLibrary × Bool :=
  match lib.handle with
  | some _ => (lib, true)
  | none =>
    match fs lib.fileName with
    | some symbols => ({ lib with handle := some symbols }, true)
    | none => (lib, false)

/-- Looks a symbol up (`resolve(symbol)`), loading the library first when it is not loaded:
`none` is the null pointer. -/
def resolve (fs : FileSystem) (lib : QLibrary) (symbol : String) :
    QLibrary × Option FunctionPointer :=
  match (lib.load fs).1.handle with
  | some symbols =>
    ((lib.load fs).1,
      if symbol ∈ symbols then some { library := lib.fileName, symbol := symbol } else none)
  | none => ((lib.load fs).1, none)

end QLibrary

/-- The adapter object: the members of `decoderBase`, `decoderBaseSingleLib` and
`decoderVVCDec` that the modelled functions read or write.  `functions` is what the entry
points of the library do when called, `functionPointers` says which members of the function
table hold a resolved pointer.  The ghost fields `calls` and `lookups` record the library
calls made and the symbols looked up. -/
structure decoderVVCDec (D : Type) where
  functions : LibraryFunctions D
  decoder : Option D
  decoderState : DecoderState
  errorString : String
  frameSize : Size
  formatYUV : YUVPixelFormat
  currentOutputBuffer : QByteArray
  calls : List LibCall
  library : QLibrary := {}
  functionPointers : LibraryFunction → Option FunctionPointer := fun _ => none
  lookups : List String := []

/-! ## Machine arithmetic -/

/-- Reduction of a natural number to a `uint32_t`. -/
def u32 (n : Nat) : Nat := n % 2 ^ 32

/-- Conversion `int(x)` of a `uint32_t` to a 32-bit signed integer. -/
def toInt32 (n : Nat) : Int :=
  if u32 n < 2 ^ 31 then (u32 n : Int) else (u32 n : Int) - 2 ^ 32

/-! ## Memory copies -/

/-- Copy `n` bytes (`std::memcpy(d, plane, n)`) from the memory `src`, starting at offset
`p`, to offset `d` of the content `dst`. -/
def memcpy (dst : List UInt8) (d : Nat) (src : Nat → UInt8) (p : Nat) : Nat → List UInt8
  | 0 => dst
  | n + 1 => (memcpy dst d src p n).set (d + n) (src (p + n))

/-- The row loop of `copyImgToByteArray`: `rows` times, copy `widthBytes` bytes and
advance the source by `stride` and the destination by `widthBytes`. -/
def copyRows (src : Nat → UInt8) (stride widthBytes : Nat) :
    Nat → Nat → Nat → List UInt8 → List UInt8
  | 0, _, _, dst => dst
  | rows + 1, p, d, dst =>
    copyRows src stride widthBytes rows (p + stride) (d + widthBytes)
      (memcpy dst d src p widthBytes)

/-- The table `colorComponentMap`. -/
def colorComponentMap : List libvvcdec_ColorComponent :=
  [libvvcdec_ColorComponent.LIBVVCDEC_LUMA, libvvcdec_ColorComponent.LIBVVCDEC_CHROMA_U,
   libvvcdec_ColorComponent.LIBVVCDEC_CHROMA_V]

/-- Element `i` of a two-element array such as `width[2]` and `height[2]`. -/
def idx2 (a : Nat × Nat) (i : Nat) : Nat := if i = 0 then a.1 else a.2

/-- Bytes per sample: `(outputTwoByte ? 2 : 1)`. -/
def sampleBytes (outputTwoByte : Bool) : Nat := if outputTwoByte then 2 else 1

namespace decoderVVCDec

variable {D : Type}

/-! ## Error handling (`decoderBase`) -/

/-- Function `setError`: enter the `Error` state and store the reason. -/
def setError (s : decoderVVCDec D) (reason : String) : decoderVVCDec D :=
  { s with decoderState := DecoderState.Error, errorString := reason }

/-- Function `setErrorB`: as `setError`, and hand back `false`. -/
def setErrorB (s : decoderVVCDec D) (reason : String) : decoderVVCDec D × Bool :=
  (s.setError reason, false)

/-- Function `errorInDecoder`. -/
def errorInDecoder (s : decoderVVCDec D) : Bool := s.decoderState = DecoderState.Error

/-- Function `decoderErrorString`. -/
def decoderErrorString (s : decoderVVCDec D) : String := s.errorString

/-- Record library calls in the ghost field. -/
def logCalls (s : decoderVVCDec D) (cs : List LibCall) : decoderVVCDec D :=
  { s with calls := s.calls ++ cs }

/-! ## Format negotiation -/

/-- Function `convertFromInternalSubsampling`. -/
def convertFromInternalSubsampling : libvvcdec_ChromaFormat → Subsampling
  | libvvcdec_ChromaFormat.LIBVVCDEC_CHROMA_400 => Subsampling.YUV_400
  | libvvcdec_ChromaFormat.LIBVVCDEC_CHROMA_420 => Subsampling.YUV_420
  | libvvcdec_ChromaFormat.LIBVVCDEC_CHROMA_422 => Subsampling.YUV_422
  | libvvcdec_ChromaFormat.LIBVVCDEC_CHROMA_444 => Subsampling.YUV_444
  | libvvcdec_ChromaFormat.LIBVVCDEC_CHROMA_UNKNOWN => Subsampling.UNKNOWN

/-- Function `getNextFrameFromDecoder`: query size, subsampling and bit depth of the current
picture; adopt them when neither frame size nor format is valid, else compare them with the
stored values. -/
def getNextFrameFromDecoder (V : Validity) (s0 : decoderVVCDec D) : decoderVVCDec D × Bool :=
  let picSize : Size :=
    { width := s0.functions.libvvcdec_get_picture_width s0.decoder
        libvvcdec_ColorComponent.LIBVVCDEC_LUMA
      height := s0.functions.libvvcdec_get_picture_height s0.decoder
        libvvcdec_ColorComponent.LIBVVCDEC_LUMA }
  let subsampling :=
    convertFromInternalSubsampling (s0.functions.libvvcdec_get_picture_chroma_format s0.decoder)
  let bitDepth :=
    s0.functions.libvvcdec_get_picture_bit_depth s0.decoder libvvcdec_ColorComponent.LIBVVCDEC_LUMA
  let s := s0.logCalls
    [LibCall.libvvcdec_get_picture_width libvvcdec_ColorComponent.LIBVVCDEC_LUMA,
     LibCall.libvvcdec_get_picture_height libvvcdec_ColorComponent.LIBVVCDEC_LUMA,
     LibCall.libvvcdec_get_picture_chroma_format,
     LibCall.libvvcdec_get_picture_bit_depth libvvcdec_ColorComponent.LIBVVCDEC_LUMA]
  if (!V.sizeIsValid s.frameSize && !V.formatIsValid s.formatYUV) = true then
    ({ s with frameSize := picSize
              formatYUV := { subsampling := subsampling, bitsPerSample := bitDepth } }, true)
  else if s.frameSize ≠ picSize then
    s.setErrorB "Received a frame of different size"
  else if s.formatYUV.subsampling ≠ subsampling then
    s.setErrorB "Received a frame with different subsampling"
  else if s.formatYUV.bitsPerSample ≠ bitDepth then
    s.setErrorB "Received a frame with different bit depth"
  else
    (s, true)

/-- Function `decodeNextFrame`. -/
def decodeNextFrame (V : Validity) (s : decoderVVCDec D) : decoderVVCDec D × Bool :=
  if s.decoderState ≠ DecoderState.RetrieveFrames then (s, false)
  else getNextFrameFromDecoder V s

/-! ## Ingest -/

/-- Function `pushData`. -/
def pushData (V : Validity) (s0 : decoderVVCDec D) (data : QByteArray) :
    decoderVVCDec D × Bool :=
  if s0.decoderState ≠ DecoderState.NeedsMoreData then (s0, false)
  else
    let endOfFile : Bool := data.length == 0
    let r := s0.functions.libvvcdec_push_nal_unit s0.decoder data.bytes data.length endOfFile
    let s := { s0 with decoder := r.decoder
                       calls := s0.calls ++ [LibCall.libvvcdec_push_nal_unit data.length endOfFile] }
    if r.err ≠ libvvcdec_error.LIBVVCDEC_OK then
      s.setErrorB ("Error pushing data to decoder (libvvcdec_push_nal_unit) length "
        ++ toString data.length)
    else if r.checkOutputPictures = true then
      let g := getNextFrameFromDecoder V s
      if g.2 = true then
        ({ g.1 with decoderState := DecoderState.RetrieveFrames
                    currentOutputBuffer := g.1.currentOutputBuffer.clear }, true)
      else (g.1, true)
    else (s, true)

/-! ## Frame assembly -/

/-- The plane loop of `copyImgToByteArray`, for the planes `c, c + 1, ..., c + todo - 1`.
Hands back the content of the destination and the library calls made. -/
def copyPlanes (f : LibraryFunctions D) (dec : Option D) (width height : Nat × Nat)
    (outputTwoByte : Bool) (outSizeLumaBytes outSizeChromaBytes : Nat) :
    Nat → Nat → List UInt8 → List UInt8 × List LibCall
  | 0, _, dst => (dst, [])
  | todo + 1, c, dst =>
    let component := colorComponentMap.getD c libvvcdec_ColorComponent.LIBVVCDEC_LUMA
    let cIdx := if c = 0 then 0 else 1
    let plane := f.libvvcdec_get_picture_plane dec component
    let stride := f.libvvcdec_get_picture_stride dec component
    let widthBytes := u32 (idx2 width cIdx * sampleBytes outputTwoByte)
    let log := [LibCall.libvvcdec_get_picture_plane component,
                LibCall.libvvcdec_get_picture_stride component]
    match plane with
    | none => (dst, log)
    | some src =>
      let d := (if c > 0 then outSizeLumaBytes else 0) + (if c = 2 then outSizeChromaBytes else 0)
      let r := copyPlanes f dec width height outputTwoByte outSizeLumaBytes outSizeChromaBytes
        todo (c + 1) (copyRows src stride widthBytes (idx2 height cIdx) 0 d dst)
      (r.1, log ++ r.2)

/-- Number of planes: `(fmt == LIBVVCDEC_CHROMA_400) ? 1u : 3u`. -/
def nrPlanes (fmt : libvvcdec_ChromaFormat) : Nat :=
  if fmt = libvvcdec_ChromaFormat.LIBVVCDEC_CHROMA_400 then 1 else 3

/-- Function `copyImgToByteArray`, on the byte array `dst`.  Hands back the byte array and
the library calls made. -/
def copyImgToByteArray (s : decoderVVCDec D) (dst : QByteArray) : QByteArray × List LibCall :=
  let f := s.functions
  let dec := s.decoder
  let fmt := f.libvvcdec_get_picture_chroma_format dec
  let log0 := [LibCall.libvvcdec_get_picture_chroma_format]
  if fmt = libvvcdec_ChromaFormat.LIBVVCDEC_CHROMA_UNKNOWN then (dst, log0)
  else
    let outputTwoByte : Bool :=
      decide (f.libvvcdec_get_picture_bit_depth dec libvvcdec_ColorComponent.LIBVVCDEC_LUMA > 8)
    let log1 := log0 ++ [LibCall.libvvcdec_get_picture_bit_depth
      libvvcdec_ColorComponent.LIBVVCDEC_LUMA]
    let bitDepthU := f.libvvcdec_get_picture_bit_depth dec libvvcdec_ColorComponent.LIBVVCDEC_CHROMA_U
    let bitDepthV := f.libvvcdec_get_picture_bit_depth dec libvvcdec_ColorComponent.LIBVVCDEC_CHROMA_V
    let log2 := if nrPlanes fmt > 1 then
        log1 ++ [LibCall.libvvcdec_get_picture_bit_depth libvvcdec_ColorComponent.LIBVVCDEC_CHROMA_U,
                 LibCall.libvvcdec_get_picture_bit_depth libvvcdec_ColorComponent.LIBVVCDEC_CHROMA_V]
      else log1
    if nrPlanes fmt > 1 ∧
        ((outputTwoByte != decide (bitDepthU > 8)) || (outputTwoByte != decide (bitDepthV > 8)))
          = true then
      (dst, log2)
    else
      let width : Nat × Nat :=
        (u32 (f.libvvcdec_get_picture_width dec libvvcdec_ColorComponent.LIBVVCDEC_LUMA),
         u32 (f.libvvcdec_get_picture_width dec libvvcdec_ColorComponent.LIBVVCDEC_CHROMA_U))
      let height : Nat × Nat :=
        (u32 (f.libvvcdec_get_picture_height dec libvvcdec_ColorComponent.LIBVVCDEC_LUMA),
         u32 (f.libvvcdec_get_picture_height dec libvvcdec_ColorComponent.LIBVVCDEC_CHROMA_U))
      let widthV := u32 (f.libvvcdec_get_picture_width dec libvvcdec_ColorComponent.LIBVVCDEC_CHROMA_V)
      let heightV :=
        u32 (f.libvvcdec_get_picture_height dec libvvcdec_ColorComponent.LIBVVCDEC_CHROMA_V)
      let log3 := log2 ++
        [LibCall.libvvcdec_get_picture_width libvvcdec_ColorComponent.LIBVVCDEC_LUMA,
         LibCall.libvvcdec_get_picture_width libvvcdec_ColorComponent.LIBVVCDEC_CHROMA_U,
         LibCall.libvvcdec_get_picture_height libvvcdec_ColorComponent.LIBVVCDEC_LUMA,
         LibCall.libvvcdec_get_picture_height libvvcdec_ColorComponent.LIBVVCDEC_CHROMA_U,
         LibCall.libvvcdec_get_picture_width libvvcdec_ColorComponent.LIBVVCDEC_CHROMA_V]
      let log4 := if widthV ≠ width.2 then log3
        else log3 ++ [LibCall.libvvcdec_get_picture_height libvvcdec_ColorComponent.LIBVVCDEC_CHROMA_V]
      if widthV ≠ width.2 ∨ heightV ≠ height.2 then (dst, log4)
      else
        let outSizeLumaBytes := u32 (u32 (width.1 * height.1) * sampleBytes outputTwoByte)
        let outSizeChromaBytes :=
          if nrPlanes fmt = 1 then 0 else u32 (u32 (width.2 * height.2) * sampleBytes outputTwoByte)
        let nrBytesOutput := u32 (outSizeLumaBytes + u32 (outSizeChromaBytes * 2))
        let dst1 := if (dst.capacity : Int) < toInt32 nrBytesOutput
          then dst.resize (toInt32 nrBytesOutput).toNat else dst
        let r := copyPlanes f dec width height outputTwoByte outSizeLumaBytes outSizeChromaBytes
          (nrPlanes fmt) 0 dst1.bytes
        ({ dst1 with bytes := r.1 }, log4 ++ r.2)

/-! ## Egress -/

/-- Function `getRawFrameData`. -/
def getRawFrameData (s0 : decoderVVCDec D) : decoderVVCDec D × QByteArray :=
  if s0.decoderState ≠ DecoderState.RetrieveFrames then (s0, QByteArray.null)
  else
    let s1 := if s0.currentOutputBuffer.isEmpty = true then
        let r := copyImgToByteArray s0 s0.currentOutputBuffer
        { s0 with currentOutputBuffer := r.1, calls := s0.calls ++ r.2 }
      else s0
    let s2 := { s1 with decoderState := DecoderState.NeedsMoreData }
    (s2, s2.currentOutputBuffer)

/-! ## Decoder instance -/

/-- Function `allocateNewDecoder`. -/
def allocateNewDecoder (s : decoderVVCDec D) : decoderVVCDec D :=
  if s.decoder.isSome = true then s
  else
    { s with decoder := s.functions.libvvcdec_new_decoder
             calls := s.calls ++ [LibCall.libvvcdec_new_decoder] }

/-- Function `resetDecoder` of `decoderVVCDec`: free the decoder instance, when there is
one, and create a new one.  It overrides the function of `decoderBase` and does not call
it. -/
def resetDecoder (s : decoderVVCDec D) : decoderVVCDec D :=
  if s.decoder.isSome = true ∧
      s.functions.libvvcdec_free_decoder s.decoder ≠ libvvcdec_error.LIBVVCDEC_OK then
    (s.logCalls [LibCall.libvvcdec_free_decoder]).setError "Reset: Freeing the decoder failded."
  else
    allocateNewDecoder
      { (if s.decoder.isSome = true then s.logCalls [LibCall.libvvcdec_free_decoder] else s) with
        decoder := none }

/-! ## Symbol resolution -/

/-- Modelled from the spec: the default value of the parameter `optional` of `resolve` is
declared in `decoderVVCDec.h`, which is not among the sources.  The spec calls the eleven
entry points resolved by `resolveLibraryFunctionPointers` mandatory, so the default is
`false`. -/
def resolveOptionalDefault : Bool := false

/-- Function `resolve`: look `symbol` up in the library and store the pointer in the member
`member` of the function table; a missing symbol that is not optional is an error.  Hands
back the pointer (`none` for `nullptr`). -/
def resolve (fs : FileSystem) (s : decoderVVCDec D) (member : LibraryFunction)
    (symbol : String) (optional : Bool) : decoderVVCDec D × Option FunctionPointer :=
  let r := s.library.resolve fs symbol
  let s1 := { s with library := r.1, lookups := s.lookups ++ [symbol] }
  match r.2 with
  | none =>
    ((if optional = false then
        s1.setError ("Error loading the libde265 library: Can't find function " ++ symbol ++ ".")
      else s1), none)
  | some ptr =>
    ({ s1 with functionPointers := Function.update s1.functionPointers member (some ptr) },
     some ptr)

/-- Function `resolveLibraryFunctionPointers`: resolve the eleven entry points in their
fixed order and return at the first one that does not resolve. -/
def resolveLibraryFunctionPointers (fs : FileSystem) (s0 : decoderVVCDec D) : decoderVVCDec D :=
  let r1 := resolve fs s0 LibraryFunction.libvvcdec_get_version
    "libvvcdec_get_version" resolveOptionalDefault
  if r1.2.isNone = true then r1.1 else
  let r2 := resolve fs r1.1 LibraryFunction.libvvcdec_new_decoder
    "libvvcdec_new_decoder" resolveOptionalDefault
  if r2.2.isNone = true then r2.1 else
  let r3 := resolve fs r2.1 LibraryFunction.libvvcdec_free_decoder
    "libvvcdec_free_decoder" resolveOptionalDefault
  if r3.2.isNone = true then r3.1 else
  let r4 := resolve fs r3.1 LibraryFunction.libvvcdec_push_nal_unit
    "libvvcdec_push_nal_unit" resolveOptionalDefault
  if r4.2.isNone = true then r4.1 else
  let r5 := resolve fs r4.1 LibraryFunction.libvvcdec_get_picture_POC
    "libvvcdec_get_picture_POC" resolveOptionalDefault
  if r5.2.isNone = true then r5.1 else
  let r6 := resolve fs r5.1 LibraryFunction.libvvcdec_get_picture_width
    "libvvcdec_get_picture_width" resolveOptionalDefault
  if r6.2.isNone = true then r6.1 else
  let r7 := resolve fs r6.1 LibraryFunction.libvvcdec_get_picture_height
    "libvvcdec_get_picture_height" resolveOptionalDefault
  if r7.2.isNone = true then r7.1 else
  let r8 := resolve fs r7.1 LibraryFunction.libvvcdec_get_picture_stride
    "libvvcdec_get_picture_stride" resolveOptionalDefault
  if r8.2.isNone = true then r8.1 else
  let r9 := resolve fs r8.1 LibraryFunction.libvvcdec_get_picture_plane
    "libvvcdec_get_picture_plane" resolveOptionalDefault
  if r9.2.isNone = true then r9.1 else
  let r10 := resolve fs r9.1 LibraryFunction.libvvcdec_get_picture_chroma_format
    "libvvcdec_get_picture_chroma_format" resolveOptionalDefault
  if r10.2.isNone = true then r10.1 else
  let r11 := resolve fs r10.1 LibraryFunction.libvvcdec_get_picture_bit_depth
    "libvvcdec_get_picture_bit_depth" resolveOptionalDefault
  if r11.2.isNone = true then r11.1 else r11.1

/-- Function `getLibraryNames`. -/
def getLibraryNames (is_Q_OS_MAC : Bool) : List String :=
  if is_Q_OS_MAC = true then ["libvvcdec.dylib"] else ["libvvcdec"]

/-! ## Construction and self-test -/

/-- The constructor `decoderVVCDec::decoderVVCDec`, on the object `base` as the constructors
of the base classes leave it: load the library named by the setting `libVVCDecFile` and,
unless that ended in `Error`, create a decoder instance.  `loadDecoderLibrary` is a member
of `decoderBaseSingleLib` that is not among the sources and is taken as a parameter. -/
def new (loadDecoderLibrary : decoderVVCDec D → String → decoderVVCDec D)
    (base : decoderVVCDec D) (libVVCDecFile : String) : decoderVVCDec D :=
  let s := loadDecoderLibrary base libVVCDecFile
  if s.decoderState ≠ DecoderState.Error then s.allocateNewDecoder else s

/-- Function `checkLibraryFile`: hands back the result and the text stored in `error`. -/
def checkLibraryFile (fs : FileSystem)
    (loadDecoderLibrary : decoderVVCDec D → String → decoderVVCDec D)
    (base : decoderVVCDec D) (libVVCDecFile : String) (libFilePath : String) :
    Bool × String :=
  let testDecoder := new loadDecoderLibrary base libVVCDecFile
  let r := (testDecoder.library.setFileName libFilePath).load fs
  if r.2 = false then (false, "Error opening QLibrary.")
  else
    let t := resolveLibraryFunctionPointers fs { testDecoder with library := r.1 }
    (!t.errorInDecoder, t.decoderErrorString)

/-- Modelled from the spec: `decoderBaseSingleLib::loadDecoderLibrary` is not among the
sources.  By the spec it tries the given library and then each candidate name in order, the
first that loads wins, and when none loads the adapter enters `Error` with a reason string;
after a load it resolves the entry points. -/
def loadDecoderLibrary (fs : FileSystem) (is_Q_OS_MAC : Bool) (s : decoderVVCDec D)
    (specificLibrary : String) : decoderVVCDec D :=
  let candidates := specificLibrary :: getLibraryNames is_Q_OS_MAC
  match candidates.find? (fun name => (fs name).isSome) with
  | none =>
    let lib := s.library.setFileName (candidates.getLastD specificLibrary)
    setError { s with library := lib } "Error loading library"
  | some name =>
    let lib := ((s.library.setFileName name).load fs).1
    resolveLibraryFunctionPointers fs { s with library := lib }

end decoderVVCDec

/-! ## The writes of the plane copy -/

/-- One `std::memcpy` of the row loop of `copyImgToByteArray`: the plane `c` and the row `y`
it is made for, the offset of the destination `d` from `dst.data()`, the offset of the
source from the plane pointer, and the number of bytes (`widthBytes`). -/
structure RowWrite where
  plane : Nat
  row : Nat
  offset : Nat
  source : Nat
  length : Nat
  deriving DecidableEq, Repr

/-- The byte at index `i` of the destination lies in the range the write targets. -/
def RowWrite.covers (w : RowWrite) (i : Nat) : Bool :=
  decide (w.offset ≤ i ∧ i < w.offset + w.length)

/-- The `memcpy` calls of the row loop for plane `c`, in the order in which they are made:
one per row, the source advancing by `stride` and the destination by `widthBytes`. -/
def rowWrites (c stride widthBytes : Nat) : Nat → Nat → Nat → Nat → List RowWrite
  | 0, _, _, _ => []
  | rows + 1, y, p, d =>
    { plane := c, row := y, offset := d, source := p, length := widthBytes } ::
      rowWrites c stride widthBytes rows (y + 1) (p + stride) (d + widthBytes)

namespace decoderVVCDec

variable {D : Type}

/-- The `memcpy` calls of the plane loop of `copyImgToByteArray`, for the planes
`c, c + 1, ..., c + todo - 1`; the loop ends at the first null plane pointer. -/
def planeWrites (f : LibraryFunctions D) (dec : Option D) (width height : Nat × Nat)
    (outputTwoByte : Bool) (outSizeLumaBytes outSizeChromaBytes : Nat) :
    Nat → Nat → List RowWrite
  | 0, _ => []
  | todo + 1, c =>
    let component := colorComponentMap.getD c libvvcdec_ColorComponent.LIBVVCDEC_LUMA
    let cIdx := if c = 0 then 0 else 1
    let plane := f.libvvcdec_get_picture_plane dec component
    let stride := f.libvvcdec_get_picture_stride dec component
    let widthBytes := u32 (idx2 width cIdx * sampleBytes outputTwoByte)
    match plane with
    | none => []
    | some _ =>
      let d := (if c > 0 then outSizeLumaBytes else 0) + (if c = 2 then outSizeChromaBytes else 0)
      rowWrites c stride widthBytes (idx2 height cIdx) 0 0 d ++
        planeWrites f dec width height outputTwoByte outSizeLumaBytes outSizeChromaBytes
          todo (c + 1)

/-- The value `nrBytesOutput` that `copyImgToByteArray` computes for the current picture:
`outSizeLumaBytes + outSizeChromaBytes * 2` in `uint32_t` arithmetic. -/
def nrBytesOutput (s : decoderVVCDec D) : Nat :=
  let f := s.functions
  let dec := s.decoder
  let fmt := f.libvvcdec_get_picture_chroma_format dec
  let outputTwoByte : Bool :=
    decide (f.libvvcdec_get_picture_bit_depth dec libvvcdec_ColorComponent.LIBVVCDEC_LUMA > 8)
  let width : Nat × Nat :=
    (u32 (f.libvvcdec_get_picture_width dec libvvcdec_ColorComponent.LIBVVCDEC_LUMA),
     u32 (f.libvvcdec_get_picture_width dec libvvcdec_ColorComponent.LIBVVCDEC_CHROMA_U))
  let height : Nat × Nat :=
    (u32 (f.libvvcdec_get_picture_height dec libvvcdec_ColorComponent.LIBVVCDEC_LUMA),
     u32 (f.libvvcdec_get_picture_height dec libvvcdec_ColorComponent.LIBVVCDEC_CHROMA_U))
  let outSizeLumaBytes := u32 (u32 (width.1 * height.1) * sampleBytes outputTwoByte)
  let outSizeChromaBytes :=
    if nrPlanes fmt = 1 then 0 else u32 (u32 (width.2 * height.2) * sampleBytes outputTwoByte)
  u32 (outSizeLumaBytes + u32 (outSizeChromaBytes * 2))

/-- The `memcpy` calls that `copyImgToByteArray` makes for the current picture, in order:
none when it returns at one of its checks, else those of the plane loop. -/
def copyWrites (s : decoderVVCDec D) : List RowWrite :=
  let f := s.functions
  let dec := s.decoder
  let fmt := f.libvvcdec_get_picture_chroma_format dec
  if fmt = libvvcdec_ChromaFormat.LIBVVCDEC_CHROMA_UNKNOWN then []
  else
    let outputTwoByte : Bool :=
      decide (f.libvvcdec_get_picture_bit_depth dec libvvcdec_ColorComponent.LIBVVCDEC_LUMA > 8)
    let bitDepthU := f.libvvcdec_get_picture_bit_depth dec libvvcdec_ColorComponent.LIBVVCDEC_CHROMA_U
    let bitDepthV := f.libvvcdec_get_picture_bit_depth dec libvvcdec_ColorComponent.LIBVVCDEC_CHROMA_V
    if nrPlanes fmt > 1 ∧
        ((outputTwoByte != decide (bitDepthU > 8)) || (outputTwoByte != decide (bitDepthV > 8)))
          = true then
      []
    else
      let width : Nat × Nat :=
        (u32 (f.libvvcdec_get_picture_width dec libvvcdec_ColorComponent.LIBVVCDEC_LUMA),
         u32 (f.libvvcdec_get_picture_width dec libvvcdec_ColorComponent.LIBVVCDEC_CHROMA_U))
      let height : Nat × Nat :=
        (u32 (f.libvvcdec_get_picture_height dec libvvcdec_ColorComponent.LIBVVCDEC_LUMA),
         u32 (f.libvvcdec_get_picture_height dec libvvcdec_ColorComponent.LIBVVCDEC_CHROMA_U))
      let widthV := u32 (f.libvvcdec_get_picture_width dec libvvcdec_ColorComponent.LIBVVCDEC_CHROMA_V)
      let heightV :=
        u32 (f.libvvcdec_get_picture_height dec libvvcdec_ColorComponent.LIBVVCDEC_CHROMA_V)
      if widthV ≠ width.2 ∨ heightV ≠ height.2 then []
      else
        let outSizeLumaBytes := u32 (u32 (width.1 * height.1) * sampleBytes outputTwoByte)
        let outSizeChromaBytes :=
          if nrPlanes fmt = 1 then 0 else u32 (u32 (width.2 * height.2) * sampleBytes outputTwoByte)
        planeWrites f dec width height outputTwoByte outSizeLumaBytes outSizeChromaBytes
          (nrPlanes fmt) 0

/-- Carries out one recorded `memcpy` on the content `dst`, reading from the plane the write
was made for. -/
def applyWrite (f : LibraryFunctions D) (dec : Option D) (dst : List UInt8) (w : RowWrite) :
    List UInt8 :=
  match f.libvvcdec_get_picture_plane dec
      (colorComponentMap.getD w.plane libvvcdec_ColorComponent.LIBVVCDEC_LUMA) with
  | some src => memcpy dst w.offset src w.source w.length
  | none => dst

end decoderVVCDec

/-! ## Sequences of calls -/

/-- A call of one of the four functions that drive the adapter. -/
inductive AdapterCall
  | pushData (data : QByteArray)
  | decodeNextFrame
  | getRawFrameData
  | resetDecoder
  deriving DecidableEq, Repr

namespace decoderVVCDec

variable {D : Type}

/-- The adapter after one call. -/
def applyCall (V : Validity) (s : decoderVVCDec D) : AdapterCall → decoderVVCDec D
  | AdapterCall.pushData data => (pushData V s data).1
  | AdapterCall.decodeNextFrame => (decodeNextFrame V s).1
  | AdapterCall.getRawFrameData => (getRawFrameData s).1
  | AdapterCall.resetDecoder => resetDecoder s

/-- The adapter after a sequence of calls, made one after the other. -/
def runCalls (V : Validity) (s : decoderVVCDec D) (calls : List AdapterCall) : decoderVVCDec D :=
  calls.foldl (applyCall V) s

end decoderVVCDec

/-! ## The picture exposed by the external decoder, in the words of the specification -/

namespace decoderVVCDec

variable {D : Type}

/-- Chroma format of the picture the external decoder currently exposes. -/
def picChromaFormat (s : decoderVVCDec D) : libvvcdec_ChromaFormat :=
  s.functions.libvvcdec_get_picture_chroma_format s.decoder

/-- Bit depth of a component of the current picture. -/
def picBitDepth (s : decoderVVCDec D) (c : libvvcdec_ColorComponent) : Nat :=
  s.functions.libvvcdec_get_picture_bit_depth s.decoder c

/-- Width in samples of a plane of the current picture (a `uint32_t`). -/
def picWidth (s : decoderVVCDec D) (c : libvvcdec_ColorComponent) : Nat :=
  u32 (s.functions.libvvcdec_get_picture_width s.decoder c)

/-- Height in samples of a plane of the current picture (a `uint32_t`). -/
def picHeight (s : decoderVVCDec D) (c : libvvcdec_ColorComponent) : Nat :=
  u32 (s.functions.libvvcdec_get_picture_height s.decoder c)

/-- Stride in bytes of a plane of the current picture. -/
def picStride (s : decoderVVCDec D) (c : libvvcdec_ColorComponent) : Nat :=
  s.functions.libvvcdec_get_picture_stride s.decoder c

/-- Native memory of a plane of the current picture (`none` for a null pointer). -/
def picPlane (s : decoderVVCDec D) (c : libvvcdec_ColorComponent) : Option (Nat → UInt8) :=
  s.functions.libvvcdec_get_picture_plane s.decoder c

/-- Sample width in bytes: 1 when the luma bit depth is at most 8 and 2 otherwise. -/
def sampleWidth (s : decoderVVCDec D) : Nat :=
  if s.picBitDepth libvvcdec_ColorComponent.LIBVVCDEC_LUMA ≤ 8 then 1 else 2

/-- Bytes of the luma plane: luma width times luma height times sample width. -/
def lumaBytes (s : decoderVVCDec D) : Nat :=
  s.picWidth libvvcdec_ColorComponent.LIBVVCDEC_LUMA *
    s.picHeight libvvcdec_ColorComponent.LIBVVCDEC_LUMA * s.sampleWidth

/-- Bytes of one chroma plane: chroma width times chroma height times sample width, and 0
for a 4:0:0 picture. -/
def chromaBytes (s : decoderVVCDec D) : Nat :=
  if s.picChromaFormat = libvvcdec_ChromaFormat.LIBVVCDEC_CHROMA_400 then 0
  else s.picWidth libvvcdec_ColorComponent.LIBVVCDEC_CHROMA_U *
    s.picHeight libvvcdec_ColorComponent.LIBVVCDEC_CHROMA_U * s.sampleWidth

/-- Offset of the region of a plane in the output buffer: luma at 0, U after the luma
bytes, V after the luma and the U bytes. -/
def planeOffset (s : decoderVVCDec D) : libvvcdec_ColorComponent → Nat
  | libvvcdec_ColorComponent.LIBVVCDEC_LUMA => 0
  | libvvcdec_ColorComponent.LIBVVCDEC_CHROMA_U => s.lumaBytes
  | libvvcdec_ColorComponent.LIBVVCDEC_CHROMA_V => s.lumaBytes + s.chromaBytes

/-- The logical rows of a plane, row-major and without padding: byte `x` of row `y` is the
byte at offset `y * stride + x` of the native memory. -/
def logicalPlane (src : Nat → UInt8) (stride widthBytes height : Nat) : List UInt8 :=
  (List.range height).flatMap fun y => (List.range widthBytes).map fun x => src (y * stride + x)

/-- The logical rows of a plane of the current picture (empty for a null plane). -/
def planeBytes (s : decoderVVCDec D) (c : libvvcdec_ColorComponent) : List UInt8 :=
  match s.picPlane c with
  | none => []
  | some src => logicalPlane src (s.picStride c) (s.picWidth c * s.sampleWidth) (s.picHeight c)

/-- The checks `copyImgToByteArray` makes before it sizes the buffer: the chroma format is
known, the chroma components agree with luma on one or two bytes per sample (asked for
pictures with chroma only), and the U and V planes have the same width and height. -/
def checksPass (s : decoderVVCDec D) : Prop :=
  s.picChromaFormat ≠ libvvcdec_ChromaFormat.LIBVVCDEC_CHROMA_UNKNOWN ∧
  (s.picChromaFormat ≠ libvvcdec_ChromaFormat.LIBVVCDEC_CHROMA_400 →
    (s.picBitDepth libvvcdec_ColorComponent.LIBVVCDEC_CHROMA_U ≤ 8 ↔
      s.picBitDepth libvvcdec_ColorComponent.LIBVVCDEC_LUMA ≤ 8) ∧
    (s.picBitDepth libvvcdec_ColorComponent.LIBVVCDEC_CHROMA_V ≤ 8 ↔
      s.picBitDepth libvvcdec_ColorComponent.LIBVVCDEC_LUMA ≤ 8)) ∧
  s.picWidth libvvcdec_ColorComponent.LIBVVCDEC_CHROMA_V =
    s.picWidth libvvcdec_ColorComponent.LIBVVCDEC_CHROMA_U ∧
  s.picHeight libvvcdec_ColorComponent.LIBVVCDEC_CHROMA_V =
    s.picHeight libvvcdec_ColorComponent.LIBVVCDEC_CHROMA_U

/-- Every plane of the picture has a non-null pointer (luma; U and V unless 4:0:0). -/
def planesPresent (s : decoderVVCDec D) : Prop :=
  (s.picPlane libvvcdec_ColorComponent.LIBVVCDEC_LUMA).isSome = true ∧
  (s.picChromaFormat ≠ libvvcdec_ChromaFormat.LIBVVCDEC_CHROMA_400 →
    (s.picPlane libvvcdec_ColorComponent.LIBVVCDEC_CHROMA_U).isSome = true ∧
    (s.picPlane libvvcdec_ColorComponent.LIBVVCDEC_CHROMA_V).isSome = true)

/-- The byte count of the picture fits a signed 32-bit `int`, the size type of the
output buffer. -/
def fitsInt (s : decoderVVCDec D) : Prop :=
  s.lumaBytes + 2 * s.chromaBytes < 2 ^ 31

/-- A picture is successfully assembled when the checks pass, every plane is present and
the byte count fits the size type of the buffer. -/
def assembles (s : decoderVVCDec D) : Prop :=
  s.checksPass ∧ s.planesPresent ∧ s.fitsInt

instance (s : decoderVVCDec D) : Decidable s.checksPass := by
  unfold checksPass; infer_instance

instance (s : decoderVVCDec D) : Decidable s.planesPresent := by
  unfold planesPresent; infer_instance

instance (s : decoderVVCDec D) : Decidable s.fitsInt := by
  unfold fitsInt; infer_instance

instance (s : decoderVVCDec D) : Decidable s.assembles := by
  unfold assembles; infer_instance

/-- The state in which `pushData` runs the negotiation: the adapter after the call of
`libvvcdec_push_nal_unit`. -/
def afterIngest (s : decoderVVCDec D) (data : QByteArray) : decoderVVCDec D :=
  { s with
    decoder := (s.functions.libvvcdec_push_nal_unit s.decoder data.bytes data.length
      (data.length == 0)).decoder
    calls := s.calls ++ [LibCall.libvvcdec_push_nal_unit data.length (data.length == 0)] }

/-- Result of the ingest call `pushData` makes in state `s` for `data`. -/
def ingestResult (s : decoderVVCDec D) (data : QByteArray) : PushResult D :=
  s.functions.libvvcdec_push_nal_unit s.decoder data.bytes data.length (data.length == 0)

/-- Size of the current picture as the negotiation reads it: width and height of luma. -/
def reportedSize (s : decoderVVCDec D) : Size :=
  { width := s.functions.libvvcdec_get_picture_width s.decoder
      libvvcdec_ColorComponent.LIBVVCDEC_LUMA
    height := s.functions.libvvcdec_get_picture_height s.decoder
      libvvcdec_ColorComponent.LIBVVCDEC_LUMA }

/-- Chroma subsampling of the current picture as the negotiation reads it. -/
def reportedSubsampling (s : decoderVVCDec D) : Subsampling :=
  convertFromInternalSubsampling s.picChromaFormat

/-- Bit depth of the current picture as the negotiation reads it: the bit depth of luma. -/
def reportedBitDepth (s : decoderVVCDec D) : Nat :=
  s.picBitDepth libvvcdec_ColorComponent.LIBVVCDEC_LUMA

/-- A baseline is set: the stored frame size or the stored pixel format is valid. -/
def baselineSet (V : Validity) (s : decoderVVCDec D) : Prop :=
  V.sizeIsValid s.frameSize = true ∨ V.formatIsValid s.formatYUV = true

instance (V : Validity) (s : decoderVVCDec D) : Decidable (s.baselineSet V) := by
  unfold baselineSet; infer_instance

/-- The components of the current picture do not agree on one or two bytes per sample (asked
for pictures with chroma only). -/
def mixedSampleWidths (s : decoderVVCDec D) : Prop :=
  s.picChromaFormat ≠ libvvcdec_ChromaFormat.LIBVVCDEC_CHROMA_400 ∧
  ¬ ((s.picBitDepth libvvcdec_ColorComponent.LIBVVCDEC_CHROMA_U ≤ 8 ↔
        s.picBitDepth libvvcdec_ColorComponent.LIBVVCDEC_LUMA ≤ 8) ∧
     (s.picBitDepth libvvcdec_ColorComponent.LIBVVCDEC_CHROMA_V ≤ 8 ↔
        s.picBitDepth libvvcdec_ColorComponent.LIBVVCDEC_LUMA ≤ 8))

/-- The U and V planes of the current picture differ in width or in height. -/
def chromaSizesDiffer (s : decoderVVCDec D) : Prop :=
  s.picWidth libvvcdec_ColorComponent.LIBVVCDEC_CHROMA_V ≠
    s.picWidth libvvcdec_ColorComponent.LIBVVCDEC_CHROMA_U ∨
  s.picHeight libvvcdec_ColorComponent.LIBVVCDEC_CHROMA_V ≠
    s.picHeight libvvcdec_ColorComponent.LIBVVCDEC_CHROMA_U

instance (s : decoderVVCDec D) : Decidable s.mixedSampleWidths := by
  unfold mixedSampleWidths; infer_instance

instance (s : decoderVVCDec D) : Decidable s.chromaSizesDiffer := by
  unfold chromaSizesDiffer; infer_instance

/-- The members of the function table with the symbols they are resolved from, in the order
of `resolveLibraryFunctionPointers`. -/
def mandatoryMembers : List (LibraryFunction × String) :=
  [(LibraryFunction.libvvcdec_get_version, "libvvcdec_get_version"),
   (LibraryFunction.libvvcdec_new_decoder, "libvvcdec_new_decoder"),
   (LibraryFunction.libvvcdec_free_decoder, "libvvcdec_free_decoder"),
   (LibraryFunction.libvvcdec_push_nal_unit, "libvvcdec_push_nal_unit"),
   (LibraryFunction.libvvcdec_get_picture_POC, "libvvcdec_get_picture_POC"),
   (LibraryFunction.libvvcdec_get_picture_width, "libvvcdec_get_picture_width"),
   (LibraryFunction.libvvcdec_get_picture_height, "libvvcdec_get_picture_height"),
   (LibraryFunction.libvvcdec_get_picture_stride, "libvvcdec_get_picture_stride"),
   (LibraryFunction.libvvcdec_get_picture_plane, "libvvcdec_get_picture_plane"),
   (LibraryFunction.libvvcdec_get_picture_chroma_format, "libvvcdec_get_picture_chroma_format"),
   (LibraryFunction.libvvcdec_get_picture_bit_depth, "libvvcdec_get_picture_bit_depth")]

/-- The eleven mandatory symbols, in the order in which they are resolved. -/
def mandatorySymbols : List String := mandatoryMembers.map Prod.snd

/-- The text of the error for a symbol that is not found. -/
def missingSymbolError (symbol : String) : String :=
  "Error loading the libde265 library: Can't find function " ++ symbol ++ "."

/-- Resolution of a list of members in order, up to the first that does not resolve. -/
def resolveSequence (fs : FileSystem) :
    List (LibraryFunction × String) → decoderVVCDec D → decoderVVCDec D
  | [], s => s
  | m :: rest, s =>
    if (resolve fs s m.1 m.2 resolveOptionalDefault).2.isNone = true
    then (resolve fs s m.1 m.2 resolveOptionalDefault).1
    else resolveSequence fs rest (resolve fs s m.1 m.2 resolveOptionalDefault).1

/-- The function table after the members `ms` have been resolved from the library file
`file`. -/
def pointersAfter (file : String) (ms : List (LibraryFunction × String))
    (table : LibraryFunction → Option FunctionPointer) : LibraryFunction → Option FunctionPointer :=
  ms.foldl (fun t m => Function.update t m.1 (some { library := file, symbol := m.2 })) table

end decoderVVCDec

/-! ## A synthetic external decoder for concrete runs -/

/-- A picture of the synthetic decoder: what each accessor reports. -/
structure TestPicture where
  chromaFormat : libvvcdec_ChromaFormat
  bitDepth : libvvcdec_ColorComponent → Nat
  width : libvvcdec_ColorComponent → Nat
  height : libvvcdec_ColorComponent → Nat
  stride : libvvcdec_ColorComponent → Nat
  plane : libvvcdec_ColorComponent → Option (List UInt8)

/-- State of the synthetic decoder: the picture it exposes and the pictures that later
pushes complete. -/
structure TestDecoder where
  current : Option TestPicture
  pending : List TestPicture

/-- Ingest of the synthetic decoder: a unit that starts with the byte 255 is refused with
an error; any other push completes the next pending picture, when there is one. -/
def testPush (d : Option TestDecoder) (bytes : List UInt8) : PushResult TestDecoder :=
  match d with
  | none => { decoder := none, err := libvvcdec_error.LIBVVCDEC_ERROR,
              bNewPicture := false, checkOutputPictures := false }
  | some st =>
    if bytes.head? = some 255 then
      { decoder := some st, err := libvvcdec_error.LIBVVCDEC_ERROR,
        bNewPicture := false, checkOutputPictures := false }
    else
      match st.pending with
      | [] => { decoder := some st, err := libvvcdec_error.LIBVVCDEC_OK,
                bNewPicture := false, checkOutputPictures := false }
      | p :: rest => { decoder := some { current := some p, pending := rest },
                       err := libvvcdec_error.LIBVVCDEC_OK,
                       bNewPicture := true, checkOutputPictures := true }

/-- Picture exposed by the synthetic decoder. -/
def testCurrent (d : Option TestDecoder) : Option TestPicture :=
  match d with
  | none => none
  | some st => st.current

/-- Function table of the synthetic decoder. -/
def testFunctions : LibraryFunctions TestDecoder where
  libvvcdec_new_decoder := some { current := none, pending := [] }
  libvvcdec_free_decoder := fun _ => libvvcdec_error.LIBVVCDEC_OK
  libvvcdec_push_nal_unit := fun d bytes _ _ => testPush d bytes
  libvvcdec_get_picture_width := fun d c => ((testCurrent d).map fun p => p.width c).getD 0
  libvvcdec_get_picture_height := fun d c => ((testCurrent d).map fun p => p.height c).getD 0
  libvvcdec_get_picture_stride := fun d c => ((testCurrent d).map fun p => p.stride c).getD 0
  libvvcdec_get_picture_plane := fun d c =>
    ((testCurrent d).bind fun p => p.plane c).map fun l => fun i => l.getD i 0
  libvvcdec_get_picture_chroma_format := fun d =>
    ((testCurrent d).map fun p => p.chromaFormat).getD
      libvvcdec_ChromaFormat.LIBVVCDEC_CHROMA_UNKNOWN
  libvvcdec_get_picture_bit_depth := fun d c => ((testCurrent d).map fun p => p.bitDepth c).getD 0

/-- A fresh adapter on the synthetic decoder, with the given pictures still to come. -/
def testAdapter (pending : List TestPicture) : decoderVVCDec TestDecoder where
  functions := testFunctions
  decoder := some { current := none, pending := pending }
  decoderState := DecoderState.NeedsMoreData
  errorString := ""
  frameSize := {}
  formatYUV := {}
  currentOutputBuffer := QByteArray.null
  calls := []

/-- A 4:2:0, 10-bit picture with a 4x4 luma plane and 2x2 chroma planes; the native rows
carry 8 bytes of padding each (luma stride 16, chroma stride 12). -/
def testPicture420 : TestPicture where
  chromaFormat := libvvcdec_ChromaFormat.LIBVVCDEC_CHROMA_420
  bitDepth := fun _ => 10
  width := fun c => if c = libvvcdec_ColorComponent.LIBVVCDEC_LUMA then 4 else 2
  height := fun c => if c = libvvcdec_ColorComponent.LIBVVCDEC_LUMA then 4 else 2
  stride := fun c => if c = libvvcdec_ColorComponent.LIBVVCDEC_LUMA then 16 else 12
  plane := fun c =>
    match c with
    | libvvcdec_ColorComponent.LIBVVCDEC_LUMA =>
      some ((List.range 64).map fun i => if i % 16 < 8 then UInt8.ofNat (i + 1) else 0)
    | libvvcdec_ColorComponent.LIBVVCDEC_CHROMA_U =>
      some ((List.range 24).map fun i => if i % 12 < 4 then UInt8.ofNat (100 + i) else 0)
    | libvvcdec_ColorComponent.LIBVVCDEC_CHROMA_V =>
      some ((List.range 24).map fun i => if i % 12 < 4 then UInt8.ofNat (200 + i) else 0)

/-- A monochrome (4:0:0), 8-bit, 16x16 picture with stride 16. -/
def testPicture400 : TestPicture where
  chromaFormat := libvvcdec_ChromaFormat.LIBVVCDEC_CHROMA_400
  bitDepth := fun _ => 8
  width := fun c => if c = libvvcdec_ColorComponent.LIBVVCDEC_LUMA then 16 else 0
  height := fun c => if c = libvvcdec_ColorComponent.LIBVVCDEC_LUMA then 16 else 0
  stride := fun c => if c = libvvcdec_ColorComponent.LIBVVCDEC_LUMA then 16 else 0
  plane := fun c =>
    if c = libvvcdec_ColorComponent.LIBVVCDEC_LUMA
    then some ((List.range 256).map fun i => UInt8.ofNat i) else none

/-- A 4x4, 8-bit picture for which the decoder reports an unknown chroma format. -/
def testPictureUnknown : TestPicture where
  chromaFormat := libvvcdec_ChromaFormat.LIBVVCDEC_CHROMA_UNKNOWN
  bitDepth := fun _ => 8
  width := fun c => if c = libvvcdec_ColorComponent.LIBVVCDEC_LUMA then 4 else 2
  height := fun c => if c = libvvcdec_ColorComponent.LIBVVCDEC_LUMA then 4 else 2
  stride := fun c => if c = libvvcdec_ColorComponent.LIBVVCDEC_LUMA then 4 else 2
  plane := fun _ => some (List.replicate 16 7)

/-- A 4:2:0 picture with a 4x4, 8-bit luma plane and 2x2, 10-bit chroma planes. -/
def testPictureMixedDepth : TestPicture where
  chromaFormat := libvvcdec_ChromaFormat.LIBVVCDEC_CHROMA_420
  bitDepth := fun c => if c = libvvcdec_ColorComponent.LIBVVCDEC_LUMA then 8 else 10
  width := fun c => if c = libvvcdec_ColorComponent.LIBVVCDEC_LUMA then 4 else 2
  height := fun c => if c = libvvcdec_ColorComponent.LIBVVCDEC_LUMA then 4 else 2
  stride := fun _ => 4
  plane := fun c =>
    if c = libvvcdec_ColorComponent.LIBVVCDEC_LUMA
    then some ((List.range 16).map fun i => UInt8.ofNat (i + 1))
    else some (List.replicate 8 5)

/-- A monochrome, 16-bit picture that is 2^31 samples wide and one row high. -/
def testPictureWide : TestPicture where
  chromaFormat := libvvcdec_ChromaFormat.LIBVVCDEC_CHROMA_400
  bitDepth := fun _ => 16
  width := fun c => if c = libvvcdec_ColorComponent.LIBVVCDEC_LUMA then 2147483648 else 0
  height := fun c => if c = libvvcdec_ColorComponent.LIBVVCDEC_LUMA then 1 else 0
  stride := fun c => if c = libvvcdec_ColorComponent.LIBVVCDEC_LUMA then 4294967296 else 0
  plane := fun c =>
    if c = libvvcdec_ColorComponent.LIBVVCDEC_LUMA then some [1, 2, 3, 4] else none

/-- The adapter on the synthetic decoder, put into the decoder state `st`, with `buf` as
its output buffer. -/
def testAdapterIn (st : DecoderState) (buf : QByteArray) (pending : List TestPicture) :
    decoderVVCDec TestDecoder :=
  { testAdapter pending with decoderState := st, currentOutputBuffer := buf }

/-- A one-byte access unit. -/
def testUnit : QByteArray := { bytes := [1], capacity := 1 }

/-- An access unit the synthetic decoder refuses. -/
def testBadUnit : QByteArray := { bytes := [255, 0, 0], capacity := 3 }

/-- A picture for which every accessor reports zero, with an unknown chroma format. -/
def testPictureZero : TestPicture where
  chromaFormat := libvvcdec_ChromaFormat.LIBVVCDEC_CHROMA_UNKNOWN
  bitDepth := fun _ => 0
  width := fun _ => 0
  height := fun _ => 0
  stride := fun _ => 0
  plane := fun _ => none

/-- A 4:2:0, 8-bit picture with a 2x2 luma plane and 1x1 chroma planes whose U plane has a
null pointer. -/
def testPictureNoU : TestPicture where
  chromaFormat := libvvcdec_ChromaFormat.LIBVVCDEC_CHROMA_420
  bitDepth := fun _ => 8
  width := fun c => if c = libvvcdec_ColorComponent.LIBVVCDEC_LUMA then 2 else 1
  height := fun c => if c = libvvcdec_ColorComponent.LIBVVCDEC_LUMA then 2 else 1
  stride := fun c => if c = libvvcdec_ColorComponent.LIBVVCDEC_LUMA then 2 else 1
  plane := fun c =>
    match c with
    | libvvcdec_ColorComponent.LIBVVCDEC_LUMA => some [1, 2, 3, 4]
    | libvvcdec_ColorComponent.LIBVVCDEC_CHROMA_U => none
    | libvvcdec_ColorComponent.LIBVVCDEC_CHROMA_V => some [200]

/-- A 4:2:0, 8-bit picture with a 2x2 luma plane, a 1x1 U plane and a 2x1 V plane. -/
def testPictureChromaSizes : TestPicture where
  chromaFormat := libvvcdec_ChromaFormat.LIBVVCDEC_CHROMA_420
  bitDepth := fun _ => 8
  width := fun c => if c = libvvcdec_ColorComponent.LIBVVCDEC_CHROMA_U then 1 else 2
  height := fun c => if c = libvvcdec_ColorComponent.LIBVVCDEC_LUMA then 2 else 1
  stride := fun _ => 2
  plane := fun _ => some [1, 2, 3, 4]

/-- The adapter as the constructors of the base classes leave it.  Modelled from the spec:
the constructor of `decoderBase` is not among the sources; the spec has `NeedsMoreData` as
the initial state, no error, and frame size and format unset. -/
def testBase : decoderVVCDec TestDecoder :=
  { testAdapter [] with decoder := none }

/-- A file system with one complete library, one library that lacks
`libvvcdec_get_picture_stride` and `libvvcdec_get_picture_bit_depth`, and no library under
the default names. -/
def testFileSystem : FileSystem := fun name =>
  if name = "/opt/vvc/libvvcdec.so" then some decoderVVCDec.mandatorySymbols
  else if name = "/opt/vvc/libold.so" then
    some ["libvvcdec_get_version", "libvvcdec_new_decoder", "libvvcdec_free_decoder",
          "libvvcdec_push_nal_unit", "libvvcdec_get_picture_POC", "libvvcdec_get_picture_width",
          "libvvcdec_get_picture_height", "libvvcdec_get_picture_plane",
          "libvvcdec_get_picture_chroma_format", "some_other_symbol"]
  else none

/-- The adapter of the synthetic decoder with the library file `file` loaded. -/
def testAdapterWithLibrary (file : String) : decoderVVCDec TestDecoder :=
  { testAdapter [] with
    library := ((QLibrary.setFileName {} file).load testFileSystem).1 }

/-- A monochrome, 8-bit picture that is 2^31 samples wide and two rows high. -/
def testPictureOverflow : TestPicture where
  chromaFormat := libvvcdec_ChromaFormat.LIBVVCDEC_CHROMA_400
  bitDepth := fun _ => 8
  width := fun c => if c = libvvcdec_ColorComponent.LIBVVCDEC_LUMA then 2147483648 else 0
  height := fun c => if c = libvvcdec_ColorComponent.LIBVVCDEC_LUMA then 2 else 0
  stride := fun c => if c = libvvcdec_ColorComponent.LIBVVCDEC_LUMA then 2147483648 else 0
  plane := fun c =>
    if c = libvvcdec_ColorComponent.LIBVVCDEC_LUMA then some [1, 2, 3, 4] else none

/-- The adapter on the synthetic decoder in state `RetrieveFrames`, with `pic` as the
picture the decoder exposes and an empty output buffer. -/
def testAdapterWithPicture (pic : TestPicture) : decoderVVCDec TestDecoder :=
  { testAdapter [] with
    decoder := some { current := some pic, pending := [] }
    decoderState := DecoderState.RetrieveFrames }

/-- Recognises the calls of `libvvcdec_get_picture_plane` in the record of library calls. -/
def isPlaneCall : LibCall → Bool
  | LibCall.libvvcdec_get_picture_plane _ => true
  | _ => false

/-! ## Auxiliary notions for the proofs -/

/-- The library calls of one negotiation (`getNextFrameFromDecoder`). -/
def negotiationCalls : List LibCall :=
  [LibCall.libvvcdec_get_picture_width libvvcdec_ColorComponent.LIBVVCDEC_LUMA,
   LibCall.libvvcdec_get_picture_height libvvcdec_ColorComponent.LIBVVCDEC_LUMA,
   LibCall.libvvcdec_get_picture_chroma_format,
   LibCall.libvvcdec_get_picture_bit_depth libvvcdec_ColorComponent.LIBVVCDEC_LUMA]

/-- The writes `ws`, in order, lie end to end from offset `a` to offset `b`: the first
starts at `a`, each next one starts where the one before it ends, and the last ends at
`b`. -/
def tiles : Nat → List RowWrite → Nat → Prop
  | a, [], b => a = b
  | a, w :: ws, b => w.offset = a ∧ tiles (a + w.length) ws b

/-- The `n` bytes of native memory that start at offset `p`. -/
def rowBytes (src : Nat → UInt8) (p n : Nat) : List UInt8 :=
  (List.range n).map fun x => src (p + x)

/-- The bytes of `rows` logical rows of `widthBytes` bytes, the first at offset `p`, each
next one `stride` bytes further. -/
def planeRows (src : Nat → UInt8) (stride widthBytes : Nat) : Nat → Nat → List UInt8
  | 0, _ => []
  | rows + 1, p => rowBytes src p widthBytes ++ planeRows src stride widthBytes rows (p + stride)

/-! ## Lemmas on the memory copies -/

theorem length_rowBytes (src : Nat → UInt8) (p n : Nat) : (rowBytes src p n).length = n := by
  simp [rowBytes]

theorem rowBytes_succ (src : Nat → UInt8) (p n : Nat) :
    rowBytes src p (n + 1) = rowBytes src p n ++ [src (p + n)] := by
  simp [rowBytes, List.range_succ]

theorem length_memcpy (dst : List UInt8) (d : Nat) (src : Nat → UInt8) (p n : Nat) :
    (memcpy dst d src p n).length = dst.length := by
  induction n with
  | zero => rfl
  | succ n ih => simp [memcpy, ih]

theorem memcpy_append (src : Nat → UInt8) (p : Nat) (pre : List UInt8) :
    ∀ (n : Nat) (mid post : List UInt8), mid.length = n →
      memcpy (pre ++ mid ++ post) pre.length src p n = pre ++ rowBytes src p n ++ post := by
  intro n
  induction n with
  | zero =>
    intro mid post h
    have hm : mid = [] := List.length_eq_zero.mp h
    simp [memcpy, rowBytes, hm]
  | succ n ih =>
    intro mid post h
    have hsplit : pre ++ mid ++ post = pre ++ mid.take n ++ (mid.drop n ++ post) := by
      conv_lhs => rw [← List.take_append_drop n mid]
      simp only [List.append_assoc]
    have htake : (mid.take n).length = n := by simp [List.length_take, h]
    obtain ⟨b, hb⟩ : ∃ b, mid.drop n = [b] := by
      have hl : (mid.drop n).length = 1 := by simp [List.length_drop, h]
      exact List.length_eq_one.mp hl
    have hlen : (pre ++ rowBytes src p n).length = pre.length + n := by
      simp [length_rowBytes]
    rw [memcpy, hsplit, ih (mid.take n) (mid.drop n ++ post) htake, hb,
      List.set_append_right _ _ (by rw [hlen]), hlen, Nat.sub_self, rowBytes_succ]
    simp

theorem length_copyRows (src : Nat → UInt8) (stride widthBytes : Nat) :
    ∀ (rows p d : Nat) (dst : List UInt8),
      (copyRows src stride widthBytes rows p d dst).length = dst.length := by
  intro rows
  induction rows with
  | zero => intro p d dst; rfl
  | succ rows ih => intro p d dst; simp [copyRows, ih, length_memcpy]

theorem length_planeRows (src : Nat → UInt8) (stride widthBytes : Nat) :
    ∀ (rows p : Nat), (planeRows src stride widthBytes rows p).length = rows * widthBytes := by
  intro rows
  induction rows with
  | zero => intro p; simp [planeRows]
  | succ rows ih => intro p; simp [planeRows, ih, length_rowBytes]; ring

theorem copyRows_append (src : Nat → UInt8) (stride widthBytes : Nat) :
    ∀ (rows p : Nat) (pre mid post : List UInt8), mid.length = rows * widthBytes →
      copyRows src stride widthBytes rows p pre.length (pre ++ mid ++ post)
        = pre ++ planeRows src stride widthBytes rows p ++ post := by
  intro rows
  induction rows with
  | zero =>
    intro p pre mid post h
    have hm : mid = [] := List.length_eq_zero.mp (by simpa using h)
    simp [copyRows, planeRows, hm]
  | succ rows ih =>
    intro p pre mid post h
    have hsplit : pre ++ mid ++ post
        = pre ++ mid.take widthBytes ++ (mid.drop widthBytes ++ post) := by
      conv_lhs => rw [← List.take_append_drop widthBytes mid]
      simp only [List.append_assoc]
    have hle : widthBytes ≤ mid.length := by
      rw [h, Nat.succ_mul]; exact Nat.le_add_left _ _
    have htake : (mid.take widthBytes).length = widthBytes := by
      simp [List.length_take, hle]
    have hdrop : (mid.drop widthBytes).length = rows * widthBytes := by
      simp [List.length_drop, h, Nat.succ_mul]
    have hpre : (pre ++ rowBytes src p widthBytes).length = pre.length + widthBytes := by
      simp [length_rowBytes]
    rw [copyRows, hsplit, memcpy_append src p pre widthBytes _ _ htake, ← hpre,
      ← List.append_assoc, ih (p + stride) (pre ++ rowBytes src p widthBytes)
        (mid.drop widthBytes) post hdrop, planeRows]
    simp

theorem planeRows_eq_flatMap (src : Nat → UInt8) (stride widthBytes : Nat) :
    ∀ (rows p : Nat), planeRows src stride widthBytes rows p
      = (List.range rows).flatMap fun y => rowBytes src (p + y * stride) widthBytes := by
  intro rows
  induction rows with
  | zero => intro p; simp [planeRows]
  | succ rows ih =>
    intro p
    rw [planeRows, ih, List.range_succ_eq_map, List.flatMap_cons, List.flatMap_map]
    simp [Nat.succ_mul, Nat.add_assoc, Nat.add_comm stride]

theorem planeRows_zero_eq_logicalPlane (src : Nat → UInt8) (stride widthBytes rows : Nat) :
    planeRows src stride widthBytes rows 0
      = decoderVVCDec.logicalPlane src stride widthBytes rows := by
  rw [planeRows_eq_flatMap]
  simp [decoderVVCDec.logicalPlane, rowBytes]

theorem getElem?_planeRows (src : Nat → UInt8) (stride widthBytes : Nat) :
    ∀ (rows p y x : Nat), y < rows → x < widthBytes →
      (planeRows src stride widthBytes rows p)[y * widthBytes + x]?
        = some (src (p + y * stride + x)) := by
  intro rows
  induction rows with
  | zero => intro p y x hy; omega
  | succ rows ih =>
    intro p y x hy hx
    cases y with
    | zero =>
      rw [planeRows, List.getElem?_append_left (by simp [length_rowBytes, hx])]
      simp [rowBytes, hx, List.getElem?_range]
    | succ y =>
      have hge : (rowBytes src p widthBytes).length ≤ (y + 1) * widthBytes + x := by
        rw [length_rowBytes, Nat.succ_mul]; omega
      rw [planeRows, List.getElem?_append_right hge, length_rowBytes]
      have hidx : (y + 1) * widthBytes + x - widthBytes = y * widthBytes + x := by
        rw [Nat.succ_mul]; omega
      rw [hidx, ih (p + stride) y x (by omega) hx]
      congr 2
      rw [Nat.succ_mul]; omega

theorem u32_of_lt {n : Nat} (h : n < 2 ^ 32) : u32 n = n := Nat.mod_eq_of_lt h

theorem toInt32_of_lt {n : Nat} (h : n < 2 ^ 31) : toInt32 n = (n : Int) := by
  have h32 : n < 2 ^ 32 := by omega
  have h' : n < 2147483648 := by omega
  simp [toInt32, u32_of_lt h32, h']

theorem sampleBytes_decide (b : Nat) :
    sampleBytes (decide (b > 8)) = if b ≤ 8 then 1 else 2 := by
  by_cases h : b ≤ 8
  · have : ¬ b > 8 := by omega
    simp [sampleBytes, h, this]
  · have : b > 8 := by omega
    simp [sampleBytes, h, this]

theorem u32_mul3 (w h sw : Nat) (hlt : w * h * sw < 2 ^ 32) (hsw : 1 ≤ sw) :
    u32 (u32 (w * h) * sw) = w * h * sw := by
  have h1 : w * h ≤ w * h * sw := Nat.le_mul_of_pos_right _ hsw
  rw [u32_of_lt (lt_of_le_of_lt h1 hlt), u32_of_lt hlt]

theorem nrPlanes_eq_one_iff (fmt : libvvcdec_ChromaFormat) :
    decoderVVCDec.nrPlanes fmt = 1 ↔ fmt = libvvcdec_ChromaFormat.LIBVVCDEC_CHROMA_400 := by
  unfold decoderVVCDec.nrPlanes
  split <;> simp_all

theorem length_copyPlanes {D : Type} (f : LibraryFunctions D) (dec : Option D)
    (width height : Nat × Nat) (two : Bool) (lumaB chromaB : Nat) :
    ∀ (todo c : Nat) (dst : List UInt8),
      (decoderVVCDec.copyPlanes f dec width height two lumaB chromaB todo c dst).1.length
        = dst.length := by
  intro todo
  induction todo with
  | zero => intro c dst; rfl
  | succ todo ih =>
    intro c dst
    unfold decoderVVCDec.copyPlanes
    dsimp only
    split
    · rfl
    · simp only [ih, length_copyRows]

theorem length_resize (a : QByteArray) (n : Nat) : (a.resize n).bytes.length = n := by
  simp [QByteArray.resize, List.length_take]
  omega

/-- Buffer handed to the plane loop: the destination, resized when its capacity is below the
byte count `n`. -/
theorem length_sized (dst : QByteArray) (n : Nat)
    (h : dst.capacity < n ∨ dst.length = n) :
    (if (dst.capacity : Int) < (n : Int) then dst.resize n else dst).bytes.length = n := by
  by_cases hc : dst.capacity < n
  · have : (dst.capacity : Int) < (n : Int) := by exact_mod_cast hc
    simp [this, length_resize]
  · have : ¬ (dst.capacity : Int) < (n : Int) := by exact_mod_cast hc
    rcases h with h | h
    · exact absurd h hc
    · simpa [this, QByteArray.length] using h

open decoderVVCDec in
theorem copyImgToByteArray_eq {D : Type} (s : decoderVVCDec D) (dst : QByteArray)
    (hc : s.checksPass) (hf : s.fitsInt) :
    (copyImgToByteArray s dst).1 =
      { (if (dst.capacity : Int) < ((s.lumaBytes + 2 * s.chromaBytes : Nat) : Int)
          then dst.resize (s.lumaBytes + 2 * s.chromaBytes) else dst) with
        bytes := (copyPlanes s.functions s.decoder
          (s.picWidth libvvcdec_ColorComponent.LIBVVCDEC_LUMA,
           s.picWidth libvvcdec_ColorComponent.LIBVVCDEC_CHROMA_U)
          (s.picHeight libvvcdec_ColorComponent.LIBVVCDEC_LUMA,
           s.picHeight libvvcdec_ColorComponent.LIBVVCDEC_CHROMA_U)
          (decide (s.picBitDepth libvvcdec_ColorComponent.LIBVVCDEC_LUMA > 8))
          s.lumaBytes s.chromaBytes (nrPlanes s.picChromaFormat) 0
          (if (dst.capacity : Int) < ((s.lumaBytes + 2 * s.chromaBytes : Nat) : Int)
            then dst.resize (s.lumaBytes + 2 * s.chromaBytes) else dst).bytes).1 } := by
  obtain ⟨hfmt, hdepth, hw, hh⟩ := hc
  unfold fitsInt at hf
  have hguard2 : ¬ (nrPlanes s.picChromaFormat > 1 ∧
      ((decide (s.picBitDepth libvvcdec_ColorComponent.LIBVVCDEC_LUMA > 8)
          != decide (s.picBitDepth libvvcdec_ColorComponent.LIBVVCDEC_CHROMA_U > 8)) ||
        (decide (s.picBitDepth libvvcdec_ColorComponent.LIBVVCDEC_LUMA > 8)
          != decide (s.picBitDepth libvvcdec_ColorComponent.LIBVVCDEC_CHROMA_V > 8))) = true) := by
    rintro ⟨hn, hb⟩
    have h400 : s.picChromaFormat ≠ libvvcdec_ChromaFormat.LIBVVCDEC_CHROMA_400 := by
      intro h
      rw [(nrPlanes_eq_one_iff _).mpr h] at hn
      omega
    obtain ⟨hU, hV⟩ := hdepth h400
    simp only [Bool.or_eq_true, bne_iff_ne, ne_eq, decide_eq_decide, gt_iff_lt] at hb
    omega
  have hguard3 : ¬ (s.picWidth libvvcdec_ColorComponent.LIBVVCDEC_CHROMA_V ≠
        s.picWidth libvvcdec_ColorComponent.LIBVVCDEC_CHROMA_U ∨
      s.picHeight libvvcdec_ColorComponent.LIBVVCDEC_CHROMA_V ≠
        s.picHeight libvvcdec_ColorComponent.LIBVVCDEC_CHROMA_U) := by
    simp [hw, hh]
  unfold copyImgToByteArray
  dsimp only
  simp only [picChromaFormat, picBitDepth, picWidth, picHeight, lumaBytes, chromaBytes,
    sampleWidth] at hfmt hguard2 hguard3 hf ⊢
  rw [if_neg hfmt, if_neg hguard2, if_neg hguard3]
  simp only [sampleBytes_decide, nrPlanes_eq_one_iff]
  generalize u32 (s.functions.libvvcdec_get_picture_width s.decoder
    libvvcdec_ColorComponent.LIBVVCDEC_LUMA) = wL at hf ⊢
  generalize u32 (s.functions.libvvcdec_get_picture_height s.decoder
    libvvcdec_ColorComponent.LIBVVCDEC_LUMA) = hL at hf ⊢
  generalize u32 (s.functions.libvvcdec_get_picture_width s.decoder
    libvvcdec_ColorComponent.LIBVVCDEC_CHROMA_U) = wU at hf ⊢
  generalize u32 (s.functions.libvvcdec_get_picture_height s.decoder
    libvvcdec_ColorComponent.LIBVVCDEC_CHROMA_U) = hU at hf ⊢
  have hsw : 1 ≤ (if s.functions.libvvcdec_get_picture_bit_depth s.decoder
      libvvcdec_ColorComponent.LIBVVCDEC_LUMA ≤ 8 then 1 else 2) := by
    split <;> omega
  generalize (if s.functions.libvvcdec_get_picture_bit_depth s.decoder
    libvvcdec_ColorComponent.LIBVVCDEC_LUMA ≤ 8 then 1 else 2) = sw at hf hsw ⊢
  have hLe : u32 (u32 (wL * hL) * sw) = wL * hL * sw := u32_mul3 _ _ _ (by omega) hsw
  have hCe : (if s.functions.libvvcdec_get_picture_chroma_format s.decoder =
        libvvcdec_ChromaFormat.LIBVVCDEC_CHROMA_400 then 0 else u32 (u32 (wU * hU) * sw))
      = (if s.functions.libvvcdec_get_picture_chroma_format s.decoder =
        libvvcdec_ChromaFormat.LIBVVCDEC_CHROMA_400 then 0 else wU * hU * sw) := by
    split
    · rfl
    · rename_i h400
      rw [if_neg h400] at hf
      exact u32_mul3 _ _ _ (by omega) hsw
  rw [hLe, hCe]
  generalize (if s.functions.libvvcdec_get_picture_chroma_format s.decoder =
        libvvcdec_ChromaFormat.LIBVVCDEC_CHROMA_400 then 0 else wU * hU * sw) = cB at hf ⊢
  generalize wL * hL * sw = lB at hf ⊢
  have hN : u32 (lB + u32 (cB * 2)) = lB + 2 * cB := by
    rw [u32_of_lt (by omega : cB * 2 < 2 ^ 32), u32_of_lt (by omega)]
    omega
  rw [hN, toInt32_of_lt hf, Int.toNat_ofNat]

theorem copyRows_exact (src : Nat → UInt8) (stride widthBytes rows d : Nat)
    (pre mid post : List UInt8) (hd : pre.length = d) (hm : mid.length = rows * widthBytes) :
    copyRows src stride widthBytes rows 0 d (pre ++ mid ++ post)
      = pre ++ planeRows src stride widthBytes rows 0 ++ post := by
  subst hd
  exact copyRows_append src stride widthBytes rows 0 pre mid post hm

theorem rows_mul_u32 (w h sw : Nat) (hlt : w * h * sw < 2 ^ 32) :
    h * u32 (w * sw) = w * h * sw := by
  rcases Nat.eq_zero_or_pos h with h0 | hpos
  · subst h0; simp
  · have hle : w * sw ≤ w * h * sw := by
      calc w * sw = w * 1 * sw := by rw [Nat.mul_one]
        _ ≤ w * h * sw := Nat.mul_le_mul_right _ (Nat.mul_le_mul_left _ hpos)
    rw [u32_of_lt (lt_of_le_of_lt hle hlt)]
    ring

theorem planeRows_u32 (src : Nat → UInt8) (stride w h sw : Nat) (hlt : w * h * sw < 2 ^ 32) :
    planeRows src stride (u32 (w * sw)) h 0 = decoderVVCDec.logicalPlane src stride (w * sw) h := by
  rcases Nat.eq_zero_or_pos h with h0 | hpos
  · subst h0; simp [planeRows, decoderVVCDec.logicalPlane]
  · have hle : w * sw ≤ w * h * sw := by
      calc w * sw = w * 1 * sw := by rw [Nat.mul_one]
        _ ≤ w * h * sw := Nat.mul_le_mul_right _ (Nat.mul_le_mul_left _ hpos)
    rw [u32_of_lt (lt_of_le_of_lt hle hlt), planeRows_zero_eq_logicalPlane]

theorem length_logicalPlane (src : Nat → UInt8) (stride widthBytes rows : Nat) :
    (decoderVVCDec.logicalPlane src stride widthBytes rows).length = rows * widthBytes := by
  rw [← planeRows_zero_eq_logicalPlane, length_planeRows]

theorem copyRows_three (sL sU sV : Nat → UInt8) (stL stU stV wbL hL wbC hC lB cB : Nat)
    (dst : List UInt8) (hlB : hL * wbL = lB) (hcB : hC * wbC = cB)
    (hlen : dst.length = lB + 2 * cB) :
    copyRows sV stV wbC hC 0 (lB + cB)
        (copyRows sU stU wbC hC 0 lB (copyRows sL stL wbL hL 0 0 dst))
      = planeRows sL stL wbL hL 0 ++ (planeRows sU stU wbC hC 0 ++ planeRows sV stV wbC hC 0) := by
  have hsplit : dst = [] ++ dst.take lB ++ ((dst.drop lB).take cB ++ (dst.drop lB).drop cB) := by
    simp [List.take_append_drop]
  have h1 : (dst.take lB).length = hL * wbL := by
    rw [List.length_take, hlen, hlB]; omega
  have h2 : ((dst.drop lB).take cB).length = hC * wbC := by
    rw [List.length_take, List.length_drop, hlen, hcB]; omega
  have h3 : ((dst.drop lB).drop cB).length = hC * wbC := by
    rw [List.length_drop, List.length_drop, hlen, hcB]; omega
  rw [hsplit, copyRows_exact sL stL wbL hL 0 [] _ _ rfl h1]
  rw [List.nil_append, ← List.append_assoc,
    copyRows_exact sU stU wbC hC lB (planeRows sL stL wbL hL 0) _ _
      (by rw [length_planeRows, hlB]) h2]
  have h4 : planeRows sL stL wbL hL 0 ++ planeRows sU stU wbC hC 0 ++ (dst.drop lB).drop cB
      = (planeRows sL stL wbL hL 0 ++ planeRows sU stU wbC hC 0) ++ (dst.drop lB).drop cB ++ [] := by
    simp
  rw [h4, copyRows_exact sV stV wbC hC (lB + cB) _ _ _
      (by rw [List.length_append, length_planeRows, length_planeRows, hlB, hcB]) h3]
  simp

theorem copyRows_one (sL : Nat → UInt8) (stL wbL hL lB : Nat)
    (dst : List UInt8) (hlB : hL * wbL = lB) (hlen : dst.length = lB) :
    copyRows sL stL wbL hL 0 0 dst = planeRows sL stL wbL hL 0 := by
  have hsplit : dst = [] ++ dst ++ [] := by simp
  rw [hsplit, copyRows_exact sL stL wbL hL 0 [] dst [] rfl (by rw [hlen, hlB])]
  simp

theorem copyPlanes_one {D : Type} (f : LibraryFunctions D) (dec : Option D)
    (width height : Nat × Nat) (two : Bool) (lB cB : Nat) (dst : List UInt8) (sL : Nat → UInt8)
    (hpL : f.libvvcdec_get_picture_plane dec libvvcdec_ColorComponent.LIBVVCDEC_LUMA = some sL) :
    (decoderVVCDec.copyPlanes f dec width height two lB cB 1 0 dst).1
      = copyRows sL (f.libvvcdec_get_picture_stride dec libvvcdec_ColorComponent.LIBVVCDEC_LUMA)
          (u32 (width.1 * sampleBytes two)) height.1 0 0 dst := by
  simp [decoderVVCDec.copyPlanes, colorComponentMap, hpL, idx2]

theorem copyPlanes_three {D : Type} (f : LibraryFunctions D) (dec : Option D)
    (width height : Nat × Nat) (two : Bool) (lB cB : Nat) (dst : List UInt8)
    (sL sU sV : Nat → UInt8)
    (hpL : f.libvvcdec_get_picture_plane dec libvvcdec_ColorComponent.LIBVVCDEC_LUMA = some sL)
    (hpU : f.libvvcdec_get_picture_plane dec libvvcdec_ColorComponent.LIBVVCDEC_CHROMA_U = some sU)
    (hpV : f.libvvcdec_get_picture_plane dec libvvcdec_ColorComponent.LIBVVCDEC_CHROMA_V = some sV) :
    (decoderVVCDec.copyPlanes f dec width height two lB cB 3 0 dst).1
      = copyRows sV (f.libvvcdec_get_picture_stride dec libvvcdec_ColorComponent.LIBVVCDEC_CHROMA_V)
          (u32 (width.2 * sampleBytes two)) height.2 0 (lB + cB)
        (copyRows sU (f.libvvcdec_get_picture_stride dec libvvcdec_ColorComponent.LIBVVCDEC_CHROMA_U)
          (u32 (width.2 * sampleBytes two)) height.2 0 lB
        (copyRows sL (f.libvvcdec_get_picture_stride dec libvvcdec_ColorComponent.LIBVVCDEC_LUMA)
          (u32 (width.1 * sampleBytes two)) height.1 0 0 dst)) := by
  simp [decoderVVCDec.copyPlanes, colorComponentMap, hpL, hpU, hpV, idx2]

open decoderVVCDec in
theorem sampleBytes_eq_sampleWidth {D : Type} (s : decoderVVCDec D) :
    sampleBytes (decide (s.picBitDepth libvvcdec_ColorComponent.LIBVVCDEC_LUMA > 8))
      = s.sampleWidth := by
  rw [sampleBytes_decide]; rfl

open decoderVVCDec in
theorem copyImgToByteArray_bytes {D : Type} (s : decoderVVCDec D) (dst : QByteArray)
    (ha : s.assembles)
    (hdst : dst.capacity < s.lumaBytes + 2 * s.chromaBytes ∨
      dst.length = s.lumaBytes + 2 * s.chromaBytes) :
    (copyImgToByteArray s dst).1.bytes
      = s.planeBytes libvvcdec_ColorComponent.LIBVVCDEC_LUMA ++
        (if s.picChromaFormat = libvvcdec_ChromaFormat.LIBVVCDEC_CHROMA_400 then []
         else s.planeBytes libvvcdec_ColorComponent.LIBVVCDEC_CHROMA_U ++
           s.planeBytes libvvcdec_ColorComponent.LIBVVCDEC_CHROMA_V) := by
  obtain ⟨hc, hp, hf⟩ := ha
  rw [copyImgToByteArray_eq s dst hc hf]
  have hlen := length_sized dst _ hdst
  dsimp only
  generalize (if (dst.capacity : Int) < ((s.lumaBytes + 2 * s.chromaBytes : Nat) : Int)
    then dst.resize (s.lumaBytes + 2 * s.chromaBytes) else dst).bytes = buf at hlen ⊢
  obtain ⟨hfmt, hdepth, hw, hh⟩ := hc
  obtain ⟨hpL, hpC⟩ := hp
  obtain ⟨sL, hsL⟩ := Option.isSome_iff_exists.mp hpL
  unfold fitsInt at hf
  have hlumaLt : s.picWidth libvvcdec_ColorComponent.LIBVVCDEC_LUMA *
      s.picHeight libvvcdec_ColorComponent.LIBVVCDEC_LUMA * s.sampleWidth < 2 ^ 32 := by
    have : s.lumaBytes < 2 ^ 32 := by omega
    exact this
  by_cases h400 : s.picChromaFormat = libvvcdec_ChromaFormat.LIBVVCDEC_CHROMA_400
  · have hcB : s.chromaBytes = 0 := by simp [chromaBytes, h400]
    rw [hcB] at hlen
    rw [(nrPlanes_eq_one_iff _).mpr h400, if_pos h400,
      copyPlanes_one _ _ _ _ _ _ _ _ sL hsL, sampleBytes_eq_sampleWidth]
    dsimp only
    rw [copyRows_one sL _ _ _ s.lumaBytes buf (rows_mul_u32 _ _ _ hlumaLt) (by simpa using hlen),
      planeRows_u32 _ _ _ _ _ hlumaLt]
    simp [planeBytes, hsL, picStride]
  · obtain ⟨hpU, hpV⟩ := hpC h400
    obtain ⟨sU, hsU⟩ := Option.isSome_iff_exists.mp hpU
    obtain ⟨sV, hsV⟩ := Option.isSome_iff_exists.mp hpV
    have hcB : s.chromaBytes = s.picWidth libvvcdec_ColorComponent.LIBVVCDEC_CHROMA_U *
        s.picHeight libvvcdec_ColorComponent.LIBVVCDEC_CHROMA_U * s.sampleWidth := by
      simp [chromaBytes, h400]
    have hchromaLt : s.picWidth libvvcdec_ColorComponent.LIBVVCDEC_CHROMA_U *
        s.picHeight libvvcdec_ColorComponent.LIBVVCDEC_CHROMA_U * s.sampleWidth < 2 ^ 32 := by
      rw [← hcB]; omega
    have hn3 : nrPlanes s.picChromaFormat = 3 := by simp [nrPlanes, h400]
    rw [hn3, if_neg h400, copyPlanes_three _ _ _ _ _ _ _ _ sL sU sV hsL hsU hsV,
      sampleBytes_eq_sampleWidth]
    dsimp only
    rw [copyRows_three sL sU sV _ _ _ _ _ _ _ s.lumaBytes s.chromaBytes buf
        (rows_mul_u32 _ _ _ hlumaLt) (by rw [hcB]; exact rows_mul_u32 _ _ _ hchromaLt) hlen,
      planeRows_u32 _ _ _ _ _ hlumaLt, planeRows_u32 _ _ _ _ _ hchromaLt,
      planeRows_u32 _ _ _ _ _ hchromaLt]
    simp [planeBytes, hsL, hsU, hsV, picStride, hw, hh]

/-! ## Lemmas on the state machine -/

open decoderVVCDec in
theorem getNextFrameFromDecoder_frame {D : Type} (V : Validity) (s : decoderVVCDec D) :
    (getNextFrameFromDecoder V s).1.functions = s.functions ∧
    (getNextFrameFromDecoder V s).1.decoder = s.decoder ∧
    (getNextFrameFromDecoder V s).1.currentOutputBuffer = s.currentOutputBuffer := by
  unfold getNextFrameFromDecoder
  dsimp only
  split_ifs <;> simp [setErrorB, setError, logCalls]

open decoderVVCDec in
theorem getNextFrameFromDecoder_false {D : Type} (V : Validity) (s : decoderVVCDec D)
    (h : (getNextFrameFromDecoder V s).2 = false) :
    (getNextFrameFromDecoder V s).1.decoderState = DecoderState.Error := by
  unfold getNextFrameFromDecoder at h ⊢
  dsimp only at h ⊢
  split_ifs at h ⊢ <;> simp_all [setErrorB, setError, logCalls]

open decoderVVCDec in
theorem pushData_complete {D : Type} (V : Validity) (s : decoderVVCDec D) (data : QByteArray)
    (hstate : s.decoderState = DecoderState.NeedsMoreData)
    (hok : (s.ingestResult data).err = libvvcdec_error.LIBVVCDEC_OK)
    (hout : (s.ingestResult data).checkOutputPictures = true)
    (hneg : (getNextFrameFromDecoder V (s.afterIngest data)).2 = true) :
    pushData V s data =
      ({ (getNextFrameFromDecoder V (s.afterIngest data)).1 with
          decoderState := DecoderState.RetrieveFrames
          currentOutputBuffer := QByteArray.null }, true) := by
  unfold ingestResult at hok hout
  unfold afterIngest at hneg ⊢
  unfold pushData
  dsimp only
  rw [if_neg (by simp [hstate]), if_neg (by simp [hok]), if_pos hout, if_pos hneg]
  rfl

open decoderVVCDec in
theorem pushData_retrieve {D : Type} (V : Validity) (s : decoderVVCDec D) (data : QByteArray)
    (hstate : s.decoderState = DecoderState.NeedsMoreData)
    (hpic : (pushData V s data).1.decoderState = DecoderState.RetrieveFrames) :
    (pushData V s data).1.currentOutputBuffer = QByteArray.null := by
  unfold pushData at hpic ⊢
  dsimp only at hpic ⊢
  rw [if_neg (by simp [hstate])] at hpic ⊢
  split_ifs at hpic ⊢ with h1 h2 h3
  · simp [setErrorB, setError] at hpic
  · simp [QByteArray.clear]
  · have hfalse := getNextFrameFromDecoder_false V _ (by simpa using h3)
    rw [hfalse] at hpic
    exact absurd hpic (by decide)
  · simp [hstate] at hpic

open decoderVVCDec in
theorem getRawFrameData_fresh {D : Type} (s : decoderVVCDec D)
    (hstate : s.decoderState = DecoderState.RetrieveFrames)
    (hbuf : s.currentOutputBuffer = QByteArray.null) :
    getRawFrameData s =
      ({ s with currentOutputBuffer := (copyImgToByteArray s QByteArray.null).1
                calls := s.calls ++ (copyImgToByteArray s QByteArray.null).2
                decoderState := DecoderState.NeedsMoreData },
       (copyImgToByteArray s QByteArray.null).1) := by
  unfold getRawFrameData
  simp [hstate, hbuf, QByteArray.null, QByteArray.isEmpty]

open decoderVVCDec in
theorem getRawFrameData_rejected {D : Type} (s : decoderVVCDec D)
    (hstate : s.decoderState ≠ DecoderState.RetrieveFrames) :
    getRawFrameData s = (s, QByteArray.null) := by
  unfold getRawFrameData
  simp [hstate]

open decoderVVCDec in
theorem null_sized (n : Nat) :
    QByteArray.null.capacity < n ∨ QByteArray.null.length = n := by
  rcases Nat.eq_zero_or_pos n with h | h
  · right; simp [QByteArray.null, QByteArray.length, h]
  · left; simpa [QByteArray.null] using h

open decoderVVCDec in
theorem length_copyImgToByteArray {D : Type} (s : decoderVVCDec D) (dst : QByteArray)
    (hc : s.checksPass) (hf : s.fitsInt)
    (hdst : dst.capacity < s.lumaBytes + 2 * s.chromaBytes ∨
      dst.length = s.lumaBytes + 2 * s.chromaBytes) :
    (copyImgToByteArray s dst).1.length = s.lumaBytes + 2 * s.chromaBytes := by
  rw [copyImgToByteArray_eq s dst hc hf]
  simp only [QByteArray.length, length_copyPlanes]
  exact length_sized dst _ hdst

/-! ## Lemmas on ingest, egress and the layout of the assembled buffer -/

open decoderVVCDec in
theorem pushData_no_picture {D : Type} (V : Validity)
    (s : decoderVVCDec D) (data : QByteArray)
    (hstate : s.decoderState = DecoderState.NeedsMoreData)
    (hok : (s.ingestResult data).err = libvvcdec_error.LIBVVCDEC_OK)
    (hno : (s.ingestResult data).checkOutputPictures = false) :
    pushData V s data = (s.afterIngest data, true) := by
  unfold ingestResult at hok hno
  unfold afterIngest
  unfold pushData
  dsimp only
  rw [if_neg (by simp [hstate]), if_neg (by simp [hok]), if_neg (by simp [hno])]

theorem getElem?_logicalPlane (src : Nat → UInt8) (stride widthBytes rows y x : Nat)
    (hy : y < rows) (hx : x < widthBytes) :
    (decoderVVCDec.logicalPlane src stride widthBytes rows)[y * widthBytes + x]?
      = some (src (y * stride + x)) := by
  rw [← planeRows_zero_eq_logicalPlane, getElem?_planeRows _ _ _ _ 0 y x hy hx, Nat.zero_add]

open decoderVVCDec in
theorem length_planeBytes {D : Type} (s : decoderVVCDec D) (c : libvvcdec_ColorComponent)
    (hp : (s.picPlane c).isSome = true) :
    (s.planeBytes c).length = s.picHeight c * (s.picWidth c * s.sampleWidth) := by
  obtain ⟨src, hsrc⟩ := Option.isSome_iff_exists.mp hp
  simp [planeBytes, hsrc, length_logicalPlane]

open decoderVVCDec in
theorem length_planeBytes_luma {D : Type} (s : decoderVVCDec D) (ha : s.assembles) :
    (s.planeBytes libvvcdec_ColorComponent.LIBVVCDEC_LUMA).length = s.lumaBytes := by
  rw [length_planeBytes s _ ha.2.1.1]
  unfold lumaBytes
  ring

open decoderVVCDec in
theorem length_planeBytes_chroma {D : Type} (s : decoderVVCDec D) (ha : s.assembles)
    (h400 : s.picChromaFormat ≠ libvvcdec_ChromaFormat.LIBVVCDEC_CHROMA_400) :
    (s.planeBytes libvvcdec_ColorComponent.LIBVVCDEC_CHROMA_U).length = s.chromaBytes ∧
    (s.planeBytes libvvcdec_ColorComponent.LIBVVCDEC_CHROMA_V).length = s.chromaBytes := by
  obtain ⟨⟨_, _, hw, hh⟩, ⟨_, hpC⟩, _⟩ := ha
  obtain ⟨hpU, hpV⟩ := hpC h400
  rw [length_planeBytes s _ hpU, length_planeBytes s _ hpV, hw, hh]
  simp only [chromaBytes, if_neg h400]
  constructor <;> ring

open decoderVVCDec in
theorem region_of_plane {D : Type} (s : decoderVVCDec D) (dst : QByteArray)
    (ha : s.assembles)
    (hdst : dst.capacity < s.lumaBytes + 2 * s.chromaBytes ∨
      dst.length = s.lumaBytes + 2 * s.chromaBytes)
    (c : libvvcdec_ColorComponent)
    (hc : c = libvvcdec_ColorComponent.LIBVVCDEC_LUMA ∨
      s.picChromaFormat ≠ libvvcdec_ChromaFormat.LIBVVCDEC_CHROMA_400) :
    ∃ pre post : List UInt8,
      (copyImgToByteArray s dst).1.bytes = pre ++ s.planeBytes c ++ post ∧
      pre.length = s.planeOffset c := by
  have hb := copyImgToByteArray_bytes s dst ha hdst
  have hL := length_planeBytes_luma s ha
  cases c with
  | LIBVVCDEC_LUMA =>
    exact ⟨[], _, by rw [hb, List.nil_append], rfl⟩
  | LIBVVCDEC_CHROMA_U =>
    have h400 : s.picChromaFormat ≠ libvvcdec_ChromaFormat.LIBVVCDEC_CHROMA_400 := by
      rcases hc with h | h
      · exact absurd h (by decide)
      · exact h
    rw [if_neg h400] at hb
    exact ⟨_, _, by rw [hb, List.append_assoc], hL⟩
  | LIBVVCDEC_CHROMA_V =>
    have h400 : s.picChromaFormat ≠ libvvcdec_ChromaFormat.LIBVVCDEC_CHROMA_400 := by
      rcases hc with h | h
      · exact absurd h (by decide)
      · exact h
    rw [if_neg h400] at hb
    refine ⟨s.planeBytes libvvcdec_ColorComponent.LIBVVCDEC_LUMA ++
      s.planeBytes libvvcdec_ColorComponent.LIBVVCDEC_CHROMA_U, [], ?_, ?_⟩
    · rw [hb]; simp
    · rw [List.length_append, hL, (length_planeBytes_chroma s ha h400).1]; rfl

theorem index_lt_of_row_col (rows widthBytes y x : Nat) (hy : y < rows) (hx : x < widthBytes) :
    y * widthBytes + x < rows * widthBytes := by
  calc y * widthBytes + x < y * widthBytes + widthBytes := Nat.add_lt_add_left hx _
    _ = (y + 1) * widthBytes := by rw [Nat.succ_mul]
    _ ≤ rows * widthBytes := Nat.mul_le_mul_right _ hy

open decoderVVCDec in
theorem getRawFrameData_bytes {D : Type} (s : decoderVVCDec D)
    (hstate : s.decoderState = DecoderState.RetrieveFrames)
    (hbuf : s.currentOutputBuffer = QByteArray.null)
    (ha : s.assembles) :
    (getRawFrameData s).2.bytes
      = s.planeBytes libvvcdec_ColorComponent.LIBVVCDEC_LUMA ++
        (if s.picChromaFormat = libvvcdec_ChromaFormat.LIBVVCDEC_CHROMA_400 then []
         else s.planeBytes libvvcdec_ColorComponent.LIBVVCDEC_CHROMA_U ++
           s.planeBytes libvvcdec_ColorComponent.LIBVVCDEC_CHROMA_V) := by
  rw [getRawFrameData_fresh s hstate hbuf]
  exact copyImgToByteArray_bytes s QByteArray.null ha (null_sized _)

open decoderVVCDec in
theorem pushData_complete_picture {D : Type} (V : Validity) (s : decoderVVCDec D)
    (data : QByteArray)
    (hstate : s.decoderState = DecoderState.NeedsMoreData)
    (hok : (s.ingestResult data).err = libvvcdec_error.LIBVVCDEC_OK)
    (hout : (s.ingestResult data).checkOutputPictures = true)
    (hneg : (getNextFrameFromDecoder V (s.afterIngest data)).2 = true) :
    (pushData V s data).1.decoderState = DecoderState.RetrieveFrames ∧
    (pushData V s data).1.currentOutputBuffer = QByteArray.null := by
  rw [pushData_complete V s data hstate hok hout hneg]
  exact ⟨rfl, rfl⟩

open decoderVVCDec in
theorem copyPlanes_calls_one {D : Type} (f : LibraryFunctions D) (dec : Option D)
    (width height : Nat × Nat) (two : Bool) (lB cB : Nat) (dst : List UInt8)
    (hpL : (f.libvvcdec_get_picture_plane dec libvvcdec_ColorComponent.LIBVVCDEC_LUMA).isSome
      = true) :
    (copyPlanes f dec width height two lB cB 1 0 dst).2
      = [LibCall.libvvcdec_get_picture_plane libvvcdec_ColorComponent.LIBVVCDEC_LUMA,
         LibCall.libvvcdec_get_picture_stride libvvcdec_ColorComponent.LIBVVCDEC_LUMA] := by
  obtain ⟨sL, hsL⟩ := Option.isSome_iff_exists.mp hpL
  simp [copyPlanes, colorComponentMap, hsL]

open decoderVVCDec in
theorem copyPlanes_calls_three {D : Type} (f : LibraryFunctions D) (dec : Option D)
    (width height : Nat × Nat) (two : Bool) (lB cB : Nat) (dst : List UInt8)
    (hpL : (f.libvvcdec_get_picture_plane dec libvvcdec_ColorComponent.LIBVVCDEC_LUMA).isSome
      = true)
    (hpU : (f.libvvcdec_get_picture_plane dec libvvcdec_ColorComponent.LIBVVCDEC_CHROMA_U).isSome
      = true)
    (hpV : (f.libvvcdec_get_picture_plane dec libvvcdec_ColorComponent.LIBVVCDEC_CHROMA_V).isSome
      = true) :
    (copyPlanes f dec width height two lB cB 3 0 dst).2
      = [LibCall.libvvcdec_get_picture_plane libvvcdec_ColorComponent.LIBVVCDEC_LUMA,
         LibCall.libvvcdec_get_picture_stride libvvcdec_ColorComponent.LIBVVCDEC_LUMA,
         LibCall.libvvcdec_get_picture_plane libvvcdec_ColorComponent.LIBVVCDEC_CHROMA_U,
         LibCall.libvvcdec_get_picture_stride libvvcdec_ColorComponent.LIBVVCDEC_CHROMA_U,
         LibCall.libvvcdec_get_picture_plane libvvcdec_ColorComponent.LIBVVCDEC_CHROMA_V,
         LibCall.libvvcdec_get_picture_stride libvvcdec_ColorComponent.LIBVVCDEC_CHROMA_V] := by
  obtain ⟨sL, hsL⟩ := Option.isSome_iff_exists.mp hpL
  obtain ⟨sU, hsU⟩ := Option.isSome_iff_exists.mp hpU
  obtain ⟨sV, hsV⟩ := Option.isSome_iff_exists.mp hpV
  simp [copyPlanes, colorComponentMap, hsL, hsU, hsV]

open decoderVVCDec in
theorem copyImgToByteArray_planeCalls {D : Type} (s : decoderVVCDec D) (dst : QByteArray)
    (hc : s.checksPass) (hp : s.planesPresent) :
    (copyImgToByteArray s dst).2.filter isPlaneCall
      = (colorComponentMap.take (nrPlanes s.picChromaFormat)).map
          LibCall.libvvcdec_get_picture_plane := by
  obtain ⟨hfmt, hdepth, hw, hh⟩ := hc
  obtain ⟨hpL, hpC⟩ := hp
  have hguard2 : ¬ (nrPlanes s.picChromaFormat > 1 ∧
      ((decide (s.picBitDepth libvvcdec_ColorComponent.LIBVVCDEC_LUMA > 8)
          != decide (s.picBitDepth libvvcdec_ColorComponent.LIBVVCDEC_CHROMA_U > 8)) ||
        (decide (s.picBitDepth libvvcdec_ColorComponent.LIBVVCDEC_LUMA > 8)
          != decide (s.picBitDepth libvvcdec_ColorComponent.LIBVVCDEC_CHROMA_V > 8))) = true) := by
    rintro ⟨hn, hb⟩
    have h400 : s.picChromaFormat ≠ libvvcdec_ChromaFormat.LIBVVCDEC_CHROMA_400 := by
      intro h
      rw [(nrPlanes_eq_one_iff _).mpr h] at hn
      omega
    obtain ⟨hU, hV⟩ := hdepth h400
    simp only [Bool.or_eq_true, bne_iff_ne, ne_eq, decide_eq_decide, gt_iff_lt] at hb
    omega
  have hguard3 : ¬ (s.picWidth libvvcdec_ColorComponent.LIBVVCDEC_CHROMA_V ≠
        s.picWidth libvvcdec_ColorComponent.LIBVVCDEC_CHROMA_U ∨
      s.picHeight libvvcdec_ColorComponent.LIBVVCDEC_CHROMA_V ≠
        s.picHeight libvvcdec_ColorComponent.LIBVVCDEC_CHROMA_U) := by
    simp [hw, hh]
  have hwn : ¬ (s.picWidth libvvcdec_ColorComponent.LIBVVCDEC_CHROMA_V ≠
        s.picWidth libvvcdec_ColorComponent.LIBVVCDEC_CHROMA_U) := by
    simp [hw]
  unfold copyImgToByteArray
  dsimp only
  simp only [picChromaFormat, picBitDepth, picWidth, picHeight, picPlane]
    at hfmt hguard2 hguard3 hwn hpL hpC ⊢
  rw [if_neg hfmt, if_neg hguard2, if_neg hguard3, if_neg hwn]
  dsimp only
  by_cases h400 : s.functions.libvvcdec_get_picture_chroma_format s.decoder
      = libvvcdec_ChromaFormat.LIBVVCDEC_CHROMA_400
  · rw [h400] at hpC ⊢
    rw [show nrPlanes libvvcdec_ChromaFormat.LIBVVCDEC_CHROMA_400 = 1 from rfl,
      copyPlanes_calls_one _ _ _ _ _ _ _ _ hpL]
    simp [colorComponentMap, isPlaneCall]
  · obtain ⟨hpU, hpV⟩ := hpC h400
    have hn3 : nrPlanes (s.functions.libvvcdec_get_picture_chroma_format s.decoder) = 3 := by
      simp [nrPlanes, h400]
    rw [hn3, copyPlanes_calls_three _ _ _ _ _ _ _ _ hpL hpU hpV]
    simp [colorComponentMap, isPlaneCall]

/-! ## C1: length of the frame returned after a completed picture -/

open decoderVVCDec in
/-- C1, as the code has it: when a push in state `NeedsMoreData` leaves the adapter in
`RetrieveFrames` and the picture passes the checks of the assembly (known chroma format,
chroma components with the sample width of luma, U and V planes of equal size) with a byte
count that fits an `int`, one following `getRawFrameData` returns a buffer of exactly
`lumaBytes + 2 * chromaBytes` bytes and leaves the state `NeedsMoreData`; a second,
immediate `getRawFrameData` returns an empty buffer. -/
theorem C1_frame_length {D : Type} (V : Validity) (s : decoderVVCDec D) (data : QByteArray)
    (hstate : s.decoderState = DecoderState.NeedsMoreData)
    (hpic : (pushData V s data).1.decoderState = DecoderState.RetrieveFrames)
    (hchecks : (pushData V s data).1.checksPass)
    (hfits : (pushData V s data).1.fitsInt) :
    (getRawFrameData (pushData V s data).1).2.length
      = (pushData V s data).1.lumaBytes + 2 * (pushData V s data).1.chromaBytes ∧
    (getRawFrameData (pushData V s data).1).1.decoderState = DecoderState.NeedsMoreData ∧
    (getRawFrameData (getRawFrameData (pushData V s data).1).1).2 = QByteArray.null ∧
    (getRawFrameData (getRawFrameData (pushData V s data).1).1).2.length = 0 := by
  have hbuf := pushData_retrieve V s data hstate hpic
  have hsecond : getRawFrameData (getRawFrameData (pushData V s data).1).1
      = ((getRawFrameData (pushData V s data).1).1, QByteArray.null) := by
    apply getRawFrameData_rejected
    rw [getRawFrameData_fresh _ hpic hbuf]
    simp
  refine ⟨?_, ?_, ?_, ?_⟩
  · rw [getRawFrameData_fresh _ hpic hbuf]
    exact length_copyImgToByteArray _ _ hchecks hfits (null_sized _)
  · rw [getRawFrameData_fresh _ hpic hbuf]
  · rw [hsecond]
  · rw [hsecond]; rfl

open decoderVVCDec in
/-- Run of C1 on the 4:2:0, 10-bit picture with a 4x4 luma plane and 2x2 chroma planes: the
frame has 48 bytes. -/
theorem C1_frame_length_witness :
    (getRawFrameData
      (pushData specValidity (testAdapter [testPicture420]) testUnit).1).2.length = 48 ∧
    (getRawFrameData
      (pushData specValidity (testAdapter [testPicture420]) testUnit).1).1.decoderState
        = DecoderState.NeedsMoreData ∧
    (getRawFrameData (getRawFrameData
      (pushData specValidity (testAdapter [testPicture420]) testUnit).1).1).2
        = QByteArray.null :=
  ⟨(C1_frame_length specValidity (testAdapter [testPicture420]) testUnit
      (by decide) (by decide) (by decide) (by decide)).1.trans (by decide),
   (C1_frame_length specValidity (testAdapter [testPicture420]) testUnit
      (by decide) (by decide) (by decide) (by decide)).2.1,
   (C1_frame_length specValidity (testAdapter [testPicture420]) testUnit
      (by decide) (by decide) (by decide) (by decide)).2.2.1⟩

open decoderVVCDec in
/-- C1, as stated, fails: the synthetic decoder completes a 4x4, 8-bit picture for which it
reports an unknown chroma format.  The push leaves the adapter in `RetrieveFrames`, and
`getRawFrameData` returns an empty buffer, while `lumaBytes + 2 * chromaBytes` is 24. -/
theorem C1_frame_length_counterexample :
    (testAdapter [testPictureUnknown]).decoderState = DecoderState.NeedsMoreData ∧
    (pushData specValidity (testAdapter [testPictureUnknown]) testUnit).1.decoderState
      = DecoderState.RetrieveFrames ∧
    (getRawFrameData
      (pushData specValidity (testAdapter [testPictureUnknown]) testUnit).1).2.length = 0 ∧
    (pushData specValidity (testAdapter [testPictureUnknown]) testUnit).1.lumaBytes
      + 2 * (pushData specValidity (testAdapter [testPictureUnknown]) testUnit).1.chromaBytes
      = 24 ∧
    ¬ ((getRawFrameData
        (pushData specValidity (testAdapter [testPictureUnknown]) testUnit).1).2.length
      = (pushData specValidity (testAdapter [testPictureUnknown]) testUnit).1.lumaBytes
        + 2 * (pushData specValidity (testAdapter [testPictureUnknown]) testUnit).1.chromaBytes) := by
  decide

/-! ## C2: plane copy correctness -/

open decoderVVCDec in
/-- C2, as the code has it: plane copy correctness.  For a picture that
`copyImgToByteArray` assembles (the checks pass, every plane is present, the byte count
fits an `int`) into a destination that is resized or has the size of the picture, every
plane `c` of the picture with native memory `src` satisfies
`dst[planeOffset + y * widthBytes + x] = src[y * stride + x]` for all rows `y` below the
plane height and all `x` below `widthBytes = width * sampleWidth`.  The region of the plane
has exactly `height * widthBytes` bytes and is the list of the logical rows, and the buffer
has `lumaBytes + 2 * chromaBytes` bytes in all, so that no padding byte
`src[y * stride + x]` with `x ≥ widthBytes` is part of it.  This holds for every stride, in
particular for a stride above `widthBytes`. -/
theorem C2_plane_copy {D : Type} (s : decoderVVCDec D) (dst : QByteArray)
    (c : libvvcdec_ColorComponent) (src : Nat → UInt8) (y x : Nat)
    (ha : s.assembles)
    (hdst : dst.capacity < s.lumaBytes + 2 * s.chromaBytes ∨
      dst.length = s.lumaBytes + 2 * s.chromaBytes)
    (hc : c = libvvcdec_ColorComponent.LIBVVCDEC_LUMA ∨
      s.picChromaFormat ≠ libvvcdec_ChromaFormat.LIBVVCDEC_CHROMA_400)
    (hsrc : s.picPlane c = some src)
    (hy : y < s.picHeight c) (hx : x < s.picWidth c * s.sampleWidth) :
    (copyImgToByteArray s dst).1.bytes[s.planeOffset c + y * (s.picWidth c * s.sampleWidth) + x]?
      = some (src (y * s.picStride c + x)) ∧
    ((copyImgToByteArray s dst).1.bytes.drop (s.planeOffset c)).take
        (s.picHeight c * (s.picWidth c * s.sampleWidth))
      = logicalPlane src (s.picStride c) (s.picWidth c * s.sampleWidth) (s.picHeight c) ∧
    (copyImgToByteArray s dst).1.bytes.length = s.lumaBytes + 2 * s.chromaBytes := by
  obtain ⟨pre, post, hb, hpre⟩ := region_of_plane s dst ha hdst c hc
  have hpb : s.planeBytes c
      = logicalPlane src (s.picStride c) (s.picWidth c * s.sampleWidth) (s.picHeight c) := by
    simp [planeBytes, hsrc]
  have hlen : (s.planeBytes c).length = s.picHeight c * (s.picWidth c * s.sampleWidth) := by
    rw [hpb, length_logicalPlane]
  refine ⟨?_, ?_, ?_⟩
  · have hidx := index_lt_of_row_col _ _ y x hy hx
    rw [hb, List.append_assoc, Nat.add_assoc, ← hpre,
      List.getElem?_append_right (Nat.le_add_right _ _), Nat.add_sub_cancel_left,
      List.getElem?_append_left (by rw [hlen]; exact hidx), hpb]
    exact getElem?_logicalPlane _ _ _ _ y x hy hx
  · rw [hb, List.append_assoc, ← hpre, List.drop_left, ← hlen, List.take_left, hpb]
  · exact length_copyImgToByteArray s dst ha.1 ha.2.2 hdst

open decoderVVCDec in
/-- Run of C2 on the 4:2:0, 10-bit picture, whose rows carry padding: byte 2 of row 1 of the
V plane, at offset 40 + 1 * 4 + 2 of the buffer, is byte 1 * 12 + 2 of the native V plane.
-/
theorem C2_plane_copy_witness :
    (pushData specValidity (testAdapter [testPicture420]) testUnit).1.assembles ∧
    (copyImgToByteArray (pushData specValidity (testAdapter [testPicture420]) testUnit).1
      QByteArray.null).1.bytes[40 + 1 * (2 * 2) + 2]? = some 214 :=
  ⟨by decide,
   (C2_plane_copy (pushData specValidity (testAdapter [testPicture420]) testUnit).1
      QByteArray.null libvvcdec_ColorComponent.LIBVVCDEC_CHROMA_V
      (fun i => ((List.range 24).map fun i =>
        if i % 12 < 4 then UInt8.ofNat (200 + i) else 0).getD i 0)
      1 2 (by decide) (by decide) (by decide) rfl (by decide) (by decide)).1⟩

open decoderVVCDec in
/-- C2, as stated, fails: the synthetic decoder completes a 4:2:0 picture with 8-bit luma
and 10-bit chroma.  Its luma plane is 4 bytes wide and 4 rows high, with stride 4, and
begins with the byte 1; `copyImgToByteArray` refuses pictures whose components differ in
sample width and returns with the destination still empty, so that no byte of the luma
plane is in it. -/
theorem C2_plane_copy_counterexample :
    ((pushData specValidity (testAdapter [testPictureMixedDepth]) testUnit).1.picPlane
      libvvcdec_ColorComponent.LIBVVCDEC_LUMA).map (fun src => src (0 * 4 + 0)) = some 1 ∧
    (pushData specValidity (testAdapter [testPictureMixedDepth]) testUnit).1.picHeight
      libvvcdec_ColorComponent.LIBVVCDEC_LUMA = 4 ∧
    (pushData specValidity (testAdapter [testPictureMixedDepth]) testUnit).1.picWidth
        libvvcdec_ColorComponent.LIBVVCDEC_LUMA *
      (pushData specValidity (testAdapter [testPictureMixedDepth]) testUnit).1.sampleWidth = 4 ∧
    (pushData specValidity (testAdapter [testPictureMixedDepth]) testUnit).1.picStride
      libvvcdec_ColorComponent.LIBVVCDEC_LUMA = 4 ∧
    (pushData specValidity (testAdapter [testPictureMixedDepth]) testUnit).1.planeOffset
      libvvcdec_ColorComponent.LIBVVCDEC_LUMA = 0 ∧
    (copyImgToByteArray (pushData specValidity (testAdapter [testPictureMixedDepth]) testUnit).1
      QByteArray.null).1.bytes = [] ∧
    ¬ ((copyImgToByteArray (pushData specValidity (testAdapter [testPictureMixedDepth]) testUnit).1
      QByteArray.null).1.bytes[0 + 0 * 4 + 0]? = some 1) := by
  decide

/-! ## C3: egress layout -/

open decoderVVCDec in
/-- C3: egress layout.  For every successfully assembled picture, the buffer handed out by
`getRawFrameData` is the luma plane followed by the chroma-U plane and the chroma-V plane,
each as its logical rows in row-major order without padding: the luma plane takes the
first `lumaBytes` bytes, the U plane the `chromaBytes` bytes from offset `lumaBytes`, the V
plane the bytes from offset `lumaBytes + chromaBytes` to the end.  The plane count is 1
for 4:0:0 and 3 for every other known format, and the assembly fetches exactly that many
planes from the external decoder, in the order luma, U, V. -/
theorem C3_egress_layout {D : Type} (s : decoderVVCDec D)
    (hstate : s.decoderState = DecoderState.RetrieveFrames)
    (hbuf : s.currentOutputBuffer = QByteArray.null)
    (ha : s.assembles) :
    (getRawFrameData s).2.bytes
      = s.planeBytes libvvcdec_ColorComponent.LIBVVCDEC_LUMA ++
        (if s.picChromaFormat = libvvcdec_ChromaFormat.LIBVVCDEC_CHROMA_400 then []
         else s.planeBytes libvvcdec_ColorComponent.LIBVVCDEC_CHROMA_U ++
           s.planeBytes libvvcdec_ColorComponent.LIBVVCDEC_CHROMA_V) ∧
    (getRawFrameData s).2.bytes.take s.lumaBytes
      = s.planeBytes libvvcdec_ColorComponent.LIBVVCDEC_LUMA ∧
    (s.picChromaFormat ≠ libvvcdec_ChromaFormat.LIBVVCDEC_CHROMA_400 →
      ((getRawFrameData s).2.bytes.drop s.lumaBytes).take s.chromaBytes
        = s.planeBytes libvvcdec_ColorComponent.LIBVVCDEC_CHROMA_U ∧
      (getRawFrameData s).2.bytes.drop (s.lumaBytes + s.chromaBytes)
        = s.planeBytes libvvcdec_ColorComponent.LIBVVCDEC_CHROMA_V) ∧
    (s.picChromaFormat = libvvcdec_ChromaFormat.LIBVVCDEC_CHROMA_400 →
      (getRawFrameData s).2.bytes = s.planeBytes libvvcdec_ColorComponent.LIBVVCDEC_LUMA) ∧
    nrPlanes s.picChromaFormat
      = (if s.picChromaFormat = libvvcdec_ChromaFormat.LIBVVCDEC_CHROMA_400 then 1 else 3) ∧
    ((getRawFrameData s).1.calls.drop s.calls.length).filter isPlaneCall
      = (colorComponentMap.take (nrPlanes s.picChromaFormat)).map
          LibCall.libvvcdec_get_picture_plane := by
  have hL := length_planeBytes_luma s ha
  have hb := copyImgToByteArray_bytes s QByteArray.null ha (null_sized _)
  have hcalls := copyImgToByteArray_planeCalls s QByteArray.null ha.1 ha.2.1
  rw [getRawFrameData_fresh s hstate hbuf]
  dsimp only
  refine ⟨hb, ?_, ?_, ?_, rfl, by rw [List.drop_left]; exact hcalls⟩
  · rw [hb, ← hL, List.take_left]
  · intro h400
    obtain ⟨hU, hV⟩ := length_planeBytes_chroma s ha h400
    rw [hb, if_neg h400]
    constructor
    · rw [← hL, List.drop_left, ← hU, List.take_left]
    · rw [← List.append_assoc, ← hL, ← hU, ← List.length_append, List.drop_left]
  · intro h400
    rw [hb, if_pos h400, List.append_nil]

open decoderVVCDec in
/-- Run of C3 on the 4:2:0, 10-bit picture: the buffer is the 32 luma bytes, the 8 U bytes
and the 8 V bytes, without the padding of the native rows. -/
theorem C3_egress_layout_witness :
    (getRawFrameData (pushData specValidity (testAdapter [testPicture420]) testUnit).1).2.bytes
      = [1, 2, 3, 4, 5, 6, 7, 8, 17, 18, 19, 20, 21, 22, 23, 24,
         33, 34, 35, 36, 37, 38, 39, 40, 49, 50, 51, 52, 53, 54, 55, 56] ++
        ([100, 101, 102, 103, 112, 113, 114, 115] ++ [200, 201, 202, 203, 212, 213, 214, 215]) :=
  (C3_egress_layout (pushData specValidity (testAdapter [testPicture420]) testUnit).1
    (by decide) (by decide) (by decide)).1.trans (by decide)

/-! ## C4: monochrome pictures -/

open decoderVVCDec in
/-- C4, as the code has it: when a push in state `NeedsMoreData` completes a monochrome
(4:0:0) picture of luma size `W x H` (the external decoder reports success and a picture
ready, and the negotiation succeeds), the decoder reports U and V planes of equal size and
a non-null luma plane, and `W * H * sampleWidth` is below `2^31`, then the push moves the
state to `RetrieveFrames`, and `getRawFrameData` returns a buffer of `W * H * sampleWidth`
bytes that holds the logical rows of the luma plane and nothing else (chroma contributes
0 bytes) and moves the state back to `NeedsMoreData`. -/
theorem C4_monochrome_frame {D : Type} (V : Validity) (s : decoderVVCDec D)
    (data : QByteArray)
    (hstate : s.decoderState = DecoderState.NeedsMoreData)
    (hok : (s.ingestResult data).err = libvvcdec_error.LIBVVCDEC_OK)
    (hout : (s.ingestResult data).checkOutputPictures = true)
    (hneg : (getNextFrameFromDecoder V (s.afterIngest data)).2 = true)
    (hmono : (pushData V s data).1.picChromaFormat
      = libvvcdec_ChromaFormat.LIBVVCDEC_CHROMA_400)
    (hw : (pushData V s data).1.picWidth libvvcdec_ColorComponent.LIBVVCDEC_CHROMA_V
      = (pushData V s data).1.picWidth libvvcdec_ColorComponent.LIBVVCDEC_CHROMA_U)
    (hh : (pushData V s data).1.picHeight libvvcdec_ColorComponent.LIBVVCDEC_CHROMA_V
      = (pushData V s data).1.picHeight libvvcdec_ColorComponent.LIBVVCDEC_CHROMA_U)
    (hplane : ((pushData V s data).1.picPlane
      libvvcdec_ColorComponent.LIBVVCDEC_LUMA).isSome = true)
    (hfit : (pushData V s data).1.picWidth libvvcdec_ColorComponent.LIBVVCDEC_LUMA *
      (pushData V s data).1.picHeight libvvcdec_ColorComponent.LIBVVCDEC_LUMA *
      (pushData V s data).1.sampleWidth < 2 ^ 31) :
    (pushData V s data).1.decoderState = DecoderState.RetrieveFrames ∧
    (getRawFrameData (pushData V s data).1).2.length
      = (pushData V s data).1.picWidth libvvcdec_ColorComponent.LIBVVCDEC_LUMA *
        (pushData V s data).1.picHeight libvvcdec_ColorComponent.LIBVVCDEC_LUMA *
        (pushData V s data).1.sampleWidth ∧
    (getRawFrameData (pushData V s data).1).2.bytes
      = (pushData V s data).1.planeBytes libvvcdec_ColorComponent.LIBVVCDEC_LUMA ∧
    (pushData V s data).1.chromaBytes = 0 ∧
    (getRawFrameData (pushData V s data).1).1.decoderState = DecoderState.NeedsMoreData := by
  obtain ⟨hpic, hbuf⟩ := pushData_complete_picture V s data hstate hok hout hneg
  have hcB : (pushData V s data).1.chromaBytes = 0 := by simp [chromaBytes, hmono]
  have ha : (pushData V s data).1.assembles := by
    refine ⟨⟨?_, ?_, hw, hh⟩, ⟨hplane, ?_⟩, ?_⟩
    · rw [hmono]; decide
    · intro h; exact absurd hmono h
    · intro h; exact absurd hmono h
    · unfold fitsInt
      rw [hcB]
      exact hfit
  have hb := (getRawFrameData_bytes (pushData V s data).1 hpic hbuf ha)
  refine ⟨hpic, ?_, ?_, hcB, ?_⟩
  · have hl := length_copyImgToByteArray (pushData V s data).1 QByteArray.null ha.1 ha.2.2
      (null_sized _)
    rw [getRawFrameData_fresh _ hpic hbuf]
    rw [hl, hcB]
    rfl
  · rw [hb, if_pos hmono, List.append_nil]
  · rw [getRawFrameData_fresh _ hpic hbuf]

open decoderVVCDec in
/-- Run of C4 on the monochrome, 8-bit, 16x16 picture: the frame has 256 bytes. -/
theorem C4_monochrome_frame_witness :
    (pushData specValidity (testAdapter [testPicture400]) testUnit).1.decoderState
      = DecoderState.RetrieveFrames ∧
    (getRawFrameData
      (pushData specValidity (testAdapter [testPicture400]) testUnit).1).2.length = 256 ∧
    (getRawFrameData
      (pushData specValidity (testAdapter [testPicture400]) testUnit).1).1.decoderState
        = DecoderState.NeedsMoreData :=
  ⟨(C4_monochrome_frame specValidity (testAdapter [testPicture400]) testUnit
      (by decide) (by decide) (by decide) (by decide) (by decide) (by decide) (by decide)
      (by decide) (by decide)).1,
   (C4_monochrome_frame specValidity (testAdapter [testPicture400]) testUnit
      (by decide) (by decide) (by decide) (by decide) (by decide) (by decide) (by decide)
      (by decide) (by decide)).2.1.trans (by decide),
   (C4_monochrome_frame specValidity (testAdapter [testPicture400]) testUnit
      (by decide) (by decide) (by decide) (by decide) (by decide) (by decide) (by decide)
      (by decide) (by decide)).2.2.2.2⟩

open decoderVVCDec in
/-- C4, as stated, fails: the synthetic decoder completes a monochrome, 16-bit picture that
is `2^31` samples wide and one row high.  The push moves the adapter from `NeedsMoreData`
to `RetrieveFrames`; `W * H * sampleWidth` is `2^32`, the 32-bit byte counts computed by
`copyImgToByteArray` wrap to 0, and `getRawFrameData` returns an empty buffer. -/
theorem C4_monochrome_frame_counterexample :
    (testAdapter [testPictureWide]).decoderState = DecoderState.NeedsMoreData ∧
    (pushData specValidity (testAdapter [testPictureWide]) testUnit).1.decoderState
      = DecoderState.RetrieveFrames ∧
    (pushData specValidity (testAdapter [testPictureWide]) testUnit).1.picChromaFormat
      = libvvcdec_ChromaFormat.LIBVVCDEC_CHROMA_400 ∧
    (pushData specValidity (testAdapter [testPictureWide]) testUnit).1.picWidth
        libvvcdec_ColorComponent.LIBVVCDEC_LUMA *
      (pushData specValidity (testAdapter [testPictureWide]) testUnit).1.picHeight
        libvvcdec_ColorComponent.LIBVVCDEC_LUMA *
      (pushData specValidity (testAdapter [testPictureWide]) testUnit).1.sampleWidth
      = 4294967296 ∧
    (getRawFrameData
      (pushData specValidity (testAdapter [testPictureWide]) testUnit).1).2.length = 0 := by
  decide

/-! ## C5: pushes outside `NeedsMoreData` -/

open decoderVVCDec in
/-- C5: `pushData` called in a state other than `NeedsMoreData` (that is, in
`RetrieveFrames`, `EndOfBitstream` or `Error`) returns `false` and changes nothing: the
adapter, with its decoder state, error string, frame size, pixel format, output buffer and
external decoder, is the one before the call, and no library call is recorded, so the
ingest entry point is not invoked. -/
theorem C5_pushData_rejected_outside_NeedsMoreData {D : Type} (V : Validity)
    (s : decoderVVCDec D) (data : QByteArray)
    (h : s.decoderState ≠ DecoderState.NeedsMoreData) :
    pushData V s data = (s, false) ∧
    (pushData V s data).1.decoderState = s.decoderState ∧
    (pushData V s data).1.errorString = s.errorString ∧
    (pushData V s data).1.frameSize = s.frameSize ∧
    (pushData V s data).1.formatYUV = s.formatYUV ∧
    (pushData V s data).1.currentOutputBuffer = s.currentOutputBuffer ∧
    (pushData V s data).1.calls = s.calls := by
  have hp : pushData V s data = (s, false) := by
    unfold pushData
    rw [if_pos h]
  simp [hp]

open decoderVVCDec in
/-- Run of C5 on an adapter in `RetrieveFrames`. -/
theorem C5_pushData_rejected_witness :
    (testAdapterIn DecoderState.RetrieveFrames QByteArray.null []).decoderState
        ≠ DecoderState.NeedsMoreData ∧
    pushData specValidity (testAdapterIn DecoderState.RetrieveFrames QByteArray.null []) testUnit
      = (testAdapterIn DecoderState.RetrieveFrames QByteArray.null [], false) :=
  ⟨by decide,
   (C5_pushData_rejected_outside_NeedsMoreData specValidity
      (testAdapterIn DecoderState.RetrieveFrames QByteArray.null []) testUnit (by decide)).1⟩

/-! ## C6: pushes that complete no picture -/

open decoderVVCDec in
/-- C6: a push in state `NeedsMoreData` for which the external decoder reports success and
no picture ready for output returns `true` and leaves the state `NeedsMoreData`. -/
theorem C6_pushData_without_picture {D : Type} (V : Validity)
    (s : decoderVVCDec D) (data : QByteArray)
    (hstate : s.decoderState = DecoderState.NeedsMoreData)
    (hok : (s.ingestResult data).err = libvvcdec_error.LIBVVCDEC_OK)
    (hno : (s.ingestResult data).checkOutputPictures = false) :
    (pushData V s data).2 = true ∧
    (pushData V s data).1.decoderState = DecoderState.NeedsMoreData := by
  rw [pushData_no_picture V s data hstate hok hno]
  exact ⟨rfl, hstate⟩

open decoderVVCDec in
/-- Run of C6 on a fresh adapter whose decoder has no picture to complete. -/
theorem C6_pushData_without_picture_witness :
    (testAdapter []).decoderState = DecoderState.NeedsMoreData ∧
    ((testAdapter []).ingestResult testUnit).err = libvvcdec_error.LIBVVCDEC_OK ∧
    ((testAdapter []).ingestResult testUnit).checkOutputPictures = false ∧
    (pushData specValidity (testAdapter []) testUnit).2 = true ∧
    (pushData specValidity (testAdapter []) testUnit).1.decoderState
      = DecoderState.NeedsMoreData :=
  ⟨by decide, by decide, by decide,
   C6_pushData_without_picture specValidity (testAdapter []) testUnit
     (by decide) (by decide) (by decide)⟩

/-! ## C7: pushes that complete a picture -/

open decoderVVCDec in
/-- C7: a push in state `NeedsMoreData` for which the external decoder reports success and
a picture ready for output, and for which the negotiation of size and format succeeds,
returns `true`, moves the state to `RetrieveFrames` and leaves the output buffer empty,
whatever it held before. -/
theorem C7_pushData_with_picture {D : Type} (V : Validity)
    (s : decoderVVCDec D) (data : QByteArray)
    (hstate : s.decoderState = DecoderState.NeedsMoreData)
    (hok : (s.ingestResult data).err = libvvcdec_error.LIBVVCDEC_OK)
    (hout : (s.ingestResult data).checkOutputPictures = true)
    (hneg : (getNextFrameFromDecoder V (s.afterIngest data)).2 = true) :
    (pushData V s data).2 = true ∧
    (pushData V s data).1.decoderState = DecoderState.RetrieveFrames ∧
    (pushData V s data).1.currentOutputBuffer = QByteArray.null ∧
    (pushData V s data).1.currentOutputBuffer.isEmpty = true := by
  rw [pushData_complete V s data hstate hok hout hneg]
  exact ⟨rfl, rfl, rfl, rfl⟩

open decoderVVCDec in
/-- Run of C7 on an adapter whose output buffer still holds two bytes of an earlier frame.
-/
theorem C7_pushData_with_picture_witness :
    (pushData specValidity
      (testAdapterIn DecoderState.NeedsMoreData { bytes := [9, 9], capacity := 2 }
        [testPicture420]) testUnit).1.decoderState = DecoderState.RetrieveFrames ∧
    (pushData specValidity
      (testAdapterIn DecoderState.NeedsMoreData { bytes := [9, 9], capacity := 2 }
        [testPicture420]) testUnit).1.currentOutputBuffer = QByteArray.null :=
  ⟨(C7_pushData_with_picture specValidity
      (testAdapterIn DecoderState.NeedsMoreData { bytes := [9, 9], capacity := 2 }
        [testPicture420]) testUnit (by decide) (by decide) (by decide) (by decide)).2.1,
   (C7_pushData_with_picture specValidity
      (testAdapterIn DecoderState.NeedsMoreData { bytes := [9, 9], capacity := 2 }
        [testPicture420]) testUnit (by decide) (by decide) (by decide) (by decide)).2.2.1⟩

/-! ## C8: empty pushes -/

open decoderVVCDec in
/-- C8, as the code has it: an empty push in state `NeedsMoreData` is handed to the external
ingest call with the end-of-file flag set and never drives the state to `EndOfBitstream`;
when the external decoder reports success and no picture ready, the push returns `true` and
the state stays `NeedsMoreData`, the state in which pushes are accepted.  An adapter that is
in `EndOfBitstream` rejects every push and stays there. -/
theorem C8_empty_push_keeps_NeedsMoreData {D : Type} (V : Validity)
    (s : decoderVVCDec D) (data : QByteArray)
    (hstate : s.decoderState = DecoderState.NeedsMoreData)
    (hempty : data.length = 0) :
    (pushData V s data).1.decoderState ≠ DecoderState.EndOfBitstream ∧
    (pushData V s data).1.calls.take (s.calls.length + 1)
      = s.calls ++ [LibCall.libvvcdec_push_nal_unit 0 true] ∧
    ((s.ingestResult data).err = libvvcdec_error.LIBVVCDEC_OK →
      (s.ingestResult data).checkOutputPictures = false →
      (pushData V s data).2 = true ∧
      (pushData V s data).1.decoderState = DecoderState.NeedsMoreData) ∧
    (∀ (t : decoderVVCDec D) (later : QByteArray),
      t.decoderState = DecoderState.EndOfBitstream → pushData V t later = (t, false)) := by
  refine ⟨?_, ?_, ?_, ?_⟩
  · unfold pushData
    dsimp only
    rw [if_neg (by simp [hstate])]
    split_ifs with h1 h2 h3
    · simp [setErrorB, setError]
    · simp
    · rw [getNextFrameFromDecoder_false V _ (by simpa using h3)]
      decide
    · simp [hstate]
  · unfold pushData
    dsimp only
    rw [if_neg (by simp [hstate]), hempty]
    split_ifs with h1 h2 h3
    · simp [setErrorB, setError]
    · unfold getNextFrameFromDecoder
      dsimp only
      split_ifs <;> simp [setErrorB, setError, logCalls, List.take_append_eq_append_take]
    · unfold getNextFrameFromDecoder
      dsimp only
      split_ifs <;> simp [setErrorB, setError, logCalls, List.take_append_eq_append_take]
    · simp
  · intro hok hno
    rw [pushData_no_picture V s data hstate hok hno]
    exact ⟨rfl, hstate⟩
  · intro t later ht
    unfold pushData
    rw [if_pos (by simp [ht])]

open decoderVVCDec in
/-- Run of C8 on a fresh adapter: the empty push is recorded with the end-of-file flag set.
-/
theorem C8_empty_push_witness :
    (pushData specValidity (testAdapter []) QByteArray.null).1.decoderState
      ≠ DecoderState.EndOfBitstream ∧
    (pushData specValidity (testAdapter []) QByteArray.null).1.calls
      = [LibCall.libvvcdec_push_nal_unit 0 true] :=
  ⟨(C8_empty_push_keeps_NeedsMoreData specValidity (testAdapter []) QByteArray.null
      (by decide) (by decide)).1, by decide⟩

open decoderVVCDec in
/-- C8, as stated, fails: on a fresh adapter of the synthetic decoder with no picture
pending, an empty push succeeds with no picture ready, yet the state afterwards is
`NeedsMoreData`, not `EndOfBitstream`, and the next push is accepted without a reset. -/
theorem C8_empty_push_counterexample :
    (testAdapter []).decoderState = DecoderState.NeedsMoreData ∧
    QByteArray.null.length = 0 ∧
    ((testAdapter []).ingestResult QByteArray.null).err = libvvcdec_error.LIBVVCDEC_OK ∧
    ((testAdapter []).ingestResult QByteArray.null).checkOutputPictures = false ∧
    ¬ ((pushData specValidity (testAdapter []) QByteArray.null).1.decoderState
        = DecoderState.EndOfBitstream) ∧
    ¬ ((pushData specValidity
        (pushData specValidity (testAdapter []) QByteArray.null).1 testUnit).2 = false) := by
  decide

/-! ## C9: errors of the ingest call -/

open decoderVVCDec in
/-- C9: a push in state `NeedsMoreData` for which the external ingest call returns an error
code returns `false` and moves the state to `Error`; the error string is
`Error pushing data to decoder (libvvcdec_push_nal_unit) length N` with `N` the decimal
length of the pushed data, so it names the failed call and contains the length. -/
theorem C9_pushData_ingest_error {D : Type} (V : Validity)
    (s : decoderVVCDec D) (data : QByteArray)
    (hstate : s.decoderState = DecoderState.NeedsMoreData)
    (herr : (s.ingestResult data).err ≠ libvvcdec_error.LIBVVCDEC_OK) :
    (pushData V s data).2 = false ∧
    (pushData V s data).1.decoderState = DecoderState.Error ∧
    (pushData V s data).1.errorString
      = "Error pushing data to decoder (libvvcdec_push_nal_unit) length "
        ++ toString data.length ∧
    (∃ pre post : String,
      (pushData V s data).1.errorString = pre ++ "libvvcdec_push_nal_unit" ++ post) ∧
    (∃ pre post : String,
      (pushData V s data).1.errorString = pre ++ Nat.repr data.length ++ post) := by
  unfold ingestResult at herr
  have hp : pushData V s data =
      setErrorB { s with
          decoder := (s.functions.libvvcdec_push_nal_unit s.decoder data.bytes data.length
            (data.length == 0)).decoder
          calls := s.calls ++ [LibCall.libvvcdec_push_nal_unit data.length (data.length == 0)] }
        ("Error pushing data to decoder (libvvcdec_push_nal_unit) length "
          ++ toString data.length) := by
    unfold pushData
    dsimp only
    rw [if_neg (by simp [hstate]), if_pos herr]
  rw [hp]
  refine ⟨rfl, rfl, rfl, ?_, ?_⟩
  · refine ⟨"Error pushing data to decoder (", ") length " ++ toString data.length, ?_⟩
    simp only [setErrorB, setError]
    rw [← String.append_assoc]
    rfl
  · refine ⟨"Error pushing data to decoder (libvvcdec_push_nal_unit) length ", "", ?_⟩
    simp only [setErrorB, setError, String.append_empty]
    rfl

open decoderVVCDec in
/-- Run of C9 on a unit of three bytes that the synthetic decoder refuses. -/
theorem C9_pushData_ingest_error_witness :
    (pushData specValidity (testAdapter [testPicture420]) testBadUnit).2 = false ∧
    (pushData specValidity (testAdapter [testPicture420]) testBadUnit).1.decoderState
      = DecoderState.Error ∧
    (pushData specValidity (testAdapter [testPicture420]) testBadUnit).1.errorString
      = "Error pushing data to decoder (libvvcdec_push_nal_unit) length 3" :=
  ⟨(C9_pushData_ingest_error specValidity (testAdapter [testPicture420]) testBadUnit
      (by decide) (by decide)).1,
   (C9_pushData_ingest_error specValidity (testAdapter [testPicture420]) testBadUnit
      (by decide) (by decide)).2.1,
   (C9_pushData_ingest_error specValidity (testAdapter [testPicture420]) testBadUnit
      (by decide) (by decide)).2.2.1⟩

/-! ## C10: `getRawFrameData` outside `RetrieveFrames` -/

open decoderVVCDec in
/-- C10: `getRawFrameData` called in a state other than `RetrieveFrames` returns an empty
buffer and changes nothing: decoder state, error string and stored output buffer are as
before and no library call is recorded, so no accessor of the external decoder is
invoked. -/
theorem C10_getRawFrameData_rejected_outside_RetrieveFrames {D : Type}
    (s : decoderVVCDec D) (h : s.decoderState ≠ DecoderState.RetrieveFrames) :
    getRawFrameData s = (s, QByteArray.null) ∧
    (getRawFrameData s).2.length = 0 ∧
    (getRawFrameData s).2.isEmpty = true ∧
    (getRawFrameData s).1.decoderState = s.decoderState ∧
    (getRawFrameData s).1.errorString = s.errorString ∧
    (getRawFrameData s).1.currentOutputBuffer = s.currentOutputBuffer ∧
    (getRawFrameData s).1.calls = s.calls := by
  rw [getRawFrameData_rejected s h]
  exact ⟨rfl, rfl, rfl, rfl, rfl, rfl, rfl⟩

open decoderVVCDec in
/-- Run of C10 on an adapter in `NeedsMoreData` whose output buffer holds two bytes. -/
theorem C10_getRawFrameData_rejected_witness :
    (testAdapterIn DecoderState.NeedsMoreData { bytes := [9, 9], capacity := 2 }
      [testPicture420]).decoderState ≠ DecoderState.RetrieveFrames ∧
    (getRawFrameData (testAdapterIn DecoderState.NeedsMoreData { bytes := [9, 9], capacity := 2 }
      [testPicture420])).2 = QByteArray.null ∧
    (getRawFrameData (testAdapterIn DecoderState.NeedsMoreData { bytes := [9, 9], capacity := 2 }
      [testPicture420])).1.currentOutputBuffer = { bytes := [9, 9], capacity := 2 } :=
  ⟨by decide,
   congrArg Prod.snd (C10_getRawFrameData_rejected_outside_RetrieveFrames
     (testAdapterIn DecoderState.NeedsMoreData { bytes := [9, 9], capacity := 2 }
       [testPicture420]) (by decide)).1,
   (C10_getRawFrameData_rejected_outside_RetrieveFrames
     (testAdapterIn DecoderState.NeedsMoreData { bytes := [9, 9], capacity := 2 }
       [testPicture420]) (by decide)).2.2.2.2.2.1⟩

/-! ## Lemmas on the negotiation -/

open decoderVVCDec in
theorem not_baselineSet_iff {D : Type} (V : Validity) (s : decoderVVCDec D) :
    ¬ s.baselineSet V ↔
      (!V.sizeIsValid s.frameSize && !V.formatIsValid s.formatYUV) = true := by
  unfold baselineSet
  cases V.sizeIsValid s.frameSize <;> cases V.formatIsValid s.formatYUV <;> simp

open decoderVVCDec in
theorem getNextFrameFromDecoder_adopt {D : Type} (V : Validity) (s : decoderVVCDec D)
    (h : ¬ s.baselineSet V) :
    getNextFrameFromDecoder V s =
      ({ s.logCalls negotiationCalls with
          frameSize := s.reportedSize
          formatYUV := { subsampling := s.reportedSubsampling
                         bitsPerSample := s.reportedBitDepth } }, true) := by
  have h1 := (not_baselineSet_iff V s).mp h
  unfold getNextFrameFromDecoder
  dsimp only
  rw [if_pos (by simpa [logCalls] using h1)]
  rfl

open decoderVVCDec in
theorem getNextFrameFromDecoder_size {D : Type} (V : Validity) (s : decoderVVCDec D)
    (h : s.baselineSet V) (hsize : s.frameSize ≠ s.reportedSize) :
    getNextFrameFromDecoder V s =
      (s.logCalls negotiationCalls).setErrorB "Received a frame of different size" := by
  have h1 : ¬ ((!V.sizeIsValid s.frameSize && !V.formatIsValid s.formatYUV) = true) :=
    fun hh => ((not_baselineSet_iff V s).mpr hh) h
  unfold getNextFrameFromDecoder
  dsimp only
  rw [if_neg (by simpa [logCalls] using h1), if_pos (by simpa [logCalls, reportedSize] using hsize)]
  rfl

open decoderVVCDec in
theorem getNextFrameFromDecoder_subsampling {D : Type} (V : Validity) (s : decoderVVCDec D)
    (h : s.baselineSet V) (hsize : s.frameSize = s.reportedSize)
    (hsub : s.formatYUV.subsampling ≠ s.reportedSubsampling) :
    getNextFrameFromDecoder V s =
      (s.logCalls negotiationCalls).setErrorB "Received a frame with different subsampling" := by
  have h1 : ¬ ((!V.sizeIsValid s.frameSize && !V.formatIsValid s.formatYUV) = true) :=
    fun hh => ((not_baselineSet_iff V s).mpr hh) h
  unfold getNextFrameFromDecoder
  dsimp only
  rw [if_neg (by simpa [logCalls] using h1),
    if_neg (by simpa [logCalls, reportedSize] using hsize),
    if_pos (by simpa [logCalls, reportedSubsampling, picChromaFormat] using hsub)]
  rfl

open decoderVVCDec in
theorem getNextFrameFromDecoder_bitDepth {D : Type} (V : Validity) (s : decoderVVCDec D)
    (h : s.baselineSet V) (hsize : s.frameSize = s.reportedSize)
    (hsub : s.formatYUV.subsampling = s.reportedSubsampling)
    (hbits : s.formatYUV.bitsPerSample ≠ s.reportedBitDepth) :
    getNextFrameFromDecoder V s =
      (s.logCalls negotiationCalls).setErrorB "Received a frame with different bit depth" := by
  have h1 : ¬ ((!V.sizeIsValid s.frameSize && !V.formatIsValid s.formatYUV) = true) :=
    fun hh => ((not_baselineSet_iff V s).mpr hh) h
  unfold getNextFrameFromDecoder
  dsimp only
  rw [if_neg (by simpa [logCalls] using h1),
    if_neg (by simpa [logCalls, reportedSize] using hsize),
    if_neg (by simpa [logCalls, reportedSubsampling, picChromaFormat] using hsub),
    if_pos (by simpa [logCalls, reportedBitDepth, picBitDepth] using hbits)]
  rfl

open decoderVVCDec in
theorem getNextFrameFromDecoder_match {D : Type} (V : Validity) (s : decoderVVCDec D)
    (h : s.baselineSet V) (hsize : s.frameSize = s.reportedSize)
    (hsub : s.formatYUV.subsampling = s.reportedSubsampling)
    (hbits : s.formatYUV.bitsPerSample = s.reportedBitDepth) :
    getNextFrameFromDecoder V s = (s.logCalls negotiationCalls, true) := by
  have h1 : ¬ ((!V.sizeIsValid s.frameSize && !V.formatIsValid s.formatYUV) = true) :=
    fun hh => ((not_baselineSet_iff V s).mpr hh) h
  unfold getNextFrameFromDecoder
  dsimp only
  rw [if_neg (by simpa [logCalls] using h1),
    if_neg (by simpa [logCalls, reportedSize] using hsize),
    if_neg (by simpa [logCalls, reportedSubsampling, picChromaFormat] using hsub),
    if_neg (by simpa [logCalls, reportedBitDepth, picBitDepth] using hbits)]
  rfl

open decoderVVCDec in
theorem pushData_negotiation_failed {D : Type} (V : Validity) (s : decoderVVCDec D)
    (data : QByteArray)
    (hstate : s.decoderState = DecoderState.NeedsMoreData)
    (hok : (s.ingestResult data).err = libvvcdec_error.LIBVVCDEC_OK)
    (hout : (s.ingestResult data).checkOutputPictures = true)
    (hneg : (getNextFrameFromDecoder V (s.afterIngest data)).2 = false) :
    pushData V s data = ((getNextFrameFromDecoder V (s.afterIngest data)).1, true) := by
  unfold ingestResult at hok hout
  unfold afterIngest at hneg ⊢
  unfold pushData
  dsimp only
  rw [if_neg (by simp [hstate]), if_neg (by simp [hok]), if_pos hout,
    if_neg (by simp [hneg])]

open decoderVVCDec in
theorem afterIngest_frame {D : Type} (s : decoderVVCDec D) (data : QByteArray) :
    (s.afterIngest data).frameSize = s.frameSize ∧
    (s.afterIngest data).formatYUV = s.formatYUV ∧
    (s.afterIngest data).decoderState = s.decoderState ∧
    (s.afterIngest data).errorString = s.errorString :=
  ⟨rfl, rfl, rfl, rfl⟩

open decoderVVCDec in
theorem decodeNextFrame_retrieve {D : Type} (V : Validity) (s : decoderVVCDec D)
    (hstate : s.decoderState = DecoderState.RetrieveFrames) :
    decodeNextFrame V s = getNextFrameFromDecoder V s := by
  unfold decodeNextFrame
  rw [if_neg (by simp [hstate])]

open decoderVVCDec in
theorem decodeNextFrame_rejected {D : Type} (V : Validity) (s : decoderVVCDec D)
    (hstate : s.decoderState ≠ DecoderState.RetrieveFrames) :
    decodeNextFrame V s = (s, false) := by
  unfold decodeNextFrame
  rw [if_pos hstate]

open decoderVVCDec in
theorem pushData_result {D : Type} (V : Validity) (s : decoderVVCDec D) (data : QByteArray) :
    (pushData V s data).2 = false ↔
      (s.decoderState ≠ DecoderState.NeedsMoreData ∨
        (s.ingestResult data).err ≠ libvvcdec_error.LIBVVCDEC_OK) := by
  unfold ingestResult
  unfold pushData
  dsimp only
  split_ifs with h1 h2 h3 h4 <;> simp_all [setErrorB]

open decoderVVCDec in
theorem copyImgToByteArray_abort {D : Type} (s : decoderVVCDec D) (dst : QByteArray)
    (h : s.picChromaFormat = libvvcdec_ChromaFormat.LIBVVCDEC_CHROMA_UNKNOWN ∨
      s.mixedSampleWidths ∨ s.chromaSizesDiffer) :
    (copyImgToByteArray s dst).1 = dst := by
  unfold copyImgToByteArray
  dsimp only
  split
  · rfl
  rename_i h1
  split
  · rfl
  rename_i h2
  split
  · rfl
  rename_i h3
  · exfalso
    rcases h with h | h | h
    · exact h1 h
    · obtain ⟨h400, hmix⟩ := h
      apply hmix
      have hn : nrPlanes (s.functions.libvvcdec_get_picture_chroma_format s.decoder) > 1 := by
        unfold picChromaFormat at h400
        simp [nrPlanes, h400]
      have hb : ¬ ((decide (s.functions.libvvcdec_get_picture_bit_depth s.decoder
            libvvcdec_ColorComponent.LIBVVCDEC_LUMA > 8)
          != decide (s.functions.libvvcdec_get_picture_bit_depth s.decoder
            libvvcdec_ColorComponent.LIBVVCDEC_CHROMA_U > 8)) ||
        (decide (s.functions.libvvcdec_get_picture_bit_depth s.decoder
            libvvcdec_ColorComponent.LIBVVCDEC_LUMA > 8)
          != decide (s.functions.libvvcdec_get_picture_bit_depth s.decoder
            libvvcdec_ColorComponent.LIBVVCDEC_CHROMA_V > 8))) = true :=
        fun hb => h2 ⟨hn, hb⟩
      simp only [Bool.or_eq_true, bne_iff_ne, ne_eq, decide_eq_decide, gt_iff_lt, not_or,
        not_not] at hb
      simp only [picBitDepth]
      omega
    · exact h3 h

open decoderVVCDec in
theorem getRawFrameData_state {D : Type} (s : decoderVVCDec D)
    (hstate : s.decoderState = DecoderState.RetrieveFrames) :
    (getRawFrameData s).1.decoderState = DecoderState.NeedsMoreData ∧
    (getRawFrameData s).1.errorString = s.errorString ∧
    (getRawFrameData s).1.frameSize = s.frameSize ∧
    (getRawFrameData s).1.formatYUV = s.formatYUV := by
  unfold getRawFrameData
  rw [if_neg (by simp [hstate])]
  dsimp only
  split_ifs <;> exact ⟨rfl, rfl, rfl, rfl⟩

open decoderVVCDec in
theorem resetDecoder_frame {D : Type} (s : decoderVVCDec D) :
    (resetDecoder s).frameSize = s.frameSize ∧
    (resetDecoder s).formatYUV = s.formatYUV ∧
    (resetDecoder s).currentOutputBuffer = s.currentOutputBuffer ∧
    ((resetDecoder s).decoderState = s.decoderState ∨
      (resetDecoder s).decoderState = DecoderState.Error) := by
  unfold resetDecoder allocateNewDecoder
  split_ifs <;> simp [setError, logCalls]

/-! ## Lemmas on symbol resolution -/

open decoderVVCDec in
theorem resolveLibraryFunctionPointers_eq_sequence {D : Type} (fs : FileSystem)
    (s : decoderVVCDec D) :
    resolveLibraryFunctionPointers fs s = resolveSequence fs mandatoryMembers s := by
  simp only [resolveLibraryFunctionPointers, resolveSequence, mandatoryMembers, ite_self]

theorem QLibrary.resolve_loaded (fs : FileSystem) (lib : QLibrary) (e : List String)
    (symbol : String) (h : lib.handle = some e) :
    lib.resolve fs symbol =
      (lib, if symbol ∈ e then some { library := lib.fileName, symbol := symbol } else none) := by
  have hl : lib.load fs = (lib, true) := by simp [QLibrary.load, h]
  simp [QLibrary.resolve, hl, h]

open decoderVVCDec in
theorem resolve_found {D : Type} (fs : FileSystem) (s : decoderVVCDec D) (e : List String)
    (m : LibraryFunction × String) (h : s.library.handle = some e) (hm : m.2 ∈ e) :
    resolve fs s m.1 m.2 resolveOptionalDefault =
      ({ s with lookups := s.lookups ++ [m.2]
                functionPointers := Function.update s.functionPointers m.1
                  (some { library := s.library.fileName, symbol := m.2 }) },
       some { library := s.library.fileName, symbol := m.2 }) := by
  unfold resolve
  rw [QLibrary.resolve_loaded fs s.library e m.2 h, if_pos hm]

open decoderVVCDec in
theorem resolve_missing {D : Type} (fs : FileSystem) (s : decoderVVCDec D) (e : List String)
    (m : LibraryFunction × String) (h : s.library.handle = some e) (hm : m.2 ∉ e) :
    resolve fs s m.1 m.2 resolveOptionalDefault =
      (setError { s with lookups := s.lookups ++ [m.2] } (missingSymbolError m.2), none) := by
  unfold resolve
  rw [QLibrary.resolve_loaded fs s.library e m.2 h, if_neg hm]
  rfl

open decoderVVCDec in
theorem resolveSequence_all {D : Type} (fs : FileSystem) (e : List String) :
    ∀ (ms : List (LibraryFunction × String)) (s : decoderVVCDec D),
      s.library.handle = some e → (∀ m ∈ ms, m.2 ∈ e) →
      resolveSequence fs ms s =
        { s with lookups := s.lookups ++ ms.map Prod.snd
                 functionPointers := pointersAfter s.library.fileName ms s.functionPointers } := by
  intro ms
  induction ms with
  | nil => intro s _ _; simp [resolveSequence, pointersAfter]
  | cons m rest ih =>
    intro s h hall
    have hm : m.2 ∈ e := hall m (List.mem_cons_self _ _)
    have hrest : ∀ x ∈ rest, x.2 ∈ e := fun x hx => hall x (List.mem_cons_of_mem _ hx)
    rw [resolveSequence, resolve_found fs s e m h hm]
    dsimp only
    rw [if_neg (by simp),
      ih { s with lookups := s.lookups ++ [m.2]
                  functionPointers := Function.update s.functionPointers m.1
                    (some { library := s.library.fileName, symbol := m.2 }) } h hrest]
    simp [pointersAfter]

open decoderVVCDec in
theorem resolveSequence_missing {D : Type} (fs : FileSystem) (e : List String)
    (m : LibraryFunction × String) (after : List (LibraryFunction × String)) (hm : m.2 ∉ e) :
    ∀ (before : List (LibraryFunction × String)) (s : decoderVVCDec D),
      s.library.handle = some e → (∀ b ∈ before, b.2 ∈ e) →
      resolveSequence fs (before ++ m :: after) s =
        setError
          { s with lookups := s.lookups ++ before.map Prod.snd ++ [m.2]
                   functionPointers :=
                     pointersAfter s.library.fileName before s.functionPointers }
          (missingSymbolError m.2) := by
  intro before
  induction before with
  | nil =>
    intro s h _
    rw [List.nil_append, resolveSequence, resolve_missing fs s e m h hm]
    simp [pointersAfter]
  | cons b rest ih =>
    intro s h hall
    have hb : b.2 ∈ e := hall b (List.mem_cons_self _ _)
    have hrest : ∀ x ∈ rest, x.2 ∈ e := fun x hx => hall x (List.mem_cons_of_mem _ hx)
    rw [List.cons_append, resolveSequence, resolve_found fs s e b h hb]
    dsimp only
    rw [if_neg (by simp),
      ih { s with lookups := s.lookups ++ [b.2]
                  functionPointers := Function.update s.functionPointers b.1
                    (some { library := s.library.fileName, symbol := b.2 }) } h hrest]
    simp [pointersAfter]

theorem first_missing_or_all {α : Type} (p : α → Prop) [DecidablePred p] :
    ∀ ms : List α, (∀ m ∈ ms, p m) ∨
      ∃ before m after, ms = before ++ m :: after ∧ (∀ b ∈ before, p b) ∧ ¬ p m := by
  intro ms
  induction ms with
  | nil => left; simp
  | cons a rest ih =>
    by_cases ha : p a
    · rcases ih with hall | ⟨before, m, after, hsplit, hbefore, hm⟩
      · left
        intro x hx
        rcases List.mem_cons.mp hx with h | h
        · rw [h]; exact ha
        · exact hall x h
      · right
        refine ⟨a :: before, m, after, by rw [hsplit]; rfl, ?_, hm⟩
        intro x hx
        rcases List.mem_cons.mp hx with h | h
        · rw [h]; exact ha
        · exact hbefore x h
    · right
      exact ⟨[], a, rest, rfl, by simp, ha⟩

theorem foldl_overwrite_of_mem {α β γ : Type} [DecidableEq α] (k : α) (v : α × β → γ) :
    ∀ (ms : List (α × β)) (x y : γ), (∃ m ∈ ms, m.1 = k) →
      ms.foldl (fun acc m => if k = m.1 then v m else acc) x
        = ms.foldl (fun acc m => if k = m.1 then v m else acc) y := by
  intro ms
  induction ms with
  | nil => intro x y h; simp at h
  | cons a rest ih =>
    intro x y h
    rw [List.foldl_cons, List.foldl_cons]
    by_cases ha : k = a.1
    · simp [ha]
    · simp only [if_neg ha]
      apply ih
      obtain ⟨m, hm, hk⟩ := h
      rcases List.mem_cons.mp hm with h1 | h1
      · exact absurd (by rw [← hk, h1]) ha
      · exact ⟨m, h1, hk⟩

theorem foldl_overwrite_of_not_mem {α β γ : Type} [DecidableEq α] (k : α) (v : α × β → γ) :
    ∀ (ms : List (α × β)) (x : γ), (¬ ∃ m ∈ ms, m.1 = k) →
      ms.foldl (fun acc m => if k = m.1 then v m else acc) x = x := by
  intro ms
  induction ms with
  | nil => intro x _; rfl
  | cons a rest ih =>
    intro x h
    have ha : ¬ k = a.1 := fun hk => h ⟨a, List.mem_cons_self _ _, hk.symm⟩
    rw [List.foldl_cons, if_neg ha]
    exact ih x (fun ⟨m, hm, hk⟩ => h ⟨m, List.mem_cons_of_mem _ hm, hk⟩)

open decoderVVCDec in
theorem pointersAfter_apply (file : String) :
    ∀ (ms : List (LibraryFunction × String)) (t : LibraryFunction → Option FunctionPointer)
      (k : LibraryFunction),
      pointersAfter file ms t k
        = ms.foldl (fun acc m =>
            if k = m.1 then some { library := file, symbol := m.2 } else acc) (t k) := by
  intro ms
  induction ms with
  | nil => intro t k; rfl
  | cons a rest ih =>
    intro t k
    unfold pointersAfter at ih ⊢
    rw [List.foldl_cons, List.foldl_cons, ih, Function.update_apply]

open decoderVVCDec in
theorem pointersAfter_idem (file : String) (ms : List (LibraryFunction × String))
    (t : LibraryFunction → Option FunctionPointer) :
    pointersAfter file ms (pointersAfter file ms t) = pointersAfter file ms t := by
  funext k
  rw [pointersAfter_apply file ms (pointersAfter file ms t) k, pointersAfter_apply file ms t k]
  by_cases h : ∃ m ∈ ms, m.1 = k
  · exact foldl_overwrite_of_mem k
      (fun m : LibraryFunction × String =>
        (some { library := file, symbol := m.2 } : Option FunctionPointer)) ms _ _ h
  · rw [foldl_overwrite_of_not_mem k
      (fun m : LibraryFunction × String =>
        (some { library := file, symbol := m.2 } : Option FunctionPointer)) ms _ h]

open decoderVVCDec in
theorem members_of_symbols (before after : List String) (sym : String)
    (hsplit : mandatorySymbols = before ++ sym :: after) :
    ∃ bs m as, mandatoryMembers = bs ++ m :: as ∧ bs.map Prod.snd = before ∧ m.2 = sym ∧
      as.map Prod.snd = after := by
  unfold mandatorySymbols at hsplit
  obtain ⟨bs, rest, h1, h2, h3⟩ := List.map_eq_append_iff.mp hsplit
  obtain ⟨m, as, h4, h5, h6⟩ := List.map_eq_cons_iff.mp h3
  exact ⟨bs, m, as, by rw [h1, h4], h2, h5, h6⟩

open decoderVVCDec in
theorem resolve_all_exported {D : Type} (fs : FileSystem) (s : decoderVVCDec D)
    (e : List String) (hlib : s.library.handle = some e)
    (hall : ∀ sym ∈ mandatorySymbols, sym ∈ e) :
    resolveLibraryFunctionPointers fs s =
      { s with lookups := s.lookups ++ mandatorySymbols
               functionPointers :=
                 pointersAfter s.library.fileName mandatoryMembers s.functionPointers } := by
  rw [resolveLibraryFunctionPointers_eq_sequence,
    resolveSequence_all fs e mandatoryMembers s hlib
      (fun m hm => hall m.2 (List.mem_map_of_mem Prod.snd hm))]
  rfl

open decoderVVCDec in
theorem resolve_first_missing {D : Type} (fs : FileSystem) (s : decoderVVCDec D)
    (e : List String) (hlib : s.library.handle = some e)
    (bs as : List (LibraryFunction × String)) (m : LibraryFunction × String)
    (hsplit : mandatoryMembers = bs ++ m :: as) (hbs : ∀ b ∈ bs, b.2 ∈ e) (hm : m.2 ∉ e) :
    resolveLibraryFunctionPointers fs s =
      setError
        { s with lookups := s.lookups ++ bs.map Prod.snd ++ [m.2]
                 functionPointers := pointersAfter s.library.fileName bs s.functionPointers }
        (missingSymbolError m.2) := by
  rw [resolveLibraryFunctionPointers_eq_sequence, hsplit,
    resolveSequence_missing fs e m as hm bs s hlib hbs]

open decoderVVCDec in
theorem checkLibraryFile_loaded {D : Type} (fs : FileSystem)
    (loadDecoderLibrary : decoderVVCDec D → String → decoderVVCDec D)
    (base : decoderVVCDec D) (libVVCDecFile libFilePath : String) (e : List String)
    (hload : fs libFilePath = some e) :
    checkLibraryFile fs loadDecoderLibrary base libVVCDecFile libFilePath =
      (!(resolveLibraryFunctionPointers fs
          { new loadDecoderLibrary base libVVCDecFile with
            library := { fileName := libFilePath, handle := some e } }).errorInDecoder,
        (resolveLibraryFunctionPointers fs
          { new loadDecoderLibrary base libVVCDecFile with
            library := { fileName := libFilePath, handle := some e } }).decoderErrorString) := by
  unfold checkLibraryFile
  simp [QLibrary.load, QLibrary.setFileName, hload]

/-! ## C11: geometry immutability -/

open decoderVVCDec in
/-- C11, as the code has it: once a baseline is set (the stored frame size or the stored
pixel format is valid), every picture that the adapter negotiates and that reports a size
other than the stored frame size drives the adapter to `Error` with the error string
`Received a frame of different size`; the stored size and format stay as they are.  A push
in `NeedsMoreData` that completes such a picture ends in `Error` and not in
`RetrieveFrames`, and `decodeNextFrame` in `RetrieveFrames` fails and ends in `Error`. -/
theorem C11_size_mismatch_is_fatal {D : Type} (V : Validity) (s : decoderVVCDec D)
    (hset : s.baselineSet V) :
    (∀ data : QByteArray,
      s.decoderState = DecoderState.NeedsMoreData →
      (s.ingestResult data).err = libvvcdec_error.LIBVVCDEC_OK →
      (s.ingestResult data).checkOutputPictures = true →
      (s.afterIngest data).reportedSize ≠ s.frameSize →
        (pushData V s data).1.decoderState = DecoderState.Error ∧
        (pushData V s data).1.decoderState ≠ DecoderState.RetrieveFrames ∧
        (pushData V s data).1.errorString = "Received a frame of different size" ∧
        (∃ pre post : String,
          (pushData V s data).1.errorString = pre ++ "different size" ++ post) ∧
        (pushData V s data).1.frameSize = s.frameSize ∧
        (pushData V s data).1.formatYUV = s.formatYUV) ∧
    (s.decoderState = DecoderState.RetrieveFrames →
      s.reportedSize ≠ s.frameSize →
        (decodeNextFrame V s).2 = false ∧
        (decodeNextFrame V s).1.decoderState = DecoderState.Error ∧
        (decodeNextFrame V s).1.errorString = "Received a frame of different size" ∧
        (decodeNextFrame V s).1.frameSize = s.frameSize ∧
        (decodeNextFrame V s).1.formatYUV = s.formatYUV) := by
  constructor
  · intro data hstate hok hout hsize
    have hg := getNextFrameFromDecoder_size V (s.afterIngest data) hset (Ne.symm hsize)
    rw [pushData_negotiation_failed V s data hstate hok hout (by rw [hg]; rfl), hg]
    refine ⟨rfl, by simp [setErrorB, setError],  rfl, ⟨"Received a frame of ", "",
      (by decide : "Received a frame of different size"
        = "Received a frame of " ++ "different size" ++ "")⟩, rfl, rfl⟩
  · intro hstate hsize
    rw [decodeNextFrame_retrieve V s hstate, getNextFrameFromDecoder_size V s hset (Ne.symm hsize)]
    exact ⟨rfl, rfl, rfl, rfl, rfl⟩

open decoderVVCDec in
/-- Run of C11: a first push establishes the 4:2:0, 10-bit, 4x4 picture as the baseline and
the frame is fetched; the next push completes a 16x16 picture and ends in `Error`. -/
theorem C11_size_mismatch_witness :
    (getRawFrameData (pushData specValidity
      (testAdapter [testPicture420, testPicture400]) testUnit).1).1.frameSize
        = { width := 4, height := 4 } ∧
    (pushData specValidity (getRawFrameData (pushData specValidity
      (testAdapter [testPicture420, testPicture400]) testUnit).1).1 testUnit).1.decoderState
        = DecoderState.Error ∧
    (pushData specValidity (getRawFrameData (pushData specValidity
      (testAdapter [testPicture420, testPicture400]) testUnit).1).1 testUnit).1.errorString
        = "Received a frame of different size" :=
  ⟨by decide,
   ((C11_size_mismatch_is_fatal specValidity (getRawFrameData (pushData specValidity
      (testAdapter [testPicture420, testPicture400]) testUnit).1).1 (by decide)).1 testUnit
      (by decide) (by decide) (by decide) (by decide)).1,
   ((C11_size_mismatch_is_fatal specValidity (getRawFrameData (pushData specValidity
      (testAdapter [testPicture420, testPicture400]) testUnit).1).1 (by decide)).1 testUnit
      (by decide) (by decide) (by decide) (by decide)).2.2.1⟩

open decoderVVCDec in
/-- C11, as stated, fails: the first picture the synthetic decoder completes reports the
size 0x0, an unknown chroma format and the bit depth 0.  The adapter takes these values as
frame size and format, and after the frame is fetched the next push completes a 4x4
picture: the adapter is in `RetrieveFrames`, not in `Error`, its error string is empty and
the stored frame size is now 4x4. -/
theorem C11_size_mismatch_counterexample :
    (pushData specValidity (testAdapter [testPictureZero, testPicture420]) testUnit).1.decoderState
      = DecoderState.RetrieveFrames ∧
    (pushData specValidity (testAdapter [testPictureZero, testPicture420]) testUnit).1.frameSize
      = { width := 0, height := 0 } ∧
    (pushData specValidity (testAdapter [testPictureZero, testPicture420]) testUnit).1.formatYUV
      = { subsampling := Subsampling.UNKNOWN, bitsPerSample := 0 } ∧
    (getRawFrameData (pushData specValidity
      (testAdapter [testPictureZero, testPicture420]) testUnit).1).1.decoderState
        = DecoderState.NeedsMoreData ∧
    (afterIngest (getRawFrameData (pushData specValidity
      (testAdapter [testPictureZero, testPicture420]) testUnit).1).1 testUnit).reportedSize
        = { width := 4, height := 4 } ∧
    (pushData specValidity (getRawFrameData (pushData specValidity
      (testAdapter [testPictureZero, testPicture420]) testUnit).1).1 testUnit).1.decoderState
        = DecoderState.RetrieveFrames ∧
    ¬ ((pushData specValidity (getRawFrameData (pushData specValidity
      (testAdapter [testPictureZero, testPicture420]) testUnit).1).1 testUnit).1.decoderState
        = DecoderState.Error) ∧
    (pushData specValidity (getRawFrameData (pushData specValidity
      (testAdapter [testPictureZero, testPicture420]) testUnit).1).1 testUnit).1.errorString = "" ∧
    (pushData specValidity (getRawFrameData (pushData specValidity
      (testAdapter [testPictureZero, testPicture420]) testUnit).1).1 testUnit).1.frameSize
        = { width := 4, height := 4 } := by
  decide

/-! ## C12: subsampling and bit depth against the baseline -/

open decoderVVCDec in
/-- C12: when a baseline is set and the picture has the stored size, a subsampling other
than the stored one drives the adapter to `Error` with the message
`Received a frame with different subsampling`, and, with equal size and subsampling, a bit
depth other than the stored one drives it to `Error` with the message
`Received a frame with different bit depth`; a picture that equals the baseline in size,
subsampling and bit depth is accepted, and the negotiation leaves frame size, format,
decoder state and error string as they are. -/
theorem C12_format_against_baseline {D : Type} (V : Validity) (s : decoderVVCDec D)
    (hset : s.baselineSet V) (hsize : s.reportedSize = s.frameSize) :
    (s.reportedSubsampling ≠ s.formatYUV.subsampling →
      (getNextFrameFromDecoder V s).2 = false ∧
      (getNextFrameFromDecoder V s).1.decoderState = DecoderState.Error ∧
      (getNextFrameFromDecoder V s).1.errorString
        = "Received a frame with different subsampling" ∧
      (∃ pre post : String,
        (getNextFrameFromDecoder V s).1.errorString = pre ++ "subsampling" ++ post)) ∧
    (s.reportedSubsampling = s.formatYUV.subsampling →
      s.reportedBitDepth ≠ s.formatYUV.bitsPerSample →
      (getNextFrameFromDecoder V s).2 = false ∧
      (getNextFrameFromDecoder V s).1.decoderState = DecoderState.Error ∧
      (getNextFrameFromDecoder V s).1.errorString
        = "Received a frame with different bit depth" ∧
      (∃ pre post : String,
        (getNextFrameFromDecoder V s).1.errorString = pre ++ "bit depth" ++ post)) ∧
    (s.reportedSubsampling = s.formatYUV.subsampling →
      s.reportedBitDepth = s.formatYUV.bitsPerSample →
      (getNextFrameFromDecoder V s).2 = true ∧
      (getNextFrameFromDecoder V s).1.frameSize = s.frameSize ∧
      (getNextFrameFromDecoder V s).1.formatYUV = s.formatYUV ∧
      (getNextFrameFromDecoder V s).1.decoderState = s.decoderState ∧
      (getNextFrameFromDecoder V s).1.errorString = s.errorString) := by
  refine ⟨?_, ?_, ?_⟩
  · intro hsub
    rw [getNextFrameFromDecoder_subsampling V s hset hsize.symm (Ne.symm hsub)]
    exact ⟨rfl, rfl, rfl, ⟨"Received a frame with different ", "",
      (by decide : "Received a frame with different subsampling"
        = "Received a frame with different " ++ "subsampling" ++ "")⟩⟩
  · intro hsub hbits
    rw [getNextFrameFromDecoder_bitDepth V s hset hsize.symm hsub.symm (Ne.symm hbits)]
    exact ⟨rfl, rfl, rfl, ⟨"Received a frame with different ", "",
      (by decide : "Received a frame with different bit depth"
        = "Received a frame with different " ++ "bit depth" ++ "")⟩⟩
  · intro hsub hbits
    rw [getNextFrameFromDecoder_match V s hset hsize.symm hsub.symm hbits.symm]
    exact ⟨rfl, rfl, rfl, rfl, rfl⟩

open decoderVVCDec in
/-- Run of C12 with the 4:2:0, 10-bit, 4x4 picture as the baseline: a 4x4 picture in 4:4:4
is refused for its subsampling, a 4x4 picture in 4:2:0 with 8 bits for its bit depth. -/
theorem C12_format_against_baseline_witness :
    (getNextFrameFromDecoder specValidity (afterIngest (getRawFrameData (pushData specValidity
      (testAdapter [testPicture420,
        { testPicture420 with chromaFormat := libvvcdec_ChromaFormat.LIBVVCDEC_CHROMA_444 }])
      testUnit).1).1 testUnit)).1.errorString
        = "Received a frame with different subsampling" ∧
    (getNextFrameFromDecoder specValidity (afterIngest (getRawFrameData (pushData specValidity
      (testAdapter [testPicture420, { testPicture420 with bitDepth := fun _ => 8 }])
      testUnit).1).1 testUnit)).1.errorString
        = "Received a frame with different bit depth" :=
  ⟨((C12_format_against_baseline specValidity (afterIngest (getRawFrameData (pushData
      specValidity (testAdapter [testPicture420,
        { testPicture420 with chromaFormat := libvvcdec_ChromaFormat.LIBVVCDEC_CHROMA_444 }])
      testUnit).1).1 testUnit) (by decide) (by decide)).1 (by decide)).2.2.1,
   ((C12_format_against_baseline specValidity (afterIngest (getRawFrameData (pushData
      specValidity (testAdapter [testPicture420, { testPicture420 with bitDepth := fun _ => 8 }])
      testUnit).1).1 testUnit) (by decide) (by decide)).2.1 (by decide) (by decide)).2.2.1⟩

/-! ## C13: failures of the assembly -/

open decoderVVCDec in
/-- C13, as the code has it: a failure of the assembly is not an error of the adapter.
Whenever `getRawFrameData` is called in `RetrieveFrames`, whatever the assembly meets (a
null plane pointer, U and V planes of different size, components of different sample
width), the adapter ends in `NeedsMoreData`, not in `Error`, and its error string is as
before.  When the chroma format is unknown, the sample widths differ or the U and V planes
differ in size, the buffer is handed back as it was, empty. -/
theorem C13_assembly_failure_not_fatal {D : Type} (s : decoderVVCDec D)
    (hstate : s.decoderState = DecoderState.RetrieveFrames) :
    (getRawFrameData s).1.decoderState = DecoderState.NeedsMoreData ∧
    (getRawFrameData s).1.decoderState ≠ DecoderState.Error ∧
    (getRawFrameData s).1.errorString = s.errorString ∧
    (s.currentOutputBuffer.isEmpty = true →
      (s.picChromaFormat = libvvcdec_ChromaFormat.LIBVVCDEC_CHROMA_UNKNOWN ∨
        s.mixedSampleWidths ∨ s.chromaSizesDiffer) →
      (getRawFrameData s).2 = s.currentOutputBuffer ∧
      (getRawFrameData s).2.isEmpty = true) := by
  obtain ⟨h1, h2, _, _⟩ := getRawFrameData_state s hstate
  refine ⟨h1, by rw [h1]; decide, h2, ?_⟩
  intro hempty hfail
  have hab := copyImgToByteArray_abort s s.currentOutputBuffer hfail
  unfold getRawFrameData
  rw [if_neg (by simp [hstate]), if_pos hempty]
  dsimp only
  rw [hab]
  exact ⟨rfl, hempty⟩

open decoderVVCDec in
/-- Run of C13 on the picture with 8-bit luma and 10-bit chroma. -/
theorem C13_assembly_failure_witness :
    (pushData specValidity (testAdapter [testPictureMixedDepth]) testUnit).1.mixedSampleWidths ∧
    (getRawFrameData
      (pushData specValidity (testAdapter [testPictureMixedDepth]) testUnit).1).1.decoderState
        = DecoderState.NeedsMoreData ∧
    (getRawFrameData
      (pushData specValidity (testAdapter [testPictureMixedDepth]) testUnit).1).2
        = QByteArray.null :=
  ⟨by decide,
   (C13_assembly_failure_not_fatal
      (pushData specValidity (testAdapter [testPictureMixedDepth]) testUnit).1 (by decide)).1,
   ((C13_assembly_failure_not_fatal
      (pushData specValidity (testAdapter [testPictureMixedDepth]) testUnit).1
      (by decide)).2.2.2 (by decide) (Or.inr (Or.inl (by decide)))).1⟩

open decoderVVCDec in
/-- C13, as stated, fails, for each of the three failures.  The synthetic decoder completes
a picture whose U plane has a null pointer, a picture whose U and V planes differ in
width, and a picture with 8-bit luma and 10-bit chroma.  Each time `getRawFrameData` is
called in `RetrieveFrames` and leaves the adapter in `NeedsMoreData` with an empty error
string. -/
theorem C13_assembly_failure_counterexample :
    ((pushData specValidity (testAdapter [testPictureNoU]) testUnit).1.decoderState
        = DecoderState.RetrieveFrames ∧
      ((pushData specValidity (testAdapter [testPictureNoU]) testUnit).1.picPlane
        libvvcdec_ColorComponent.LIBVVCDEC_CHROMA_U).isNone = true ∧
      (getRawFrameData
        (pushData specValidity (testAdapter [testPictureNoU]) testUnit).1).1.decoderState
          = DecoderState.NeedsMoreData ∧
      (getRawFrameData
        (pushData specValidity (testAdapter [testPictureNoU]) testUnit).1).1.errorString = "") ∧
    ((pushData specValidity (testAdapter [testPictureChromaSizes]) testUnit).1.decoderState
        = DecoderState.RetrieveFrames ∧
      (pushData specValidity (testAdapter [testPictureChromaSizes]) testUnit).1.chromaSizesDiffer ∧
      (getRawFrameData
        (pushData specValidity (testAdapter [testPictureChromaSizes]) testUnit).1).1.decoderState
          = DecoderState.NeedsMoreData ∧
      (getRawFrameData
        (pushData specValidity (testAdapter [testPictureChromaSizes]) testUnit).1).1.errorString
          = "") ∧
    ((pushData specValidity (testAdapter [testPictureMixedDepth]) testUnit).1.decoderState
        = DecoderState.RetrieveFrames ∧
      (pushData specValidity (testAdapter [testPictureMixedDepth]) testUnit).1.mixedSampleWidths ∧
      (getRawFrameData
        (pushData specValidity (testAdapter [testPictureMixedDepth]) testUnit).1).1.decoderState
          = DecoderState.NeedsMoreData ∧
      ¬ ((getRawFrameData
        (pushData specValidity (testAdapter [testPictureMixedDepth]) testUnit).1).1.decoderState
          = DecoderState.Error) ∧
      (getRawFrameData
        (pushData specValidity (testAdapter [testPictureMixedDepth]) testUnit).1).1.errorString
          = "") := by
  decide

/-! ## C14: reset -/

open decoderVVCDec in
/-- C14 fails on the code: `resetDecoder` of `decoderVVCDec` only replaces the instance of
the external decoder.  On the adapter that a 4x4 baseline and a 16x16 picture have driven to
`Error`, the free and create calls succeed, and after the reset the state is still `Error`,
the error string is still `Received a frame of different size`, frame size and format are
still those of the 4x4 picture, and the next push is refused. -/
theorem C14_resetDecoder_keeps_error :
    (pushData specValidity (getRawFrameData (pushData specValidity
      (testAdapter [testPicture420, testPicture400]) testUnit).1).1 testUnit).1.decoderState
        = DecoderState.Error ∧
    testFunctions.libvvcdec_free_decoder
      (pushData specValidity (getRawFrameData (pushData specValidity
        (testAdapter [testPicture420, testPicture400]) testUnit).1).1 testUnit).1.decoder
        = libvvcdec_error.LIBVVCDEC_OK ∧
    (resetDecoder (pushData specValidity (getRawFrameData (pushData specValidity
      (testAdapter [testPicture420, testPicture400]) testUnit).1).1 testUnit).1).decoder.isSome
        = true ∧
    (resetDecoder (pushData specValidity (getRawFrameData (pushData specValidity
      (testAdapter [testPicture420, testPicture400]) testUnit).1).1 testUnit).1).calls.drop 26
        = [LibCall.libvvcdec_free_decoder, LibCall.libvvcdec_new_decoder] ∧
    (resetDecoder (pushData specValidity (getRawFrameData (pushData specValidity
      (testAdapter [testPicture420, testPicture400]) testUnit).1).1 testUnit).1).decoderState
        = DecoderState.Error ∧
    (resetDecoder (pushData specValidity (getRawFrameData (pushData specValidity
      (testAdapter [testPicture420, testPicture400]) testUnit).1).1 testUnit).1).errorString
        = "Received a frame of different size" ∧
    (resetDecoder (pushData specValidity (getRawFrameData (pushData specValidity
      (testAdapter [testPicture420, testPicture400]) testUnit).1).1 testUnit).1).frameSize
        = { width := 4, height := 4 } ∧
    (resetDecoder (pushData specValidity (getRawFrameData (pushData specValidity
      (testAdapter [testPicture420, testPicture400]) testUnit).1).1 testUnit).1).formatYUV
        = { subsampling := Subsampling.YUV_420, bitsPerSample := 10 } ∧
    (pushData specValidity (resetDecoder (pushData specValidity (getRawFrameData (pushData
      specValidity (testAdapter [testPicture420, testPicture400]) testUnit).1).1 testUnit).1)
      testUnit).2 = false := by
  decide

/-! ## C15: the state `Error` -/

open decoderVVCDec in
/-- C15: in state `Error`, for every input, `pushData` returns `false`, `decodeNextFrame`
returns `false` and `getRawFrameData` returns an empty buffer, and each call leaves the
adapter as it was, so the state is still `Error` and the error string is unchanged. -/
theorem C15_error_is_absorbing {D : Type} (V : Validity) (s : decoderVVCDec D)
    (data : QByteArray) (herr : s.decoderState = DecoderState.Error) :
    (pushData V s data = (s, false) ∧
      (pushData V s data).1.decoderState = DecoderState.Error ∧
      (pushData V s data).1.errorString = s.errorString) ∧
    (decodeNextFrame V s = (s, false) ∧
      (decodeNextFrame V s).1.decoderState = DecoderState.Error ∧
      (decodeNextFrame V s).1.errorString = s.errorString) ∧
    (getRawFrameData s = (s, QByteArray.null) ∧
      (getRawFrameData s).2.isEmpty = true ∧
      (getRawFrameData s).1.decoderState = DecoderState.Error ∧
      (getRawFrameData s).1.errorString = s.errorString) := by
  have hp : pushData V s data = (s, false) := by
    unfold pushData
    rw [if_pos (by simp [herr])]
  have hd := decodeNextFrame_rejected V s (by simp [herr])
  have hg := getRawFrameData_rejected s (by simp [herr])
  rw [hp, hd, hg]
  exact ⟨⟨rfl, herr, rfl⟩, ⟨rfl, herr, rfl⟩, ⟨rfl, rfl, herr, rfl⟩⟩

open decoderVVCDec in
/-- Run of C15 on the adapter that an ingest error has driven to `Error`. -/
theorem C15_error_is_absorbing_witness :
    (pushData specValidity (testAdapter [testPicture420]) testBadUnit).1.decoderState
      = DecoderState.Error ∧
    (pushData specValidity
      (pushData specValidity (testAdapter [testPicture420]) testBadUnit).1 testUnit).2 = false ∧
    (decodeNextFrame specValidity
      (pushData specValidity (testAdapter [testPicture420]) testBadUnit).1).2 = false ∧
    (getRawFrameData
      (pushData specValidity (testAdapter [testPicture420]) testBadUnit).1).2
        = QByteArray.null :=
  ⟨by decide,
   congrArg Prod.snd (C15_error_is_absorbing specValidity
     (pushData specValidity (testAdapter [testPicture420]) testBadUnit).1 testUnit
     (by decide)).1.1,
   congrArg Prod.snd (C15_error_is_absorbing specValidity
     (pushData specValidity (testAdapter [testPicture420]) testBadUnit).1 testUnit
     (by decide)).2.1.1,
   congrArg Prod.snd (C15_error_is_absorbing specValidity
     (pushData specValidity (testAdapter [testPicture420]) testBadUnit).1 testUnit
     (by decide)).2.2.1⟩

/-! ## C16: symbol resolution fails closed -/

open decoderVVCDec in
/-- C16: with the loaded library given by the list `e` of the symbols it exports,
`resolveLibraryFunctionPointers` leaves decoder state and error string as they are when all
eleven mandatory symbols are exported, and then looks all eleven up in their fixed order.
When `sym` is the first of the eleven that is not exported, the adapter is in `Error`, the
error string is `Error loading the libde265 library: Can't find function sym.`, and the
symbols looked up are those before `sym` and `sym` itself, none of the later ones.  So an
adapter that was not in `Error` is not in `Error` afterwards if and only if all eleven
symbols are exported. -/
theorem C16_resolution_fails_closed {D : Type} (fs : FileSystem) (s : decoderVVCDec D)
    (e : List String) (hlib : s.library.handle = some e) :
    ((∀ sym ∈ mandatorySymbols, sym ∈ e) →
      (resolveLibraryFunctionPointers fs s).decoderState = s.decoderState ∧
      (resolveLibraryFunctionPointers fs s).errorString = s.errorString ∧
      (resolveLibraryFunctionPointers fs s).lookups = s.lookups ++ mandatorySymbols) ∧
    (∀ (before after : List String) (sym : String),
      mandatorySymbols = before ++ sym :: after → (∀ x ∈ before, x ∈ e) → sym ∉ e →
      (resolveLibraryFunctionPointers fs s).decoderState = DecoderState.Error ∧
      (resolveLibraryFunctionPointers fs s).errorString
        = "Error loading the libde265 library: Can't find function " ++ sym ++ "." ∧
      (∃ pre post : String,
        (resolveLibraryFunctionPointers fs s).errorString = pre ++ sym ++ post) ∧
      (resolveLibraryFunctionPointers fs s).lookups = s.lookups ++ before ++ [sym] ∧
      (∀ later ∈ after,
        later ∉ (resolveLibraryFunctionPointers fs s).lookups.drop s.lookups.length)) ∧
    (s.decoderState ≠ DecoderState.Error →
      ((resolveLibraryFunctionPointers fs s).decoderState ≠ DecoderState.Error ↔
        ∀ sym ∈ mandatorySymbols, sym ∈ e)) := by
  have hfirst : ∀ (before after : List String) (sym : String),
      mandatorySymbols = before ++ sym :: after → (∀ x ∈ before, x ∈ e) → sym ∉ e →
      resolveLibraryFunctionPointers fs s =
        setError
          { s with lookups := s.lookups ++ before ++ [sym]
                   functionPointers := pointersAfter s.library.fileName
                     (mandatoryMembers.take before.length) s.functionPointers }
          (missingSymbolError sym) := by
    intro before after sym hsplit hbefore hsym
    obtain ⟨bs, m, as, hms, hbs, hm, _⟩ := members_of_symbols before after sym hsplit
    have hlen : before.length = bs.length := by rw [← hbs, List.length_map]
    rw [resolve_first_missing fs s e hlib bs as m hms
      (fun b hb => hbefore b.2 (by rw [← hbs]; exact List.mem_map_of_mem Prod.snd hb))
      (by rw [hm]; exact hsym), hbs, hm, hms, hlen, List.take_left]
  refine ⟨?_, ?_, ?_⟩
  · intro hall
    rw [resolve_all_exported fs s e hlib hall]
    exact ⟨rfl, rfl, rfl⟩
  · intro before after sym hsplit hbefore hsym
    rw [hfirst before after sym hsplit hbefore hsym]
    refine ⟨rfl, rfl, ⟨"Error loading the libde265 library: Can't find function ", ".", rfl⟩,
      rfl, ?_⟩
    intro later hlater
    have hnd : (before ++ sym :: after).Nodup := by
      rw [← hsplit]; decide
    have hdrop : (setError
        { s with lookups := s.lookups ++ before ++ [sym]
                 functionPointers := pointersAfter s.library.fileName
                   (mandatoryMembers.take before.length) s.functionPointers }
        (missingSymbolError sym)).lookups.drop s.lookups.length = before ++ [sym] := by
      show (s.lookups ++ before ++ [sym]).drop s.lookups.length = before ++ [sym]
      rw [List.append_assoc, List.drop_left]
    rw [hdrop]
    obtain ⟨_, hnd2, hdisj⟩ := List.nodup_append.mp hnd
    intro hmem
    rcases List.mem_append.mp hmem with h | h
    · exact hdisj h (List.mem_cons_of_mem _ hlater)
    · rw [List.mem_singleton] at h
      rw [h] at hlater
      exact (List.nodup_cons.mp hnd2).1 hlater
  · intro hne
    constructor
    · intro hres
      by_contra hnot
      rcases first_missing_or_all (fun x : String => x ∈ e) mandatorySymbols with hall | h
      · exact hnot hall
      · obtain ⟨before, sym, after, hsplit, hbefore, hsym⟩ := h
        rw [hfirst before after sym hsplit hbefore hsym] at hres
        exact hres rfl
    · intro hall
      rw [resolve_all_exported fs s e hlib hall]
      exact hne

open decoderVVCDec in
/-- Run of C16 on the library that lacks `libvvcdec_get_picture_stride` and
`libvvcdec_get_picture_bit_depth`: the error names the first of the two, and the three
symbols after it are not looked up. -/
theorem C16_resolution_fails_closed_witness :
    (resolveLibraryFunctionPointers testFileSystem
      (testAdapterWithLibrary "/opt/vvc/libold.so")).decoderState = DecoderState.Error ∧
    (resolveLibraryFunctionPointers testFileSystem
      (testAdapterWithLibrary "/opt/vvc/libold.so")).errorString
        = "Error loading the libde265 library: Can't find function "
          ++ "libvvcdec_get_picture_stride" ++ "." ∧
    (resolveLibraryFunctionPointers testFileSystem
      (testAdapterWithLibrary "/opt/vvc/libold.so")).lookups
        = [] ++ ["libvvcdec_get_version", "libvvcdec_new_decoder", "libvvcdec_free_decoder",
            "libvvcdec_push_nal_unit", "libvvcdec_get_picture_POC",
            "libvvcdec_get_picture_width", "libvvcdec_get_picture_height"]
          ++ ["libvvcdec_get_picture_stride"] :=
  ⟨((C16_resolution_fails_closed testFileSystem (testAdapterWithLibrary "/opt/vvc/libold.so")
      ["libvvcdec_get_version", "libvvcdec_new_decoder", "libvvcdec_free_decoder",
       "libvvcdec_push_nal_unit", "libvvcdec_get_picture_POC", "libvvcdec_get_picture_width",
       "libvvcdec_get_picture_height", "libvvcdec_get_picture_plane",
       "libvvcdec_get_picture_chroma_format", "some_other_symbol"] (by decide)).2.1
      ["libvvcdec_get_version", "libvvcdec_new_decoder", "libvvcdec_free_decoder",
       "libvvcdec_push_nal_unit", "libvvcdec_get_picture_POC", "libvvcdec_get_picture_width",
       "libvvcdec_get_picture_height"]
      ["libvvcdec_get_picture_plane", "libvvcdec_get_picture_chroma_format",
       "libvvcdec_get_picture_bit_depth"]
      "libvvcdec_get_picture_stride" (by decide) (by decide) (by decide)).1,
   ((C16_resolution_fails_closed testFileSystem (testAdapterWithLibrary "/opt/vvc/libold.so")
      ["libvvcdec_get_version", "libvvcdec_new_decoder", "libvvcdec_free_decoder",
       "libvvcdec_push_nal_unit", "libvvcdec_get_picture_POC", "libvvcdec_get_picture_width",
       "libvvcdec_get_picture_height", "libvvcdec_get_picture_plane",
       "libvvcdec_get_picture_chroma_format", "some_other_symbol"] (by decide)).2.1
      ["libvvcdec_get_version", "libvvcdec_new_decoder", "libvvcdec_free_decoder",
       "libvvcdec_push_nal_unit", "libvvcdec_get_picture_POC", "libvvcdec_get_picture_width",
       "libvvcdec_get_picture_height"]
      ["libvvcdec_get_picture_plane", "libvvcdec_get_picture_chroma_format",
       "libvvcdec_get_picture_bit_depth"]
      "libvvcdec_get_picture_stride" (by decide) (by decide) (by decide)).2.1,
   ((C16_resolution_fails_closed testFileSystem (testAdapterWithLibrary "/opt/vvc/libold.so")
      ["libvvcdec_get_version", "libvvcdec_new_decoder", "libvvcdec_free_decoder",
       "libvvcdec_push_nal_unit", "libvvcdec_get_picture_POC", "libvvcdec_get_picture_width",
       "libvvcdec_get_picture_height", "libvvcdec_get_picture_plane",
       "libvvcdec_get_picture_chroma_format", "some_other_symbol"] (by decide)).2.1
      ["libvvcdec_get_version", "libvvcdec_new_decoder", "libvvcdec_free_decoder",
       "libvvcdec_push_nal_unit", "libvvcdec_get_picture_POC", "libvvcdec_get_picture_width",
       "libvvcdec_get_picture_height"]
      ["libvvcdec_get_picture_plane", "libvvcdec_get_picture_chroma_format",
       "libvvcdec_get_picture_bit_depth"]
      "libvvcdec_get_picture_stride" (by decide) (by decide) (by decide)).2.2.2.1⟩

/-! ## C17: symbol resolution is idempotent -/

open decoderVVCDec in
/-- C17: with the loaded library given by the list `e` of the symbols it exports, a second
call of `resolveLibraryFunctionPointers` right after a first one leaves the adapter as the
first call left it: the same decoder state (so the same success or failure), the same error
string, the same function table and the same library; only the record of the symbols looked
up grows, by the same lookups again. -/
theorem C17_resolution_idempotent {D : Type} (fs : FileSystem) (s : decoderVVCDec D)
    (e : List String) (hlib : s.library.handle = some e) :
    (resolveLibraryFunctionPointers fs (resolveLibraryFunctionPointers fs s)).decoderState
      = (resolveLibraryFunctionPointers fs s).decoderState ∧
    (resolveLibraryFunctionPointers fs (resolveLibraryFunctionPointers fs s)).errorString
      = (resolveLibraryFunctionPointers fs s).errorString ∧
    (resolveLibraryFunctionPointers fs (resolveLibraryFunctionPointers fs s)).functionPointers
      = (resolveLibraryFunctionPointers fs s).functionPointers ∧
    (resolveLibraryFunctionPointers fs (resolveLibraryFunctionPointers fs s)).library
      = (resolveLibraryFunctionPointers fs s).library ∧
    resolveLibraryFunctionPointers fs (resolveLibraryFunctionPointers fs s)
      = { resolveLibraryFunctionPointers fs s with
          lookups := (resolveLibraryFunctionPointers fs s).lookups
            ++ (resolveLibraryFunctionPointers fs s).lookups.drop s.lookups.length } := by
  rcases first_missing_or_all (fun m : LibraryFunction × String => m.2 ∈ e) mandatoryMembers
    with hall | ⟨bs, m, as, hsplit, hbs, hm⟩
  · have hall2 : ∀ sym ∈ mandatorySymbols, sym ∈ e := by
      intro sym hsym
      obtain ⟨m, hm, rfl⟩ := List.mem_map.mp hsym
      exact hall m hm
    have h1 := resolve_all_exported fs s e hlib hall2
    have h2 := resolve_all_exported fs
      { s with lookups := s.lookups ++ mandatorySymbols
               functionPointers :=
                 pointersAfter s.library.fileName mandatoryMembers s.functionPointers }
      e hlib hall2
    rw [h1, h2]
    simp only [pointersAfter_idem, List.drop_left, and_self]
  · have h1 := resolve_first_missing fs s e hlib bs as m hsplit hbs hm
    have h2 := resolve_first_missing fs
      (setError
        { s with lookups := s.lookups ++ bs.map Prod.snd ++ [m.2]
                 functionPointers := pointersAfter s.library.fileName bs s.functionPointers }
        (missingSymbolError m.2))
      e hlib bs as m hsplit hbs hm
    rw [h1, h2]
    simp only [setError, pointersAfter_idem, List.append_assoc, List.drop_left, and_self]

open decoderVVCDec in
/-- Run of C17 on the library that lacks `libvvcdec_get_picture_stride`: both calls end in
`Error` with the same missing symbol named. -/
theorem C17_resolution_idempotent_witness :
    (testAdapterWithLibrary "/opt/vvc/libold.so").library.handle
      = some ["libvvcdec_get_version", "libvvcdec_new_decoder", "libvvcdec_free_decoder",
       "libvvcdec_push_nal_unit", "libvvcdec_get_picture_POC", "libvvcdec_get_picture_width",
       "libvvcdec_get_picture_height", "libvvcdec_get_picture_plane",
       "libvvcdec_get_picture_chroma_format", "some_other_symbol"] ∧
    (resolveLibraryFunctionPointers testFileSystem
      (resolveLibraryFunctionPointers testFileSystem
        (testAdapterWithLibrary "/opt/vvc/libold.so"))).errorString
      = (resolveLibraryFunctionPointers testFileSystem
          (testAdapterWithLibrary "/opt/vvc/libold.so")).errorString ∧
    (resolveLibraryFunctionPointers testFileSystem
      (resolveLibraryFunctionPointers testFileSystem
        (testAdapterWithLibrary "/opt/vvc/libold.so"))).errorString
      = "Error loading the libde265 library: Can't find function libvvcdec_get_picture_stride." :=
  ⟨by decide,
   (C17_resolution_idempotent testFileSystem (testAdapterWithLibrary "/opt/vvc/libold.so")
      ["libvvcdec_get_version", "libvvcdec_new_decoder", "libvvcdec_free_decoder",
       "libvvcdec_push_nal_unit", "libvvcdec_get_picture_POC", "libvvcdec_get_picture_width",
       "libvvcdec_get_picture_height", "libvvcdec_get_picture_plane",
       "libvvcdec_get_picture_chroma_format", "some_other_symbol"] (by decide)).2.1,
   by decide⟩

/-! ## C18: the self-test of a candidate library -/

open decoderVVCDec in
/-- C18: for a candidate library file that loads, with `e` the symbols it exports,
`checkLibraryFile` returns true if and only if all eleven mandatory symbols are exported and
the throwaway adapter did not leave its constructor in `Error`.  When the constructor left
it in `Error` (the load of the default library failed), `checkLibraryFile` returns false
for a candidate that loads and exports all mandatory symbols, and the error text handed
back is the one of the constructor. -/
theorem C18_checkLibraryFile_stale_error {D : Type} (fs : FileSystem)
    (loadDecoderLibrary : decoderVVCDec D → String → decoderVVCDec D)
    (base : decoderVVCDec D) (libVVCDecFile libFilePath : String) (e : List String)
    (hload : fs libFilePath = some e) :
    ((checkLibraryFile fs loadDecoderLibrary base libVVCDecFile libFilePath).1 = true ↔
      (∀ sym ∈ mandatorySymbols, sym ∈ e) ∧
      (new loadDecoderLibrary base libVVCDecFile).decoderState ≠ DecoderState.Error) ∧
    ((new loadDecoderLibrary base libVVCDecFile).decoderState = DecoderState.Error →
      (∀ sym ∈ mandatorySymbols, sym ∈ e) →
      checkLibraryFile fs loadDecoderLibrary base libVVCDecFile libFilePath
        = (false, (new loadDecoderLibrary base libVVCDecFile).errorString)) := by
  rw [checkLibraryFile_loaded fs loadDecoderLibrary base libVVCDecFile libFilePath e hload]
  have hall : (∀ sym ∈ mandatorySymbols, sym ∈ e) →
      resolveLibraryFunctionPointers fs
        { new loadDecoderLibrary base libVVCDecFile with
          library := { fileName := libFilePath, handle := some e } } = _ :=
    resolve_all_exported fs
      { new loadDecoderLibrary base libVVCDecFile with
        library := { fileName := libFilePath, handle := some e } } e rfl
  constructor
  · constructor
    · intro hres
      rcases first_missing_or_all (fun m : LibraryFunction × String => m.2 ∈ e)
        mandatoryMembers with hmem | ⟨bs, m, as, hsplit, hbs, hm⟩
      · have hsyms : ∀ sym ∈ mandatorySymbols, sym ∈ e := by
          intro sym hsym
          obtain ⟨m, hm, rfl⟩ := List.mem_map.mp hsym
          exact hmem m hm
        refine ⟨hsyms, ?_⟩
        rw [hall hsyms] at hres
        simpa [errorInDecoder] using hres
      · rw [resolve_first_missing fs _ e rfl bs as m hsplit hbs hm] at hres
        simp [errorInDecoder, setError] at hres
    · rintro ⟨hsyms, hne⟩
      rw [hall hsyms]
      simpa [errorInDecoder] using hne
  · intro herr hsyms
    rw [hall hsyms]
    simp [errorInDecoder, decoderErrorString, herr]

open decoderVVCDec in
/-- Run of C18: no library is found under the default names, so the constructor of the
throwaway adapter ends in `Error`; the candidate `/opt/vvc/libvvcdec.so` loads and exports
all eleven mandatory symbols, and `checkLibraryFile` returns false with the text of the
failed default load.  With the candidate configured as the default it returns true. -/
theorem C18_checkLibraryFile_stale_error_witness :
    testFileSystem "/opt/vvc/libvvcdec.so" = some mandatorySymbols ∧
    (new (loadDecoderLibrary testFileSystem false) testBase "").decoderState
      = DecoderState.Error ∧
    checkLibraryFile testFileSystem (loadDecoderLibrary testFileSystem false) testBase ""
      "/opt/vvc/libvvcdec.so" = (false, "Error loading library") ∧
    checkLibraryFile testFileSystem (loadDecoderLibrary testFileSystem false) testBase
      "/opt/vvc/libvvcdec.so" "/opt/vvc/libvvcdec.so" = (true, "") :=
  ⟨by decide, by decide,
   ((C18_checkLibraryFile_stale_error testFileSystem (loadDecoderLibrary testFileSystem false)
      testBase "" "/opt/vvc/libvvcdec.so" mandatorySymbols (by decide)).2
      (by decide) (fun _ h => h)).trans (by decide),
   by decide⟩

/-! ## C19: anomalies at the query stage -/

open decoderVVCDec in
/-- C19: when no baseline is set, the negotiation of a completed picture succeeds whatever
the picture reports, in particular for a width or height of zero, a bit depth outside
8..16 and an unrecognised chroma format: the adapter does not go to `Error`, its error
string is as before, the reported size, subsampling and bit depth become the stored frame
size and format, and `pushData` returns `true` and enters `RetrieveFrames`. -/
theorem C19_anomalies_are_adopted {D : Type} (V : Validity) (s : decoderVVCDec D)
    (data : QByteArray)
    (hstate : s.decoderState = DecoderState.NeedsMoreData)
    (hok : (s.ingestResult data).err = libvvcdec_error.LIBVVCDEC_OK)
    (hout : (s.ingestResult data).checkOutputPictures = true)
    (hnone : ¬ s.baselineSet V) :
    (getNextFrameFromDecoder V (s.afterIngest data)).2 = true ∧
    (getNextFrameFromDecoder V (s.afterIngest data)).1.decoderState ≠ DecoderState.Error ∧
    (pushData V s data).2 = true ∧
    (pushData V s data).1.decoderState = DecoderState.RetrieveFrames ∧
    (pushData V s data).1.errorString = s.errorString ∧
    (pushData V s data).1.frameSize = (s.afterIngest data).reportedSize ∧
    (pushData V s data).1.formatYUV =
      { subsampling := (s.afterIngest data).reportedSubsampling
        bitsPerSample := (s.afterIngest data).reportedBitDepth } := by
  have hg := getNextFrameFromDecoder_adopt V (s.afterIngest data) hnone
  have hneg : (getNextFrameFromDecoder V (s.afterIngest data)).2 = true := by rw [hg]
  rw [pushData_complete V s data hstate hok hout hneg, hg]
  refine ⟨rfl, ?_, rfl, rfl, rfl, rfl, rfl⟩
  show s.decoderState ≠ DecoderState.Error
  rw [hstate]
  decide

open decoderVVCDec in
/-- Run of C19 on a fresh adapter and the picture that reports the size 0x0, an unknown
chroma format and the bit depth 0. -/
theorem C19_anomalies_are_adopted_witness :
    (afterIngest (testAdapter [testPictureZero]) testUnit).reportedSize
      = { width := 0, height := 0 } ∧
    (afterIngest (testAdapter [testPictureZero]) testUnit).reportedSubsampling
      = Subsampling.UNKNOWN ∧
    (afterIngest (testAdapter [testPictureZero]) testUnit).reportedBitDepth = 0 ∧
    (pushData specValidity (testAdapter [testPictureZero]) testUnit).1.decoderState
      = DecoderState.RetrieveFrames ∧
    (pushData specValidity (testAdapter [testPictureZero]) testUnit).1.frameSize
      = (afterIngest (testAdapter [testPictureZero]) testUnit).reportedSize :=
  ⟨by decide, by decide, by decide,
   (C19_anomalies_are_adopted specValidity (testAdapter [testPictureZero]) testUnit
      (by decide) (by decide) (by decide) (by decide)).2.2.2.1,
   (C19_anomalies_are_adopted specValidity (testAdapter [testPictureZero]) testUnit
      (by decide) (by decide) (by decide) (by decide)).2.2.2.2.2.1⟩

/-! ## C20: the result of `pushData` -/

open decoderVVCDec in
/-- C20: `pushData` returns `false` if and only if the state on entry is not
`NeedsMoreData` or the external ingest call reports an error.  In particular, when a push
completes a picture whose size, subsampling or bit depth differs from the baseline that
is set, `pushData` moves the state to `Error` and yet returns `true`. -/
theorem C20_pushData_result {D : Type} (V : Validity) (s : decoderVVCDec D)
    (data : QByteArray) :
    ((pushData V s data).2 = false ↔
      (s.decoderState ≠ DecoderState.NeedsMoreData ∨
        (s.ingestResult data).err ≠ libvvcdec_error.LIBVVCDEC_OK)) ∧
    (s.decoderState = DecoderState.NeedsMoreData →
      (s.ingestResult data).err = libvvcdec_error.LIBVVCDEC_OK →
      (s.ingestResult data).checkOutputPictures = true →
      s.baselineSet V →
      ((s.afterIngest data).reportedSize ≠ s.frameSize ∨
        (s.afterIngest data).reportedSubsampling ≠ s.formatYUV.subsampling ∨
        (s.afterIngest data).reportedBitDepth ≠ s.formatYUV.bitsPerSample) →
      (pushData V s data).1.decoderState = DecoderState.Error ∧
      (pushData V s data).2 = true) := by
  refine ⟨pushData_result V s data, ?_⟩
  intro hstate hok hout hset hdiff
  have hfalse : (getNextFrameFromDecoder V (s.afterIngest data)).2 = false := by
    by_cases h1 : (s.afterIngest data).frameSize = (s.afterIngest data).reportedSize
    · by_cases h2 : (s.afterIngest data).formatYUV.subsampling
          = (s.afterIngest data).reportedSubsampling
      · have h3 : (s.afterIngest data).formatYUV.bitsPerSample
            ≠ (s.afterIngest data).reportedBitDepth := by
          rcases hdiff with h | h | h
          · exact absurd h1.symm h
          · exact absurd h2.symm h
          · exact Ne.symm h
        rw [getNextFrameFromDecoder_bitDepth V (s.afterIngest data) hset h1 h2 h3]
        rfl
      · rw [getNextFrameFromDecoder_subsampling V (s.afterIngest data) hset h1 h2]
        rfl
    · rw [getNextFrameFromDecoder_size V (s.afterIngest data) hset h1]
      rfl
  rw [pushData_negotiation_failed V s data hstate hok hout hfalse]
  exact ⟨getNextFrameFromDecoder_false V _ hfalse, rfl⟩

open decoderVVCDec in
/-- Run of C20: with the 4x4 picture as the baseline, the push that completes the 16x16
picture ends in `Error` and returns `true`. -/
theorem C20_pushData_result_witness :
    (pushData specValidity (getRawFrameData (pushData specValidity
      (testAdapter [testPicture420, testPicture400]) testUnit).1).1 testUnit).1.decoderState
        = DecoderState.Error ∧
    (pushData specValidity (getRawFrameData (pushData specValidity
      (testAdapter [testPicture420, testPicture400]) testUnit).1).1 testUnit).2 = true :=
  (C20_pushData_result specValidity (getRawFrameData (pushData specValidity
    (testAdapter [testPicture420, testPicture400]) testUnit).1).1 testUnit).2
    (by decide) (by decide) (by decide) (by decide) (Or.inl (by decide))

/-! ## Lemmas on the stored baseline and on sequences of calls -/

open decoderVVCDec in
theorem getNextFrameFromDecoder_keeps {D : Type} (V : Validity) (s : decoderVVCDec D)
    (h : s.baselineSet V) :
    (getNextFrameFromDecoder V s).1.frameSize = s.frameSize ∧
    (getNextFrameFromDecoder V s).1.formatYUV = s.formatYUV := by
  by_cases h1 : s.frameSize = s.reportedSize
  · by_cases h2 : s.formatYUV.subsampling = s.reportedSubsampling
    · by_cases h3 : s.formatYUV.bitsPerSample = s.reportedBitDepth
      · rw [getNextFrameFromDecoder_match V s h h1 h2 h3]
        exact ⟨rfl, rfl⟩
      · rw [getNextFrameFromDecoder_bitDepth V s h h1 h2 h3]
        exact ⟨rfl, rfl⟩
    · rw [getNextFrameFromDecoder_subsampling V s h h1 h2]
      exact ⟨rfl, rfl⟩
  · rw [getNextFrameFromDecoder_size V s h h1]
    exact ⟨rfl, rfl⟩

open decoderVVCDec in
theorem pushData_keeps {D : Type} (V : Validity) (s : decoderVVCDec D) (data : QByteArray)
    (h : s.baselineSet V) :
    (pushData V s data).1.frameSize = s.frameSize ∧
    (pushData V s data).1.formatYUV = s.formatYUV := by
  have hk := getNextFrameFromDecoder_keeps V (s.afterIngest data) h
  unfold pushData
  dsimp only
  split
  · exact ⟨rfl, rfl⟩
  · split
    · exact ⟨rfl, rfl⟩
    · split
      · split
        · exact hk
        · exact hk
      · exact ⟨rfl, rfl⟩

open decoderVVCDec in
theorem decodeNextFrame_keeps {D : Type} (V : Validity) (s : decoderVVCDec D)
    (h : s.baselineSet V) :
    (decodeNextFrame V s).1.frameSize = s.frameSize ∧
    (decodeNextFrame V s).1.formatYUV = s.formatYUV := by
  unfold decodeNextFrame
  split
  · exact ⟨rfl, rfl⟩
  · exact getNextFrameFromDecoder_keeps V s h

open decoderVVCDec in
theorem getRawFrameData_keeps {D : Type} (s : decoderVVCDec D) :
    (getRawFrameData s).1.frameSize = s.frameSize ∧
    (getRawFrameData s).1.formatYUV = s.formatYUV := by
  unfold getRawFrameData
  dsimp only
  split
  · exact ⟨rfl, rfl⟩
  · split <;> exact ⟨rfl, rfl⟩

open decoderVVCDec in
theorem applyCall_keeps {D : Type} (V : Validity) (s : decoderVVCDec D) (c : AdapterCall)
    (h : s.baselineSet V) :
    (applyCall V s c).frameSize = s.frameSize ∧ (applyCall V s c).formatYUV = s.formatYUV := by
  cases c with
  | pushData data => exact pushData_keeps V s data h
  | decodeNextFrame => exact decodeNextFrame_keeps V s h
  | getRawFrameData => exact getRawFrameData_keeps s
  | resetDecoder => exact ⟨(resetDecoder_frame s).1, (resetDecoder_frame s).2.1⟩

open decoderVVCDec in
theorem runCalls_keeps {D : Type} (V : Validity) (calls : List AdapterCall) :
    ∀ s : decoderVVCDec D, s.baselineSet V →
      (runCalls V s calls).frameSize = s.frameSize ∧
      (runCalls V s calls).formatYUV = s.formatYUV := by
  induction calls with
  | nil => intro s _; exact ⟨rfl, rfl⟩
  | cons c rest ih =>
    intro s h
    obtain ⟨h1, h2⟩ := applyCall_keeps V s c h
    have h' : (applyCall V s c).baselineSet V := by
      unfold baselineSet at h ⊢
      rw [h1, h2]
      exact h
    obtain ⟨h3, h4⟩ := ih (applyCall V s c) h'
    exact ⟨h3.trans h1, h4.trans h2⟩

open decoderVVCDec in
theorem applyCall_buffer {D : Type} (V : Validity) (s : decoderVVCDec D) (c : AdapterCall)
    (h : s.decoderState = DecoderState.RetrieveFrames → s.currentOutputBuffer = QByteArray.null) :
    (applyCall V s c).decoderState = DecoderState.RetrieveFrames →
      (applyCall V s c).currentOutputBuffer = QByteArray.null := by
  cases c with
  | pushData data =>
    intro hr
    by_cases hs : s.decoderState = DecoderState.NeedsMoreData
    · exact pushData_retrieve V s data hs hr
    · have hp : pushData V s data = (s, false) := by
        unfold pushData
        rw [if_pos hs]
      show (pushData V s data).1.currentOutputBuffer = QByteArray.null
      have hr2 : (pushData V s data).1.decoderState = DecoderState.RetrieveFrames := hr
      rw [hp] at hr2 ⊢
      exact h hr2
  | decodeNextFrame =>
    intro hr
    show (decodeNextFrame V s).1.currentOutputBuffer = QByteArray.null
    by_cases hs : s.decoderState = DecoderState.RetrieveFrames
    · rw [decodeNextFrame_retrieve V s hs, (getNextFrameFromDecoder_frame V s).2.2]
      exact h hs
    · have hr2 : (decodeNextFrame V s).1.decoderState = DecoderState.RetrieveFrames := hr
      rw [decodeNextFrame_rejected V s hs] at hr2
      exact absurd hr2 hs
  | getRawFrameData =>
    intro hr
    have hr2 : (getRawFrameData s).1.decoderState = DecoderState.RetrieveFrames := hr
    by_cases hs : s.decoderState = DecoderState.RetrieveFrames
    · rw [(getRawFrameData_state s hs).1] at hr2
      exact absurd hr2 (by decide)
    · rw [getRawFrameData_rejected s hs] at hr2
      exact absurd hr2 hs
  | resetDecoder =>
    intro hr
    have hr2 : (resetDecoder s).decoderState = DecoderState.RetrieveFrames := hr
    obtain ⟨_, _, hb, hst⟩ := resetDecoder_frame s
    show (resetDecoder s).currentOutputBuffer = QByteArray.null
    rw [hb]
    rcases hst with hst | hst
    · exact h (hst ▸ hr2)
    · rw [hst] at hr2
      exact absurd hr2 (by decide)

open decoderVVCDec in
theorem runCalls_buffer {D : Type} (V : Validity) (calls : List AdapterCall) :
    ∀ s : decoderVVCDec D,
      (s.decoderState = DecoderState.RetrieveFrames → s.currentOutputBuffer = QByteArray.null) →
      (runCalls V s calls).decoderState = DecoderState.RetrieveFrames →
        (runCalls V s calls).currentOutputBuffer = QByteArray.null := by
  induction calls with
  | nil => intro s h; exact h
  | cons c rest ih =>
    intro s h
    exact ih (applyCall V s c) (applyCall_buffer V s c h)

open decoderVVCDec in
theorem copyImgToByteArray_congr {D : Type} (s t : decoderVVCDec D) (dst : QByteArray)
    (hf : t.functions = s.functions) (hd : t.decoder = s.decoder) :
    copyImgToByteArray t dst = copyImgToByteArray s dst := by
  unfold copyImgToByteArray
  rw [hf, hd]

/-! ## Lemmas on the writes of the plane copy -/

theorem tiles_append : ∀ (ws vs : List RowWrite) (a b c : Nat),
    tiles a ws b → tiles b vs c → tiles a (ws ++ vs) c := by
  intro ws
  induction ws with
  | nil =>
    intro vs a b c h1 h2
    have hab : a = b := h1
    rw [List.nil_append, hab]
    exact h2
  | cons w ws ih =>
    intro vs a b c h1 h2
    obtain ⟨h3, h4⟩ := h1
    exact ⟨h3, ih vs _ b c h4 h2⟩

theorem tiles_rowWrites (c stride widthBytes : Nat) :
    ∀ (rows y p d : Nat),
      tiles d (rowWrites c stride widthBytes rows y p d) (d + rows * widthBytes) := by
  intro rows
  induction rows with
  | zero =>
    intro y p d
    show d = d + 0 * widthBytes
    omega
  | succ rows ih =>
    intro y p d
    refine ⟨rfl, ?_⟩
    have h := ih (y + 1) (p + stride) (d + widthBytes)
    have e : d + widthBytes + rows * widthBytes = d + (rows + 1) * widthBytes := by
      rw [Nat.succ_mul]; omega
    rw [e] at h
    exact h

theorem tiles_le : ∀ (ws : List RowWrite) (a b : Nat), tiles a ws b → a ≤ b := by
  intro ws
  induction ws with
  | nil => intro a b h; exact Nat.le_of_eq h
  | cons w ws ih =>
    intro a b h
    have := ih _ _ h.2
    omega

theorem tiles_bounds : ∀ (ws : List RowWrite) (a b : Nat), tiles a ws b →
    ∀ w ∈ ws, a ≤ w.offset ∧ w.offset + w.length ≤ b := by
  intro ws
  induction ws with
  | nil => intro a b _ w hw; cases hw
  | cons v ws ih =>
    intro a b h w hw
    obtain ⟨h1, h2⟩ := h
    have hle := tiles_le ws _ _ h2
    rcases List.mem_cons.mp hw with e | hmem
    · subst e
      omega
    · have := ih _ _ h2 w hmem
      omega

theorem tiles_pairwise : ∀ (ws : List RowWrite) (a b : Nat), tiles a ws b →
    ws.Pairwise (fun x y => x.offset + x.length ≤ y.offset) := by
  intro ws
  induction ws with
  | nil => intro a b _; exact List.Pairwise.nil
  | cons v ws ih =>
    intro a b h
    obtain ⟨h1, h2⟩ := h
    refine List.Pairwise.cons ?_ (ih _ _ h2)
    intro w hw
    have := (tiles_bounds ws _ _ h2 w hw).1
    omega

theorem tiles_count : ∀ (ws : List RowWrite) (a b : Nat), tiles a ws b →
    ∀ i : Nat, ws.countP (fun w => w.covers i) = if a ≤ i ∧ i < b then 1 else 0 := by
  intro ws
  induction ws with
  | nil =>
    intro a b h i
    have hab : a = b := h
    rw [List.countP_nil, if_neg (by omega)]
  | cons v ws ih =>
    intro a b h i
    obtain ⟨h1, h2⟩ := h
    have hle := tiles_le ws _ _ h2
    rw [List.countP_cons, ih _ _ h2 i]
    by_cases hc : v.offset ≤ i ∧ i < v.offset + v.length
    · have hcov : v.covers i = true := by simpa [RowWrite.covers] using hc
      rw [if_pos hcov, if_neg (by omega), if_pos (by omega)]
    · have hcov : ¬ v.covers i = true := by simpa [RowWrite.covers] using hc
      rw [if_neg hcov]
      by_cases hi : a ≤ i ∧ i < b
      · rw [if_pos (by omega), if_pos hi]
      · rw [if_neg (by omega), if_neg hi]

theorem rowWrites_key (c stride widthBytes : Nat) :
    ∀ (rows y p d : Nat), ∀ w ∈ rowWrites c stride widthBytes rows y p d,
      w.plane = c ∧ y ≤ w.row := by
  intro rows
  induction rows with
  | zero => intro y p d w hw; cases hw
  | succ rows ih =>
    intro y p d w hw
    rcases List.mem_cons.mp hw with e | hmem
    · subst e
      exact ⟨rfl, Nat.le_refl _⟩
    · have := ih _ _ _ w hmem
      exact ⟨this.1, by omega⟩

theorem rowWrites_sorted (c stride widthBytes : Nat) :
    ∀ (rows y p d : Nat), (rowWrites c stride widthBytes rows y p d).Pairwise
      (fun a b => a.plane < b.plane ∨ (a.plane = b.plane ∧ a.row < b.row)) := by
  intro rows
  induction rows with
  | zero => intro y p d; exact List.Pairwise.nil
  | succ rows ih =>
    intro y p d
    refine List.Pairwise.cons ?_ (ih _ _ _)
    intro w hw
    have := rowWrites_key c stride widthBytes rows (y + 1) (p + stride) (d + widthBytes) w hw
    right
    exact ⟨this.1.symm, by show y < w.row; omega⟩

theorem nodup_keys_of_sorted (ws : List RowWrite)
    (h : ws.Pairwise (fun a b => a.plane < b.plane ∨ (a.plane = b.plane ∧ a.row < b.row))) :
    (ws.map fun w => (w.plane, w.row)).Nodup := by
  unfold List.Nodup
  rw [List.pairwise_map]
  refine h.imp ?_
  intro a b hab heq
  have h1 : a.plane = b.plane := congrArg Prod.fst heq
  have h2 : a.row = b.row := congrArg Prod.snd heq
  omega

theorem disjoint_of_pairwise (ws : List RowWrite)
    (h : ws.Pairwise (fun x y => x.offset + x.length ≤ y.offset)) :
    ∀ a ∈ ws, ∀ b ∈ ws, (a.plane, a.row) ≠ (b.plane, b.row) →
      a.offset + a.length ≤ b.offset ∨ b.offset + b.length ≤ a.offset := by
  have hp : ws.Pairwise (fun a b => (a.plane, a.row) ≠ (b.plane, b.row) →
      a.offset + a.length ≤ b.offset ∨ b.offset + b.length ≤ a.offset) :=
    h.imp (fun hab _ => Or.inl hab)
  intro a ha b hb
  refine List.Pairwise.forall_of_forall ?_ ?_ hp ha hb
  · intro x y hxy hne
    exact (hxy (Ne.symm hne)).symm
  · intro x _ hne
    exact absurd rfl hne

open decoderVVCDec in
theorem foldl_applyWrite_rowWrites {D : Type} (f : LibraryFunctions D) (dec : Option D)
    (c : Nat) (src : Nat → UInt8)
    (hsrc : f.libvvcdec_get_picture_plane dec
      (colorComponentMap.getD c libvvcdec_ColorComponent.LIBVVCDEC_LUMA) = some src)
    (stride widthBytes : Nat) :
    ∀ (rows y p d : Nat) (dst : List UInt8),
      (rowWrites c stride widthBytes rows y p d).foldl (applyWrite f dec) dst
        = copyRows src stride widthBytes rows p d dst := by
  intro rows
  induction rows with
  | zero => intro y p d dst; rfl
  | succ rows ih =>
    intro y p d dst
    have hw : applyWrite f dec dst
        { plane := c, row := y, offset := d, source := p, length := widthBytes }
        = memcpy dst d src p widthBytes := by
      unfold applyWrite
      dsimp only
      rw [hsrc]
    show (rowWrites c stride widthBytes rows (y + 1) (p + stride) (d + widthBytes)).foldl
        (applyWrite f dec) (applyWrite f dec dst _) = _
    rw [hw, ih]
    rfl

open decoderVVCDec in
theorem copyPlanes_eq_writes {D : Type} (f : LibraryFunctions D) (dec : Option D)
    (width height : Nat × Nat) (two : Bool) (lB cB : Nat) :
    ∀ (todo c : Nat) (dst : List UInt8),
      (copyPlanes f dec width height two lB cB todo c dst).1
        = (planeWrites f dec width height two lB cB todo c).foldl (applyWrite f dec) dst := by
  intro todo
  induction todo with
  | zero => intro c dst; rfl
  | succ todo ih =>
    intro c dst
    unfold copyPlanes planeWrites
    dsimp only
    cases hpl : f.libvvcdec_get_picture_plane dec
        (colorComponentMap.getD c libvvcdec_ColorComponent.LIBVVCDEC_LUMA) with
    | none => rfl
    | some src =>
      dsimp only
      rw [List.foldl_append, foldl_applyWrite_rowWrites f dec c src hpl, ih]

theorem u32_u32_mul (a b : Nat) : u32 (u32 a * b) = u32 (a * b) := by
  unfold u32
  rw [Nat.mul_mod, Nat.mod_mod, ← Nat.mul_mod]

theorem u32_add_u32 (a b : Nat) : u32 (u32 a + u32 b) = u32 (a + b) := by
  unfold u32
  rw [← Nat.add_mod]

open decoderVVCDec in
theorem nrBytesOutput_mod {D : Type} (s : decoderVVCDec D) :
    s.nrBytesOutput = (s.lumaBytes + 2 * s.chromaBytes) % 2 ^ 32 := by
  unfold nrBytesOutput
  dsimp only
  simp only [lumaBytes, chromaBytes, picWidth, picHeight, picChromaFormat,
    ← sampleBytes_eq_sampleWidth, picBitDepth, nrPlanes_eq_one_iff]
  generalize u32 (s.functions.libvvcdec_get_picture_width s.decoder
    libvvcdec_ColorComponent.LIBVVCDEC_LUMA) = wL
  generalize u32 (s.functions.libvvcdec_get_picture_height s.decoder
    libvvcdec_ColorComponent.LIBVVCDEC_LUMA) = hL
  generalize u32 (s.functions.libvvcdec_get_picture_width s.decoder
    libvvcdec_ColorComponent.LIBVVCDEC_CHROMA_U) = wU
  generalize u32 (s.functions.libvvcdec_get_picture_height s.decoder
    libvvcdec_ColorComponent.LIBVVCDEC_CHROMA_U) = hU
  generalize sampleBytes (decide (s.functions.libvvcdec_get_picture_bit_depth s.decoder
    libvvcdec_ColorComponent.LIBVVCDEC_LUMA > 8)) = sw
  have hC : (if s.functions.libvvcdec_get_picture_chroma_format s.decoder
        = libvvcdec_ChromaFormat.LIBVVCDEC_CHROMA_400 then 0 else u32 (u32 (wU * hU) * sw))
      = u32 (if s.functions.libvvcdec_get_picture_chroma_format s.decoder
        = libvvcdec_ChromaFormat.LIBVVCDEC_CHROMA_400 then 0 else wU * hU * sw) := by
    split
    · rfl
    · exact u32_u32_mul _ _
  rw [hC, u32_u32_mul, u32_u32_mul, u32_add_u32, Nat.mul_comm 2]
  rfl

open decoderVVCDec in
theorem nrBytesOutput_eq {D : Type} (s : decoderVVCDec D) (hf : s.fitsInt) :
    s.nrBytesOutput = s.lumaBytes + 2 * s.chromaBytes := by
  unfold fitsInt at hf
  rw [nrBytesOutput_mod]
  exact Nat.mod_eq_of_lt (by omega)

open decoderVVCDec in
theorem copyWrites_abort {D : Type} (s : decoderVVCDec D) (hc : ¬ s.checksPass) :
    s.copyWrites = [] := by
  unfold copyWrites
  dsimp only
  split
  · rfl
  rename_i h1
  split
  · rfl
  rename_i h2
  split
  · rfl
  rename_i h3
  exfalso
  apply hc
  have hb : ¬ (nrPlanes (s.functions.libvvcdec_get_picture_chroma_format s.decoder) > 1 ∧
      ((decide (s.functions.libvvcdec_get_picture_bit_depth s.decoder
            libvvcdec_ColorComponent.LIBVVCDEC_LUMA > 8)
          != decide (s.functions.libvvcdec_get_picture_bit_depth s.decoder
            libvvcdec_ColorComponent.LIBVVCDEC_CHROMA_U > 8)) ||
        (decide (s.functions.libvvcdec_get_picture_bit_depth s.decoder
            libvvcdec_ColorComponent.LIBVVCDEC_LUMA > 8)
          != decide (s.functions.libvvcdec_get_picture_bit_depth s.decoder
            libvvcdec_ColorComponent.LIBVVCDEC_CHROMA_V > 8))) = true) := h2
  refine ⟨h1, ?_, ?_, ?_⟩
  · intro h400
    have hn : nrPlanes (s.functions.libvvcdec_get_picture_chroma_format s.decoder) > 1 := by
      have : nrPlanes (s.functions.libvvcdec_get_picture_chroma_format s.decoder) = 3 :=
        if_neg h400
      omega
    have hb2 : ¬ ((decide (s.functions.libvvcdec_get_picture_bit_depth s.decoder
            libvvcdec_ColorComponent.LIBVVCDEC_LUMA > 8)
          != decide (s.functions.libvvcdec_get_picture_bit_depth s.decoder
            libvvcdec_ColorComponent.LIBVVCDEC_CHROMA_U > 8)) ||
        (decide (s.functions.libvvcdec_get_picture_bit_depth s.decoder
            libvvcdec_ColorComponent.LIBVVCDEC_LUMA > 8)
          != decide (s.functions.libvvcdec_get_picture_bit_depth s.decoder
            libvvcdec_ColorComponent.LIBVVCDEC_CHROMA_V > 8))) = true := fun h => hb ⟨hn, h⟩
    simp only [Bool.or_eq_true, bne_iff_ne, ne_eq, decide_eq_decide, gt_iff_lt, not_or,
      not_not] at hb2
    simp only [picBitDepth]
    omega
  · by_contra h
    exact h3 (Or.inl h)
  · by_contra h
    exact h3 (Or.inr h)

open decoderVVCDec in
theorem copyWrites_eq {D : Type} (s : decoderVVCDec D) (hc : s.checksPass) (hf : s.fitsInt) :
    s.copyWrites =
      planeWrites s.functions s.decoder
        (s.picWidth libvvcdec_ColorComponent.LIBVVCDEC_LUMA,
         s.picWidth libvvcdec_ColorComponent.LIBVVCDEC_CHROMA_U)
        (s.picHeight libvvcdec_ColorComponent.LIBVVCDEC_LUMA,
         s.picHeight libvvcdec_ColorComponent.LIBVVCDEC_CHROMA_U)
        (decide (s.picBitDepth libvvcdec_ColorComponent.LIBVVCDEC_LUMA > 8))
        s.lumaBytes s.chromaBytes (nrPlanes s.picChromaFormat) 0 := by
  obtain ⟨hfmt, hdepth, hw, hh⟩ := hc
  unfold fitsInt at hf
  have hguard2 : ¬ (nrPlanes s.picChromaFormat > 1 ∧
      ((decide (s.picBitDepth libvvcdec_ColorComponent.LIBVVCDEC_LUMA > 8)
          != decide (s.picBitDepth libvvcdec_ColorComponent.LIBVVCDEC_CHROMA_U > 8)) ||
        (decide (s.picBitDepth libvvcdec_ColorComponent.LIBVVCDEC_LUMA > 8)
          != decide (s.picBitDepth libvvcdec_ColorComponent.LIBVVCDEC_CHROMA_V > 8))) = true) := by
    rintro ⟨hn, hb⟩
    have h400 : s.picChromaFormat ≠ libvvcdec_ChromaFormat.LIBVVCDEC_CHROMA_400 := by
      intro h
      rw [(nrPlanes_eq_one_iff _).mpr h] at hn
      omega
    obtain ⟨hU, hV⟩ := hdepth h400
    simp only [Bool.or_eq_true, bne_iff_ne, ne_eq, decide_eq_decide, gt_iff_lt] at hb
    omega
  have hguard3 : ¬ (s.picWidth libvvcdec_ColorComponent.LIBVVCDEC_CHROMA_V ≠
        s.picWidth libvvcdec_ColorComponent.LIBVVCDEC_CHROMA_U ∨
      s.picHeight libvvcdec_ColorComponent.LIBVVCDEC_CHROMA_V ≠
        s.picHeight libvvcdec_ColorComponent.LIBVVCDEC_CHROMA_U) := by
    simp [hw, hh]
  unfold copyWrites
  dsimp only
  simp only [picChromaFormat, picBitDepth, picWidth, picHeight, lumaBytes, chromaBytes,
    sampleWidth] at hfmt hguard2 hguard3 hf ⊢
  rw [if_neg hfmt, if_neg hguard2, if_neg hguard3]
  simp only [sampleBytes_decide, nrPlanes_eq_one_iff]
  generalize u32 (s.functions.libvvcdec_get_picture_width s.decoder
    libvvcdec_ColorComponent.LIBVVCDEC_LUMA) = wL at hf ⊢
  generalize u32 (s.functions.libvvcdec_get_picture_height s.decoder
    libvvcdec_ColorComponent.LIBVVCDEC_LUMA) = hL at hf ⊢
  generalize u32 (s.functions.libvvcdec_get_picture_width s.decoder
    libvvcdec_ColorComponent.LIBVVCDEC_CHROMA_U) = wU at hf ⊢
  generalize u32 (s.functions.libvvcdec_get_picture_height s.decoder
    libvvcdec_ColorComponent.LIBVVCDEC_CHROMA_U) = hU at hf ⊢
  have hsw : 1 ≤ (if s.functions.libvvcdec_get_picture_bit_depth s.decoder
      libvvcdec_ColorComponent.LIBVVCDEC_LUMA ≤ 8 then 1 else 2) := by
    split <;> omega
  generalize (if s.functions.libvvcdec_get_picture_bit_depth s.decoder
    libvvcdec_ColorComponent.LIBVVCDEC_LUMA ≤ 8 then 1 else 2) = sw at hf hsw ⊢
  have hLe : u32 (u32 (wL * hL) * sw) = wL * hL * sw := u32_mul3 _ _ _ (by omega) hsw
  have hCe : (if s.functions.libvvcdec_get_picture_chroma_format s.decoder =
        libvvcdec_ChromaFormat.LIBVVCDEC_CHROMA_400 then 0 else u32 (u32 (wU * hU) * sw))
      = (if s.functions.libvvcdec_get_picture_chroma_format s.decoder =
        libvvcdec_ChromaFormat.LIBVVCDEC_CHROMA_400 then 0 else wU * hU * sw) := by
    split
    · rfl
    · rename_i h400
      rw [if_neg h400] at hf
      exact u32_mul3 _ _ _ (by omega) hsw
  rw [hLe, hCe]

open decoderVVCDec in
theorem planeWrites_one_tiles {D : Type} (f : LibraryFunctions D) (dec : Option D)
    (width height : Nat × Nat) (two : Bool) (lB cB : Nat)
    (hL : height.1 * u32 (width.1 * sampleBytes two) = lB) :
    ∃ b, b ≤ lB ∧ tiles 0 (planeWrites f dec width height two lB cB 1 0) b ∧
      (planeWrites f dec width height two lB cB 1 0).Pairwise
        (fun a b => a.plane < b.plane ∨ (a.plane = b.plane ∧ a.row < b.row)) ∧
      ((f.libvvcdec_get_picture_plane dec libvvcdec_ColorComponent.LIBVVCDEC_LUMA).isSome = true →
        b = lB) := by
  cases hpL : f.libvvcdec_get_picture_plane dec libvvcdec_ColorComponent.LIBVVCDEC_LUMA with
  | none =>
    refine ⟨0, Nat.zero_le _, ?_, ?_, ?_⟩
    · simp [planeWrites, colorComponentMap, hpL, tiles]
    · simp [planeWrites, colorComponentMap, hpL]
    · intro h; simp at h
  | some sL =>
    have e : planeWrites f dec width height two lB cB 1 0
        = rowWrites 0 (f.libvvcdec_get_picture_stride dec libvvcdec_ColorComponent.LIBVVCDEC_LUMA)
            (u32 (width.1 * sampleBytes two)) height.1 0 0 0 := by
      simp [planeWrites, colorComponentMap, hpL, idx2]
    rw [e]
    refine ⟨lB, Nat.le_refl _, ?_, rowWrites_sorted _ _ _ _ _ _ _, fun _ => rfl⟩
    have h := tiles_rowWrites 0
      (f.libvvcdec_get_picture_stride dec libvvcdec_ColorComponent.LIBVVCDEC_LUMA)
      (u32 (width.1 * sampleBytes two)) height.1 0 0 0
    rw [Nat.zero_add, hL] at h
    exact h

open decoderVVCDec in
theorem planeWrites_three_tiles {D : Type} (f : LibraryFunctions D) (dec : Option D)
    (width height : Nat × Nat) (two : Bool) (lB cB : Nat)
    (hL : height.1 * u32 (width.1 * sampleBytes two) = lB)
    (hC : height.2 * u32 (width.2 * sampleBytes two) = cB) :
    ∃ b, b ≤ lB + 2 * cB ∧ tiles 0 (planeWrites f dec width height two lB cB 3 0) b ∧
      (planeWrites f dec width height two lB cB 3 0).Pairwise
        (fun a b => a.plane < b.plane ∨ (a.plane = b.plane ∧ a.row < b.row)) ∧
      ((f.libvvcdec_get_picture_plane dec libvvcdec_ColorComponent.LIBVVCDEC_LUMA).isSome = true →
        (f.libvvcdec_get_picture_plane dec libvvcdec_ColorComponent.LIBVVCDEC_CHROMA_U).isSome
          = true →
        (f.libvvcdec_get_picture_plane dec libvvcdec_ColorComponent.LIBVVCDEC_CHROMA_V).isSome
          = true →
        b = lB + 2 * cB) := by
  have tL := tiles_rowWrites 0
    (f.libvvcdec_get_picture_stride dec libvvcdec_ColorComponent.LIBVVCDEC_LUMA)
    (u32 (width.1 * sampleBytes two)) height.1 0 0 0
  rw [Nat.zero_add, hL] at tL
  have tU := tiles_rowWrites 1
    (f.libvvcdec_get_picture_stride dec libvvcdec_ColorComponent.LIBVVCDEC_CHROMA_U)
    (u32 (width.2 * sampleBytes two)) height.2 0 0 lB
  rw [hC] at tU
  have tV := tiles_rowWrites 2
    (f.libvvcdec_get_picture_stride dec libvvcdec_ColorComponent.LIBVVCDEC_CHROMA_V)
    (u32 (width.2 * sampleBytes two)) height.2 0 0 (lB + cB)
  rw [hC] at tV
  have kL := rowWrites_key 0
    (f.libvvcdec_get_picture_stride dec libvvcdec_ColorComponent.LIBVVCDEC_LUMA)
    (u32 (width.1 * sampleBytes two)) height.1 0 0 0
  have kU := rowWrites_key 1
    (f.libvvcdec_get_picture_stride dec libvvcdec_ColorComponent.LIBVVCDEC_CHROMA_U)
    (u32 (width.2 * sampleBytes two)) height.2 0 0 lB
  have kV := rowWrites_key 2
    (f.libvvcdec_get_picture_stride dec libvvcdec_ColorComponent.LIBVVCDEC_CHROMA_V)
    (u32 (width.2 * sampleBytes two)) height.2 0 0 (lB + cB)
  cases hpL : f.libvvcdec_get_picture_plane dec libvvcdec_ColorComponent.LIBVVCDEC_LUMA with
  | none =>
    refine ⟨0, Nat.zero_le _, ?_, ?_, ?_⟩
    · simp [planeWrites, colorComponentMap, hpL, tiles]
    · simp [planeWrites, colorComponentMap, hpL]
    · intro h; simp at h
  | some sL =>
    cases hpU : f.libvvcdec_get_picture_plane dec libvvcdec_ColorComponent.LIBVVCDEC_CHROMA_U with
    | none =>
      have e : planeWrites f dec width height two lB cB 3 0
          = rowWrites 0
              (f.libvvcdec_get_picture_stride dec libvvcdec_ColorComponent.LIBVVCDEC_LUMA)
              (u32 (width.1 * sampleBytes two)) height.1 0 0 0 := by
        simp [planeWrites, colorComponentMap, hpL, hpU, idx2]
      rw [e]
      refine ⟨lB, by omega, tL, rowWrites_sorted _ _ _ _ _ _ _, ?_⟩
      intro _ h; simp at h
    | some sU =>
      cases hpV : f.libvvcdec_get_picture_plane dec
          libvvcdec_ColorComponent.LIBVVCDEC_CHROMA_V with
      | none =>
        have e : planeWrites f dec width height two lB cB 3 0
            = rowWrites 0
                (f.libvvcdec_get_picture_stride dec libvvcdec_ColorComponent.LIBVVCDEC_LUMA)
                (u32 (width.1 * sampleBytes two)) height.1 0 0 0 ++
              rowWrites 1
                (f.libvvcdec_get_picture_stride dec libvvcdec_ColorComponent.LIBVVCDEC_CHROMA_U)
                (u32 (width.2 * sampleBytes two)) height.2 0 0 lB := by
          simp [planeWrites, colorComponentMap, hpL, hpU, hpV, idx2]
        rw [e]
        refine ⟨lB + cB, by omega, tiles_append _ _ _ _ _ tL tU, ?_, ?_⟩
        · refine List.pairwise_append.mpr ⟨rowWrites_sorted _ _ _ _ _ _ _,
            rowWrites_sorted _ _ _ _ _ _ _, ?_⟩
          intro a ha b hb
          left
          rw [(kL a ha).1, (kU b hb).1]
          decide
        · intro _ _ h; simp at h
      | some sV =>
        have e : planeWrites f dec width height two lB cB 3 0
            = rowWrites 0
                (f.libvvcdec_get_picture_stride dec libvvcdec_ColorComponent.LIBVVCDEC_LUMA)
                (u32 (width.1 * sampleBytes two)) height.1 0 0 0 ++
              (rowWrites 1
                (f.libvvcdec_get_picture_stride dec libvvcdec_ColorComponent.LIBVVCDEC_CHROMA_U)
                (u32 (width.2 * sampleBytes two)) height.2 0 0 lB ++
              rowWrites 2
                (f.libvvcdec_get_picture_stride dec libvvcdec_ColorComponent.LIBVVCDEC_CHROMA_V)
                (u32 (width.2 * sampleBytes two)) height.2 0 0 (lB + cB)) := by
          simp [planeWrites, colorComponentMap, hpL, hpU, hpV, idx2]
        rw [e]
        have tall := tiles_append _ _ _ _ _ tL (tiles_append _ _ _ _ _ tU tV)
        have eb : lB + cB + cB = lB + 2 * cB := by omega
        rw [eb] at tall
        refine ⟨lB + 2 * cB, Nat.le_refl _, tall, ?_, fun _ _ _ => rfl⟩
        refine List.pairwise_append.mpr ⟨rowWrites_sorted _ _ _ _ _ _ _,
          List.pairwise_append.mpr ⟨rowWrites_sorted _ _ _ _ _ _ _,
            rowWrites_sorted _ _ _ _ _ _ _, ?_⟩, ?_⟩
        · intro a ha b hb
          left
          rw [(kU a ha).1, (kV b hb).1]
          decide
        · intro a ha b hb
          left
          rcases List.mem_append.mp hb with hb | hb
          · rw [(kL a ha).1, (kU b hb).1]
            decide
          · rw [(kL a ha).1, (kV b hb).1]
            decide

open decoderVVCDec in
theorem copyWrites_tiles {D : Type} (s : decoderVVCDec D) (hf : s.fitsInt) :
    ∃ b, b ≤ s.nrBytesOutput ∧ tiles 0 s.copyWrites b ∧
      s.copyWrites.Pairwise
        (fun a b => a.plane < b.plane ∨ (a.plane = b.plane ∧ a.row < b.row)) ∧
      (s.checksPass → s.planesPresent → b = s.nrBytesOutput) := by
  rw [nrBytesOutput_eq s hf]
  by_cases hc : s.checksPass
  · rw [copyWrites_eq s hc hf]
    have hf2 := hf
    unfold fitsInt at hf2
    have hlumaLt : s.picWidth libvvcdec_ColorComponent.LIBVVCDEC_LUMA *
        s.picHeight libvvcdec_ColorComponent.LIBVVCDEC_LUMA * s.sampleWidth < 2 ^ 32 := by
      have : s.lumaBytes < 2 ^ 32 := by omega
      exact this
    have hL : s.picHeight libvvcdec_ColorComponent.LIBVVCDEC_LUMA *
        u32 (s.picWidth libvvcdec_ColorComponent.LIBVVCDEC_LUMA *
          sampleBytes (decide (s.picBitDepth libvvcdec_ColorComponent.LIBVVCDEC_LUMA > 8)))
        = s.lumaBytes := by
      rw [sampleBytes_eq_sampleWidth]
      exact rows_mul_u32 _ _ _ hlumaLt
    by_cases h400 : s.picChromaFormat = libvvcdec_ChromaFormat.LIBVVCDEC_CHROMA_400
    · have hcB : s.chromaBytes = 0 := by simp [chromaBytes, h400]
      rw [(nrPlanes_eq_one_iff _).mpr h400]
      obtain ⟨b, hb, ht, hs, hfull⟩ := planeWrites_one_tiles s.functions s.decoder
        (s.picWidth libvvcdec_ColorComponent.LIBVVCDEC_LUMA,
         s.picWidth libvvcdec_ColorComponent.LIBVVCDEC_CHROMA_U)
        (s.picHeight libvvcdec_ColorComponent.LIBVVCDEC_LUMA,
         s.picHeight libvvcdec_ColorComponent.LIBVVCDEC_CHROMA_U)
        (decide (s.picBitDepth libvvcdec_ColorComponent.LIBVVCDEC_LUMA > 8))
        s.lumaBytes s.chromaBytes hL
      refine ⟨b, by omega, ht, hs, ?_⟩
      intro _ hp
      rw [hfull hp.1, hcB]
      omega
    · have hcB : s.chromaBytes = s.picWidth libvvcdec_ColorComponent.LIBVVCDEC_CHROMA_U *
          s.picHeight libvvcdec_ColorComponent.LIBVVCDEC_CHROMA_U * s.sampleWidth := by
        simp [chromaBytes, h400]
      have hchromaLt : s.picWidth libvvcdec_ColorComponent.LIBVVCDEC_CHROMA_U *
          s.picHeight libvvcdec_ColorComponent.LIBVVCDEC_CHROMA_U * s.sampleWidth < 2 ^ 32 := by
        rw [← hcB]; omega
      have hC : s.picHeight libvvcdec_ColorComponent.LIBVVCDEC_CHROMA_U *
          u32 (s.picWidth libvvcdec_ColorComponent.LIBVVCDEC_CHROMA_U *
            sampleBytes (decide (s.picBitDepth libvvcdec_ColorComponent.LIBVVCDEC_LUMA > 8)))
          = s.chromaBytes := by
        rw [sampleBytes_eq_sampleWidth, hcB]
        exact rows_mul_u32 _ _ _ hchromaLt
      have hn3 : nrPlanes s.picChromaFormat = 3 := by simp [nrPlanes, h400]
      rw [hn3]
      obtain ⟨b, hb, ht, hs, hfull⟩ := planeWrites_three_tiles s.functions s.decoder
        (s.picWidth libvvcdec_ColorComponent.LIBVVCDEC_LUMA,
         s.picWidth libvvcdec_ColorComponent.LIBVVCDEC_CHROMA_U)
        (s.picHeight libvvcdec_ColorComponent.LIBVVCDEC_LUMA,
         s.picHeight libvvcdec_ColorComponent.LIBVVCDEC_CHROMA_U)
        (decide (s.picBitDepth libvvcdec_ColorComponent.LIBVVCDEC_LUMA > 8))
        s.lumaBytes s.chromaBytes hL hC
      refine ⟨b, hb, ht, hs, ?_⟩
      intro _ hp
      exact hfull hp.1 (hp.2 h400).1 (hp.2 h400).2
  · rw [copyWrites_abort s hc]
    exact ⟨0, Nat.zero_le _, rfl, List.Pairwise.nil, fun h => absurd h hc⟩

open decoderVVCDec in
theorem copyImgToByteArray_null_writes {D : Type} (s : decoderVVCDec D)
    (hc : s.checksPass) (hf : s.fitsInt) :
    (copyImgToByteArray s QByteArray.null).1.bytes
      = s.copyWrites.foldl (applyWrite s.functions s.decoder)
          (List.replicate s.nrBytesOutput 0) := by
  rw [copyImgToByteArray_eq s QByteArray.null hc hf, copyWrites_eq s hc hf,
    nrBytesOutput_eq s hf]
  dsimp only
  rw [copyPlanes_eq_writes]
  congr 1
  by_cases h0 : s.lumaBytes + 2 * s.chromaBytes = 0
  · rw [h0]
    simp [QByteArray.null]
  · have hpos : (QByteArray.null.capacity : Int)
        < ((s.lumaBytes + 2 * s.chromaBytes : Nat) : Int) := by
      have : 0 < s.lumaBytes + 2 * s.chromaBytes := Nat.pos_of_ne_zero h0
      show ((0 : Nat) : Int) < ((s.lumaBytes + 2 * s.chromaBytes : Nat) : Int)
      exact_mod_cast this
    rw [if_pos hpos]
    simp [QByteArray.resize, QByteArray.null]

/-! ## C21: when the stored baseline is written -/

open decoderVVCDec in
/-- C21: the stored frame size and pixel format are written only when both are invalid.
When the stored frame size or the stored pixel format is valid, no call of `pushData`,
`decodeNextFrame`, `getRawFrameData` or `resetDecoder`, and no sequence of such calls,
changes `frameSize` or `formatYUV`.  Conversely, when both are invalid and a first picture
reports an invalid size and an invalid format, that picture is adopted, and after the frame
is fetched the next completed picture is accepted whatever it reports: `pushData` returns
true in `RetrieveFrames`, the error string is untouched, and the values of the later
picture replace the stored ones. -/
theorem C21_baseline_written_only_when_unset {D : Type} (V : Validity) (s : decoderVVCDec D) :
    (s.baselineSet V →
      (∀ data : QByteArray,
        (pushData V s data).1.frameSize = s.frameSize ∧
        (pushData V s data).1.formatYUV = s.formatYUV) ∧
      ((decodeNextFrame V s).1.frameSize = s.frameSize ∧
        (decodeNextFrame V s).1.formatYUV = s.formatYUV) ∧
      ((getRawFrameData s).1.frameSize = s.frameSize ∧
        (getRawFrameData s).1.formatYUV = s.formatYUV) ∧
      ((resetDecoder s).frameSize = s.frameSize ∧
        (resetDecoder s).formatYUV = s.formatYUV) ∧
      (∀ calls : List AdapterCall,
        (runCalls V s calls).frameSize = s.frameSize ∧
        (runCalls V s calls).formatYUV = s.formatYUV)) ∧
    (∀ data1 data2 : QByteArray,
      s.decoderState = DecoderState.NeedsMoreData →
      ¬ s.baselineSet V →
      (s.ingestResult data1).err = libvvcdec_error.LIBVVCDEC_OK →
      (s.ingestResult data1).checkOutputPictures = true →
      V.sizeIsValid (s.afterIngest data1).reportedSize = false →
      V.formatIsValid
        { subsampling := (s.afterIngest data1).reportedSubsampling
          bitsPerSample := (s.afterIngest data1).reportedBitDepth } = false →
      ((getRawFrameData (pushData V s data1).1).1.ingestResult data2).err
        = libvvcdec_error.LIBVVCDEC_OK →
      ((getRawFrameData (pushData V s data1).1).1.ingestResult data2).checkOutputPictures
        = true →
        (pushData V s data1).1.frameSize = (s.afterIngest data1).reportedSize ∧
        (pushData V s data1).1.formatYUV =
          { subsampling := (s.afterIngest data1).reportedSubsampling
            bitsPerSample := (s.afterIngest data1).reportedBitDepth } ∧
        (pushData V (getRawFrameData (pushData V s data1).1).1 data2).2 = true ∧
        (pushData V (getRawFrameData (pushData V s data1).1).1 data2).1.decoderState
          = DecoderState.RetrieveFrames ∧
        (pushData V (getRawFrameData (pushData V s data1).1).1 data2).1.errorString
          = s.errorString ∧
        (pushData V (getRawFrameData (pushData V s data1).1).1 data2).1.frameSize
          = ((getRawFrameData (pushData V s data1).1).1.afterIngest data2).reportedSize ∧
        (pushData V (getRawFrameData (pushData V s data1).1).1 data2).1.formatYUV =
          { subsampling :=
              ((getRawFrameData (pushData V s data1).1).1.afterIngest data2).reportedSubsampling
            bitsPerSample :=
              ((getRawFrameData (pushData V s data1).1).1.afterIngest data2).reportedBitDepth }) := by
  constructor
  · intro h
    exact ⟨fun data => pushData_keeps V s data h, decodeNextFrame_keeps V s h,
      getRawFrameData_keeps s, ⟨(resetDecoder_frame s).1, (resetDecoder_frame s).2.1⟩,
      fun calls => runCalls_keeps V calls s h⟩
  · intro data1 data2 hstate hnone hok hout hsz hfm hok2 hout2
    have hg1 := getNextFrameFromDecoder_adopt V (s.afterIngest data1) hnone
    have hp1 := pushData_complete V s data1 hstate hok hout (by rw [hg1])
    have e1 : (pushData V s data1).1.frameSize = (s.afterIngest data1).reportedSize := by
      rw [hp1, hg1]
    have e2 : (pushData V s data1).1.formatYUV =
        { subsampling := (s.afterIngest data1).reportedSubsampling
          bitsPerSample := (s.afterIngest data1).reportedBitDepth } := by
      rw [hp1, hg1]
    have est : (pushData V s data1).1.decoderState = DecoderState.RetrieveFrames := by
      rw [hp1]
    have eerr : (pushData V s data1).1.errorString = s.errorString := by
      rw [hp1, hg1]
      rfl
    obtain ⟨g1, g2, g3, g4⟩ := getRawFrameData_state (pushData V s data1).1 est
    have hn2 : ¬ (getRawFrameData (pushData V s data1).1).1.baselineSet V := by
      unfold baselineSet
      rw [g3, g4, e1, e2, hsz, hfm]
      simp
    have hg2 := getNextFrameFromDecoder_adopt V
      ((getRawFrameData (pushData V s data1).1).1.afterIngest data2) hn2
    have hp2 := pushData_complete V (getRawFrameData (pushData V s data1).1).1 data2 g1
      hok2 hout2 (by rw [hg2])
    refine ⟨e1, e2, ?_⟩
    rw [hp2, hg2]
    exact ⟨rfl, rfl, g2.trans eerr, rfl, rfl⟩

open decoderVVCDec in
/-- Run of C21.  After the 4x4 picture is the baseline, a sequence of a fetch, a reset, a
push that completes a 16x16 picture and a further push leaves the stored frame size 4x4.
After a first picture that reports 0x0, an unknown chroma format and the bit depth 0, the
4x4 picture that follows is accepted and its size replaces the stored one. -/
theorem C21_baseline_written_witness :
    (runCalls specValidity
      (pushData specValidity (testAdapter [testPicture420, testPicture400]) testUnit).1
      [AdapterCall.getRawFrameData, AdapterCall.resetDecoder, AdapterCall.pushData testUnit,
       AdapterCall.decodeNextFrame, AdapterCall.pushData testUnit]).frameSize
        = { width := 4, height := 4 } ∧
    (pushData specValidity (testAdapter [testPictureZero, testPicture420]) testUnit).1.frameSize
      = { width := 0, height := 0 } ∧
    (pushData specValidity (getRawFrameData (pushData specValidity
      (testAdapter [testPictureZero, testPicture420]) testUnit).1).1 testUnit).1.decoderState
        = DecoderState.RetrieveFrames ∧
    (pushData specValidity (getRawFrameData (pushData specValidity
      (testAdapter [testPictureZero, testPicture420]) testUnit).1).1 testUnit).1.frameSize
        = { width := 4, height := 4 } :=
  ⟨(((C21_baseline_written_only_when_unset specValidity
      (pushData specValidity (testAdapter [testPicture420, testPicture400]) testUnit).1).1
      (by decide)).2.2.2.2
      [AdapterCall.getRawFrameData, AdapterCall.resetDecoder, AdapterCall.pushData testUnit,
       AdapterCall.decodeNextFrame, AdapterCall.pushData testUnit]).1.trans (by decide),
   ((C21_baseline_written_only_when_unset specValidity
      (testAdapter [testPictureZero, testPicture420])).2 testUnit testUnit
      (by decide) (by decide) (by decide) (by decide) (by decide) (by decide) (by decide)
      (by decide)).1.trans (by decide),
   ((C21_baseline_written_only_when_unset specValidity
      (testAdapter [testPictureZero, testPicture420])).2 testUnit testUnit
      (by decide) (by decide) (by decide) (by decide) (by decide) (by decide) (by decide)
      (by decide)).2.2.2.1,
   ((C21_baseline_written_only_when_unset specValidity
      (testAdapter [testPictureZero, testPicture420])).2 testUnit testUnit
      (by decide) (by decide) (by decide) (by decide) (by decide) (by decide) (by decide)
      (by decide)).2.2.2.2.2.1.trans (by decide)⟩

/-! ## C22: the output buffer in `RetrieveFrames` -/

open decoderVVCDec in
/-- C22: in every state reached from an adapter in `NeedsMoreData` by a sequence of calls
of `pushData`, `decodeNextFrame`, `getRawFrameData` and `resetDecoder`, the state
`RetrieveFrames` implies that the output buffer is empty (it is the null byte array).  So a
call of `getRawFrameData` in `RetrieveFrames` runs `copyImgToByteArray` on the empty buffer
and returns what it assembles from the current picture; the result depends on the function
table and the external decoder only, and two histories that end in `RetrieveFrames` with
the same external decoder return the same bytes. -/
theorem C22_retrieve_implies_empty_buffer {D : Type} (V : Validity) (s0 : decoderVVCDec D)
    (calls : List AdapterCall) (hfresh : s0.decoderState = DecoderState.NeedsMoreData) :
    ((runCalls V s0 calls).decoderState = DecoderState.RetrieveFrames →
      (runCalls V s0 calls).currentOutputBuffer.isEmpty = true ∧
      (runCalls V s0 calls).currentOutputBuffer = QByteArray.null ∧
      (getRawFrameData (runCalls V s0 calls)).2
        = (copyImgToByteArray (runCalls V s0 calls) QByteArray.null).1 ∧
      (getRawFrameData (runCalls V s0 calls)).1.currentOutputBuffer
        = (copyImgToByteArray (runCalls V s0 calls) QByteArray.null).1 ∧
      (getRawFrameData (runCalls V s0 calls)).1.calls
        = (runCalls V s0 calls).calls
          ++ (copyImgToByteArray (runCalls V s0 calls) QByteArray.null).2) ∧
    (∀ (t0 : decoderVVCDec D) (calls2 : List AdapterCall),
      t0.decoderState = DecoderState.NeedsMoreData →
      (runCalls V s0 calls).decoderState = DecoderState.RetrieveFrames →
      (runCalls V t0 calls2).decoderState = DecoderState.RetrieveFrames →
      (runCalls V t0 calls2).functions = (runCalls V s0 calls).functions →
      (runCalls V t0 calls2).decoder = (runCalls V s0 calls).decoder →
        (getRawFrameData (runCalls V t0 calls2)).2 = (getRawFrameData (runCalls V s0 calls)).2) := by
  have hinv : ∀ (u : decoderVVCDec D) (cs : List AdapterCall),
      u.decoderState = DecoderState.NeedsMoreData →
      (runCalls V u cs).decoderState = DecoderState.RetrieveFrames →
        (runCalls V u cs).currentOutputBuffer = QByteArray.null := by
    intro u cs hu
    exact runCalls_buffer V cs u (fun h => absurd (hu ▸ h) (by decide))
  constructor
  · intro hr
    have hb := hinv s0 calls hfresh hr
    rw [getRawFrameData_fresh _ hr hb]
    exact ⟨by rw [hb]; rfl, hb, rfl, rfl, rfl⟩
  · intro t0 calls2 ht hr hr2 hf hd
    rw [getRawFrameData_fresh _ hr (hinv s0 calls hfresh hr),
      getRawFrameData_fresh _ hr2 (hinv t0 calls2 ht hr2)]
    exact congrArg Prod.fst (copyImgToByteArray_congr _ _ QByteArray.null hf hd)

open decoderVVCDec in
/-- Run of C22: a first 2x2 picture is pushed and fetched, which leaves its six bytes in
the output buffer; the push of the second picture empties the buffer, and the fetch that
follows returns the bytes of the second picture. -/
theorem C22_retrieve_implies_empty_buffer_witness :
    (runCalls specValidity
      (testAdapter [{ testPictureNoU with plane := fun _ => some [1, 2, 3, 4] },
        { testPictureNoU with plane := fun _ => some [9, 8, 7, 6] }])
      [AdapterCall.pushData testUnit, AdapterCall.getRawFrameData]).currentOutputBuffer.bytes
        = [1, 2, 3, 4, 1, 1] ∧
    (runCalls specValidity
      (testAdapter [{ testPictureNoU with plane := fun _ => some [1, 2, 3, 4] },
        { testPictureNoU with plane := fun _ => some [9, 8, 7, 6] }])
      [AdapterCall.pushData testUnit, AdapterCall.getRawFrameData,
       AdapterCall.pushData testUnit]).currentOutputBuffer = QByteArray.null ∧
    (getRawFrameData (runCalls specValidity
      (testAdapter [{ testPictureNoU with plane := fun _ => some [1, 2, 3, 4] },
        { testPictureNoU with plane := fun _ => some [9, 8, 7, 6] }])
      [AdapterCall.pushData testUnit, AdapterCall.getRawFrameData,
       AdapterCall.pushData testUnit])).2.bytes = [9, 8, 7, 6, 9, 9] :=
  ⟨by decide,
   ((C22_retrieve_implies_empty_buffer specValidity
      (testAdapter [{ testPictureNoU with plane := fun _ => some [1, 2, 3, 4] },
        { testPictureNoU with plane := fun _ => some [9, 8, 7, 6] }])
      [AdapterCall.pushData testUnit, AdapterCall.getRawFrameData,
       AdapterCall.pushData testUnit] (by decide)).1 (by decide)).2.1,
   by decide⟩

/-! ## C23: write bounds of the plane copy -/

open decoderVVCDec in
/-- C23, as the code has it.  The computed `nrBytesOutput` is the true size
`lumaBytes + 2 * chromaBytes` modulo 2^32.  When the true size is below 2^31 (so no 32-bit
product or sum overflows and the size fits a signed 32-bit `int`), it equals the true size,
every row write of `copyImgToByteArray` targets a byte range inside `[0, nrBytesOutput)`,
the writes are made for distinct (plane, row) pairs, the ranges of distinct pairs are
disjoint, and no byte is written twice.  When moreover the checks of `copyImgToByteArray`
pass and no plane pointer is null, the ranges cover `[0, nrBytesOutput)`: every output byte
is written exactly once, and the buffer that starts empty has `nrBytesOutput` bytes and is
the result of these writes.  Without the bound on the size the write bound fails: for an
8-bit 4:0:0 picture of 2^31 x 2 samples `nrBytesOutput` is 0 and each row write is 2^31
bytes long. -/
theorem C23_write_bounds {D : Type} (s : decoderVVCDec D) :
    s.nrBytesOutput = (s.lumaBytes + 2 * s.chromaBytes) % 2 ^ 32 ∧
    (s.fitsInt →
      s.nrBytesOutput = s.lumaBytes + 2 * s.chromaBytes ∧
      (∀ w ∈ s.copyWrites, w.offset + w.length ≤ s.nrBytesOutput) ∧
      s.copyWrites.Pairwise (fun a b => a.offset + a.length ≤ b.offset) ∧
      (s.copyWrites.map fun w => (w.plane, w.row)).Nodup ∧
      (∀ a ∈ s.copyWrites, ∀ b ∈ s.copyWrites, (a.plane, a.row) ≠ (b.plane, b.row) →
        a.offset + a.length ≤ b.offset ∨ b.offset + b.length ≤ a.offset) ∧
      (∀ i : Nat, s.copyWrites.countP (fun w => w.covers i) ≤ 1) ∧
      (∀ i : Nat, s.nrBytesOutput ≤ i → s.copyWrites.countP (fun w => w.covers i) = 0)) ∧
    (s.fitsInt → s.checksPass → s.planesPresent →
      (∀ i : Nat, i < s.nrBytesOutput → s.copyWrites.countP (fun w => w.covers i) = 1) ∧
      (copyImgToByteArray s QByteArray.null).1.length = s.nrBytesOutput ∧
      (copyImgToByteArray s QByteArray.null).1.bytes
        = s.copyWrites.foldl (applyWrite s.functions s.decoder)
            (List.replicate s.nrBytesOutput 0)) ∧
    (∃ t : decoderVVCDec TestDecoder, t.checksPass ∧ t.planesPresent ∧ ¬ t.fitsInt ∧
      t.lumaBytes + 2 * t.chromaBytes = 2 ^ 32 ∧ t.nrBytesOutput = 0 ∧
      ∃ w ∈ t.copyWrites, ¬ (w.offset + w.length ≤ t.nrBytesOutput)) := by
  refine ⟨nrBytesOutput_mod s, ?_, ?_, ?_⟩
  · intro hf
    obtain ⟨b, hb, ht, hs, _⟩ := copyWrites_tiles s hf
    have hcount := tiles_count _ _ _ ht
    refine ⟨nrBytesOutput_eq s hf, ?_, tiles_pairwise _ _ _ ht, nodup_keys_of_sorted _ hs,
      disjoint_of_pairwise _ (tiles_pairwise _ _ _ ht), ?_, ?_⟩
    · intro w hw
      have := (tiles_bounds _ _ _ ht w hw).2
      omega
    · intro i
      rw [hcount i]
      split <;> omega
    · intro i hi
      rw [hcount i, if_neg (by omega)]
  · intro hf hc hp
    obtain ⟨b, _, ht, _, hfull⟩ := copyWrites_tiles s hf
    have hbN := hfull hc hp
    rw [hbN] at ht
    refine ⟨?_, ?_, copyImgToByteArray_null_writes s hc hf⟩
    · intro i hi
      rw [tiles_count _ _ _ ht i, if_pos ⟨Nat.zero_le _, hi⟩]
    · rw [nrBytesOutput_eq s hf]
      exact length_copyImgToByteArray s QByteArray.null hc hf (null_sized _)
  · exact ⟨testAdapterWithPicture testPictureOverflow, by decide, by decide, by decide,
      by decide, by decide,
      { plane := 0, row := 0, offset := 0, source := 0, length := 2147483648 },
      by decide, by decide⟩

open decoderVVCDec in
/-- Run of C23 on the 4:2:0, 10-bit picture with a 4x4 luma plane and 2x2 chroma planes: 48
bytes, the last row write ends at byte 48, and the bytes 0, 31, 32 and 47 are each written
once. -/
theorem C23_write_bounds_witness :
    (testAdapterWithPicture testPicture420).nrBytesOutput = 48 ∧
    (testAdapterWithPicture testPicture420).copyWrites.length = 8 ∧
    (testAdapterWithPicture testPicture420).copyWrites.countP (fun w => w.covers 0) = 1 ∧
    (testAdapterWithPicture testPicture420).copyWrites.countP (fun w => w.covers 31) = 1 ∧
    (testAdapterWithPicture testPicture420).copyWrites.countP (fun w => w.covers 32) = 1 ∧
    (testAdapterWithPicture testPicture420).copyWrites.countP (fun w => w.covers 47) = 1 ∧
    (testAdapterWithPicture testPicture420).copyWrites.countP (fun w => w.covers 48) = 0 ∧
    (copyImgToByteArray (testAdapterWithPicture testPicture420) QByteArray.null).1.length
      = (testAdapterWithPicture testPicture420).nrBytesOutput :=
  ⟨by decide, by decide,
   ((C23_write_bounds (testAdapterWithPicture testPicture420)).2.2.1
      (by decide) (by decide) (by decide)).1 0 (by decide),
   ((C23_write_bounds (testAdapterWithPicture testPicture420)).2.2.1
      (by decide) (by decide) (by decide)).1 31 (by decide),
   ((C23_write_bounds (testAdapterWithPicture testPicture420)).2.2.1
      (by decide) (by decide) (by decide)).1 32 (by decide),
   ((C23_write_bounds (testAdapterWithPicture testPicture420)).2.2.1
      (by decide) (by decide) (by decide)).1 47 (by decide),
   ((C23_write_bounds (testAdapterWithPicture testPicture420)).2.1
      (by decide)).2.2.2.2.2.2 48 (by decide),
   ((C23_write_bounds (testAdapterWithPicture testPicture420)).2.2.1
      (by decide) (by decide) (by decide)).2.1⟩

open decoderVVCDec in
/-- C23, as stated, fails: for the 4:2:0, 8-bit picture with a 2x2 luma plane and 1x1 chroma
planes whose U plane has a null pointer, no product or sum overflows, the size 6 fits an
`int` and the destination starts empty.  `copyImgToByteArray` sizes the buffer to
`nrBytesOutput` = 6 bytes, makes the two row writes of luma, `[0, 2)` and `[2, 4)`, and
returns at the null pointer: the bytes 4 and 5 are never written. -/
theorem C23_write_bounds_counterexample :
    (testAdapterWithPicture testPictureNoU).fitsInt ∧
    (testAdapterWithPicture testPictureNoU).lumaBytes = 4 ∧
    (testAdapterWithPicture testPictureNoU).chromaBytes = 1 ∧
    (testAdapterWithPicture testPictureNoU).nrBytesOutput = 6 ∧
    (testAdapterWithPicture testPictureNoU).checksPass ∧
    ((testAdapterWithPicture testPictureNoU).picPlane
      libvvcdec_ColorComponent.LIBVVCDEC_CHROMA_U).isNone = true ∧
    (testAdapterWithPicture testPictureNoU).copyWrites
      = [{ plane := 0, row := 0, offset := 0, source := 0, length := 2 },
         { plane := 0, row := 1, offset := 2, source := 2, length := 2 }] ∧
    (testAdapterWithPicture testPictureNoU).copyWrites.countP (fun w => w.covers 4) = 0 ∧
    (testAdapterWithPicture testPictureNoU).copyWrites.countP (fun w => w.covers 5) = 0 ∧
    ¬ ((testAdapterWithPicture testPictureNoU).copyWrites.countP (fun w => w.covers 4) = 1) ∧
    (copyImgToByteArray (testAdapterWithPicture testPictureNoU) QByteArray.null).1.bytes
      = [1, 2, 3, 4, 0, 0] := by
  decide
